import Mathlib

/-!
# Drug traceability chaincode: a shallow embedding

Source: `src/chaincode/go/drug_traceability.go`.

The chaincode is a state-transition function over the world state, a flat
key-value store.  Every Go function of the contract becomes a Lean function
from the store, the argument list and the clock readings of the invocation to
the response and the store after the invocation.

Modelling decisions.

* Go strings are Lean strings (valid Unicode text).  `len` is the length in
  bytes (`String.utf8ByteSize`).
* The world state is a list of key/value pairs kept in ascending key order,
  the order in which `GetStateByRange("", "")` iterates.  `GetState` and
  `PutState` never fail (no store error) and the contract never passes the
  empty key to `PutState`.
* A stored value is seen through `encoding/json`: it is a JSON object (the
  list of its members), the JSON `null`, or bytes that do not decode into a
  struct at all.  `json.Marshal` of the two record structs and
  `json.Unmarshal` into them follow the struct tags of the source; unknown
  members are ignored and absent members leave the zero value.
* `time.Now()` is an input: the `k`-th call of an invocation returns
  `now k`, in nanoseconds since the epoch.
* An invocation that returns `shim.Error` leaves the store as it was.
-/

namespace MedChain

/-! ## Data model -/

/-- The record of one medication unit (`MedicationData` in the source). -/
structure MedicationData where
  ID : String
  GTIN : String
  Batch : String
  SerialNumber : String
  ExpiryDate : String
  Manufacturer : String
  ProductName : String
  Location : String
  Timestamp : Int
  TransactionHash : String
  Status : String
  CommissionTime : Int
  RecallReason : String
  deriving DecidableEq

/-- One tracking event (`TrackingEvent` in the source). -/
structure TrackingEvent where
  ID : String
  Event : String
  Location : String
  Timestamp : Int
  Actor : String
  MedicationID : String
  Signature : String
  deriving DecidableEq

/-- The result of a verification (`VerificationResult` in the source). -/
structure VerificationResult where
  IsValid : Bool
  MedicationData : MedicationData
  TrackingHistory : List TrackingEvent
  CurrentHolder : String
  VerificationTime : Int
  deriving DecidableEq

/-- The Go zero value of `MedicationData` (`var medication MedicationData`). -/
def MedicationData.zero : MedicationData :=
  { ID := "", GTIN := "", Batch := "", SerialNumber := "", ExpiryDate := "",
    Manufacturer := "", ProductName := "", Location := "", Timestamp := 0,
    TransactionHash := "", Status := "", CommissionTime := 0, RecallReason := "" }

/-- The Go zero value of `TrackingEvent` (`var event TrackingEvent`). -/
def TrackingEvent.zero : TrackingEvent :=
  { ID := "", Event := "", Location := "", Timestamp := 0, Actor := "",
    MedicationID := "", Signature := "" }

/-! ## Stored bytes, seen through `encoding/json` -/

/-- A member value of a stored JSON object.  `other` stands for every value
that decodes neither into a `string` nor into an `int64` field (booleans,
arrays, nested objects, numbers that are not 64-bit integers). -/
inductive JVal where
  | null
  | str (s : String)
  | num (n : Int)
  | other
  deriving DecidableEq

/-- The bytes stored under a key. -/
inductive Doc where
  | object (members : List (String × JVal))
  | null
  | undecodable (raw : String)
  deriving DecidableEq

/-- The value of member `name` of an object; the last occurrence wins. -/
def member : List (String × JVal) → String → Option JVal
  | [], _ => none
  | (k, v) :: rest, name =>
    match member rest name with
    | some w => some w
    | none => if k = name then some v else none

/-- Decoding member `name` into a Go `string` field that holds `""`. -/
def decodeString (o : List (String × JVal)) (name : String) : Option String :=
  match member o name with
  | none => some ""
  | some JVal.null => some ""
  | some (JVal.str s) => some s
  | some _ => none

/-- Decoding member `name` into a Go `int64` field that holds `0`. -/
def decodeInt64 (o : List (String × JVal)) (name : String) : Option Int :=
  match member o name with
  | none => some 0
  | some JVal.null => some 0
  | some (JVal.num n) => some n
  | some _ => none

/-- The text of the error of a failed `json.Unmarshal` (abbreviated). -/
def jsonError : String := "json: cannot unmarshal"

/-- The result of `json.Marshal(medication)`; `recallReason` is `omitempty`. -/
def marshalMedicationData (m : MedicationData) : Doc :=
  Doc.object
    ([("id", JVal.str m.ID), ("gtin", JVal.str m.GTIN), ("batch", JVal.str m.Batch),
      ("serialNumber", JVal.str m.SerialNumber), ("expiryDate", JVal.str m.ExpiryDate),
      ("manufacturer", JVal.str m.Manufacturer), ("productName", JVal.str m.ProductName),
      ("location", JVal.str m.Location), ("timestamp", JVal.num m.Timestamp),
      ("transactionHash", JVal.str m.TransactionHash), ("status", JVal.str m.Status),
      ("commissionTime", JVal.num m.CommissionTime)]
      ++ (if m.RecallReason = "" then [] else [("recallReason", JVal.str m.RecallReason)]))

/-- The result of `json.Marshal(event)`; `signature` is `omitempty`. -/
def marshalTrackingEvent (e : TrackingEvent) : Doc :=
  Doc.object
    ([("id", JVal.str e.ID), ("event", JVal.str e.Event), ("location", JVal.str e.Location),
      ("timestamp", JVal.num e.Timestamp), ("actor", JVal.str e.Actor),
      ("medicationId", JVal.str e.MedicationID)]
      ++ (if e.Signature = "" then [] else [("signature", JVal.str e.Signature)]))

/-- The call `json.Unmarshal(bytes, &medication)` on a fresh `MedicationData`;
`none` is a decoding error. -/
def unmarshalMedicationData : Doc → Option MedicationData
  | Doc.object o =>
    match decodeString o "id", decodeString o "gtin", decodeString o "batch",
      decodeString o "serialNumber", decodeString o "expiryDate",
      decodeString o "manufacturer", decodeString o "productName",
      decodeString o "location", decodeInt64 o "timestamp",
      decodeString o "transactionHash", decodeString o "status",
      decodeInt64 o "commissionTime", decodeString o "recallReason" with
    | some id, some gtin, some batch, some serialNumber, some expiryDate, some manufacturer,
      some productName, some location, some timestamp, some transactionHash, some status,
      some commissionTime, some recallReason =>
      some { ID := id, GTIN := gtin, Batch := batch, SerialNumber := serialNumber,
             ExpiryDate := expiryDate, Manufacturer := manufacturer,
             ProductName := productName, Location := location, Timestamp := timestamp,
             TransactionHash := transactionHash, Status := status,
             CommissionTime := commissionTime, RecallReason := recallReason }
    | _, _, _, _, _, _, _, _, _, _, _, _, _ => none
  | Doc.null => some MedicationData.zero
  | Doc.undecodable _ => none

/-- The call `json.Unmarshal(bytes, &event)` on a fresh `TrackingEvent`;
`none` is a decoding error. -/
def unmarshalTrackingEvent : Doc → Option TrackingEvent
  | Doc.object o =>
    match decodeString o "id", decodeString o "event", decodeString o "location",
      decodeInt64 o "timestamp", decodeString o "actor", decodeString o "medicationId",
      decodeString o "signature" with
    | some id, some event, some location, some timestamp, some actor, some medicationId,
      some signature =>
      some { ID := id, Event := event, Location := location, Timestamp := timestamp,
             Actor := actor, MedicationID := medicationId, Signature := signature }
    | _, _, _, _, _, _, _ => none
  | Doc.null => some TrackingEvent.zero
  | Doc.undecodable _ => none

/-! ## The world state -/

/-- The world state: key/value pairs in ascending key order. -/
abbrev Store := List (String × Doc)

/-- The order of the keys of the world state: lexicographic on the characters,
which is the byte order of their UTF-8 encoding. -/
def keyLt (a b : String) : Prop := a.data < b.data

instance keyLtDecidable (a b : String) : Decidable (keyLt a b) :=
  inferInstanceAs (Decidable (a.data < b.data))

/-- The call `stub.GetState(key)`; `none` is the `nil` of an absent key. -/
def GetState : Store → String → Option Doc
  | [], _ => none
  | (k, v) :: rest, key => if k = key then some v else GetState rest key

/-- The call `stub.PutState(key, value)`: the store with `key` bound to `value`. -/
def PutState : Store → String → Doc → Store
  | [], key, value => [(key, value)]
  | (k, v) :: rest, key, value =>
    if keyLt key k then (key, value) :: (k, v) :: rest
    else if key = k then (key, value) :: rest
    else (k, v) :: PutState rest key value

/-- The call `stub.GetStateByRange("", "")`: every entry, in key order. -/
def GetStateByRange (s : Store) : List (String × Doc) := s

/-- A well-formed store: keys strictly ascending. -/
def Store.WF (s : Store) : Prop := List.Pairwise (fun a b => keyLt a.1 b.1) s

instance Store.decidableWF (s : Store) : Decidable (Store.WF s) := by
  unfold Store.WF
  infer_instance

/-! ## Time -/

/-- The readings of `time.Now()` during one invocation, in nanoseconds. -/
abbrev Clock := Nat → Int

/-- The method `Time.Unix`: whole seconds (the division rounds down). -/
def Unix (t : Int) : Int := t / 1000000000

/-- The method `Time.UnixNano`. -/
def UnixNano (t : Int) : Int := t

/-- A clock whose successive readings start at `t` and are one nanosecond apart. -/
def clockFrom (t : Int) : Clock := fun k => t + k

/-! ## Responses -/

/-- The payload of a successful response: the value whose bytes are returned. -/
inductive Payload where
  | empty
  | text (s : String)
  | raw (d : Doc)
  | verification (r : VerificationResult)
  | events (es : List TrackingEvent)
  | medications (ms : List MedicationData)
  | stats (totalVerifications authenticMedications alertsActive : Int)
  deriving DecidableEq

/-- A `pb.Response`: `shim.Error(msg)` or `shim.Success(payload)`. -/
inductive Response where
  | error (msg : String)
  | success (payload : Payload)
  deriving DecidableEq

/-- The key test of the scans: `len(key) > 9 && key[:9] == "tracking_"`.  The
nine bytes `tracking_` are nine characters, so the first nine bytes of a key
are `tracking_` exactly when its first nine characters are. -/
def isTrackingKey (key : String) : Bool :=
  decide (key.utf8ByteSize > 9) && decide (key.data.take 9 = "tracking_".data)

/-- The key `fmt.Sprintf("tracking_%s_%s", medicationID, eventID)`. -/
def trackingKey (medicationID eventID : String) : String :=
  "tracking_" ++ medicationID ++ "_" ++ eventID

/-- The event id `fmt.Sprintf("evt_%d", nanos)`. -/
def eventID (nanos : Int) : String := "evt_" ++ toString nanos

/-! ## The operations of the contract -/

/-- The Go method `Init`. -/
def Init (stub : Store) : Response × Store := (Response.success Payload.empty, stub)

/-- The Go method `commissionMedication`.
Args: gtin, batch, serialNumber, expiryDate, manufacturer, productName, location. -/
def commissionMedication (stub : Store) (args : List String) (now : Clock) : Response × Store :=
  match args with
  | [gtin, batch, serialNumber, expiryDate, manufacturer, productName, location] =>
    if gtin = "" ∨ batch = "" ∨ serialNumber = "" ∨ manufacturer = "" ∨ productName = "" then
      (Response.error
        "Missing required fields: gtin, batch, serialNumber, manufacturer, productName", stub)
    else
      let medicationID := batch ++ "-" ++ serialNumber
      match GetState stub medicationID with
      | some _ => (Response.error ("Medication already exists with ID: " ++ medicationID), stub)
      | none =>
        let medication : MedicationData :=
          { ID := medicationID, GTIN := gtin, Batch := batch, SerialNumber := serialNumber,
            ExpiryDate := expiryDate, Manufacturer := manufacturer, ProductName := productName,
            Location := location, Timestamp := Unix (now 0),
            TransactionHash := "tx_" ++ toString (UnixNano (now 1)),
            Status := "active", CommissionTime := Unix (now 2), RecallReason := "" }
        let stub1 := PutState stub medicationID (marshalMedicationData medication)
        let commissionEvent : TrackingEvent :=
          { ID := eventID (UnixNano (now 3)), Event := "commission", Location := location,
            Timestamp := Unix (now 4), Actor := manufacturer, MedicationID := medicationID,
            Signature := "" }
        let stub2 := PutState stub1 (trackingKey medicationID commissionEvent.ID)
          (marshalTrackingEvent commissionEvent)
        (Response.success (Payload.text medicationID), stub2)
  | _ =>
    (Response.error
      ("Incorrect number of arguments. Expecting 7: gtin, batch, serialNumber, expiryDate, "
        ++ "manufacturer, productName, location"), stub)

/-- The Go method `addTrackingEvent`.
Args: medicationId, event, location, actor, signature. -/
def addTrackingEvent (stub : Store) (args : List String) (now : Clock) : Response × Store :=
  match args with
  | [medicationID, event, location, actor, signature] =>
    if medicationID = "" then (Response.error "Missing medication ID", stub)
    else
      match GetState stub medicationID with
      | none => (Response.error ("Medication not found: " ++ medicationID), stub)
      | some medicationJSON =>
        match unmarshalMedicationData medicationJSON with
        | none => (Response.error ("Failed to unmarshal medication: " ++ jsonError), stub)
        | some medication =>
          let trackingEvent : TrackingEvent :=
            { ID := eventID (UnixNano (now 0)), Event := event, Location := location,
              Timestamp := Unix (now 1), Actor := actor, MedicationID := medicationID,
              Signature := signature }
          let stub1 := PutState stub (trackingKey medicationID trackingEvent.ID)
            (marshalTrackingEvent trackingEvent)
          let updated : MedicationData := { medication with Location := location }
          let stub2 := PutState stub1 medicationID (marshalMedicationData updated)
          (Response.success (Payload.text trackingEvent.ID), stub2)
  | _ =>
    (Response.error
      ("Incorrect number of arguments. Expecting 5: medicationId, event, location, actor, "
        ++ "signature"), stub)

/-- The body of the loop of `getTrackingEventsForMedication` for one entry of
the scan: the event to append, if any.  Only entries under a tracking key are
looked at; an entry that does not decode is skipped. -/
def trackingEventOf (medicationID : String) (kv : String × Doc) : Option TrackingEvent :=
  if isTrackingKey kv.1 then
    match unmarshalTrackingEvent kv.2 with
    | none => none
    | some event => if event.MedicationID = medicationID then some event else none
  else none

/-- The Go helper `getTrackingEventsForMedication`: one scan of the whole
store, collecting the events of the unit in scan order. -/
def getTrackingEventsForMedication (stub : Store) (medicationID : String) : List TrackingEvent :=
  (GetStateByRange stub).filterMap (trackingEventOf medicationID)

/-- The loop of `verifyMedication` over the history: the first event tagged
`recall` sets `isValid` to false and leaves the loop. -/
def recallScan (isValid : Bool) : List TrackingEvent → Bool
  | [] => isValid
  | event :: rest => if event.Event = "recall" then false else recallScan isValid rest

/-- The Go method `verifyMedication`.  Args: medicationId. -/
def verifyMedication (stub : Store) (args : List String) (now : Clock) : Response × Store :=
  match args with
  | [medicationID] =>
    if medicationID = "" then (Response.error "Missing medication ID", stub)
    else
      match GetState stub medicationID with
      | none => (Response.error ("Medication not found: " ++ medicationID), stub)
      | some medicationJSON =>
        match unmarshalMedicationData medicationJSON with
        | none => (Response.error ("Failed to unmarshal medication: " ++ jsonError), stub)
        | some medication =>
          let trackingHistory := getTrackingEventsForMedication stub medicationID
          let currentHolder :=
            match trackingHistory.getLast? with
            | some last => last.Actor
            | none => medication.Manufacturer
          let isValid := recallScan (decide (medication.Status ≠ "recalled")) trackingHistory
          (Response.success (Payload.verification
            { IsValid := isValid, MedicationData := medication,
              TrackingHistory := trackingHistory, CurrentHolder := currentHolder,
              VerificationTime := Unix (now 0) }), stub)
  | _ => (Response.error "Incorrect number of arguments. Expecting 1: medicationId", stub)

/-- The Go method `issueMedicationRecall`.  Args: medicationId, reason, issuer. -/
def issueMedicationRecall (stub : Store) (args : List String) (now : Clock) : Response × Store :=
  match args with
  | [medicationID, reason, issuer] =>
    if medicationID = "" then (Response.error "Missing medication ID", stub)
    else
      match GetState stub medicationID with
      | none => (Response.error ("Medication not found: " ++ medicationID), stub)
      | some medicationJSON =>
        match unmarshalMedicationData medicationJSON with
        | none => (Response.error ("Failed to unmarshal medication: " ++ jsonError), stub)
        | some medication =>
          let updated : MedicationData :=
            { medication with Status := "recalled", RecallReason := reason }
          let stub1 := PutState stub medicationID (marshalMedicationData updated)
          let recallEvent : TrackingEvent :=
            { ID := eventID (UnixNano (now 0)), Event := "recall", Location := updated.Location,
              Timestamp := Unix (now 1), Actor := issuer, MedicationID := medicationID,
              Signature := "" }
          let stub2 := PutState stub1 (trackingKey medicationID recallEvent.ID)
            (marshalTrackingEvent recallEvent)
          (Response.success (Payload.text recallEvent.ID), stub2)
  | _ =>
    (Response.error "Incorrect number of arguments. Expecting 3: medicationId, reason, issuer",
      stub)

/-- The Go method `getMedication`.  Args: medicationId. -/
def getMedication (stub : Store) (args : List String) : Response × Store :=
  match args with
  | [medicationID] =>
    if medicationID = "" then (Response.error "Missing medication ID", stub)
    else
      match GetState stub medicationID with
      | none => (Response.error ("Medication not found: " ++ medicationID), stub)
      | some medicationJSON => (Response.success (Payload.raw medicationJSON), stub)
  | _ => (Response.error "Incorrect number of arguments. Expecting 1: medicationId", stub)

/-- The Go method `getTrackingHistory`.  Args: medicationId. -/
def getTrackingHistory (stub : Store) (args : List String) : Response × Store :=
  match args with
  | [medicationID] =>
    if medicationID = "" then (Response.error "Missing medication ID", stub)
    else
      (Response.success (Payload.events (getTrackingEventsForMedication stub medicationID)), stub)
  | _ => (Response.error "Incorrect number of arguments. Expecting 1: medicationId", stub)

/-- The medication records met by a scan: entries under a tracking key are
skipped, and so are entries that do not decode. -/
def scanMedications (stub : Store) : List MedicationData :=
  (GetStateByRange stub).filterMap fun kv =>
    if isTrackingKey kv.1 then none else unmarshalMedicationData kv.2

/-- The Go method `getMedicationsByManufacturer`.  Args: manufacturer. -/
def getMedicationsByManufacturer (stub : Store) (args : List String) : Response × Store :=
  match args with
  | [manufacturer] =>
    if manufacturer = "" then (Response.error "Missing manufacturer name", stub)
    else
      (Response.success (Payload.medications
        ((scanMedications stub).filter fun medication =>
          decide (medication.Manufacturer = manufacturer))), stub)
  | _ => (Response.error "Incorrect number of arguments. Expecting 1: manufacturer", stub)

/-- The three counters of `getVerificationStats` (its local struct `stats`). -/
structure Stats where
  TotalVerifications : Int
  AuthenticMedications : Int
  AlertsActive : Int
  deriving DecidableEq

/-- The body of the loop of `getVerificationStats` for one entry of the scan:
entries under a tracking key are skipped, entries that do not decode are
skipped, every other entry is counted and then classified by its status. -/
def statsStep (stats : Stats) (kv : String × Doc) : Stats :=
  if isTrackingKey kv.1 then stats
  else
    match unmarshalMedicationData kv.2 with
    | none => stats
    | some medication =>
      let counted : Stats := { stats with TotalVerifications := stats.TotalVerifications + 1 }
      if medication.Status = "active" then
        { counted with AuthenticMedications := counted.AuthenticMedications + 1 }
      else if medication.Status = "recalled" then
        { counted with AlertsActive := counted.AlertsActive + 1 }
      else counted

/-- The Go method `getVerificationStats`.  No args. -/
def getVerificationStats (stub : Store) (args : List String) : Response × Store :=
  match args with
  | [] =>
    let stats := (GetStateByRange stub).foldl statsStep
      { TotalVerifications := 0, AuthenticMedications := 0, AlertsActive := 0 }
    (Response.success (Payload.stats stats.TotalVerifications stats.AuthenticMedications
      stats.AlertsActive), stub)
  | _ => (Response.error "Incorrect number of arguments. Expecting 0", stub)

/-- The call `bytes.Contains([]byte(str), []byte(substr))`. -/
def bytesContains : List Char → List Char → Bool
  | [], sub => sub.isEmpty
  | c :: rest, sub => sub.isPrefixOf (c :: rest) || bytesContains rest sub

/-- The Go helper `containsIgnoreCase`. -/
def containsIgnoreCase (str substr : String) : Bool :=
  decide (str.utf8ByteSize ≥ substr.utf8ByteSize) &&
    (decide (str = substr) ||
      (decide (str.utf8ByteSize > substr.utf8ByteSize) &&
        (substr.data.isPrefixOf str.data ||
          substr.data.isSuffixOf str.data ||
          bytesContains str.data substr.data)))

/-- The text `fmt.Sprintf("%s %s %s %s %s %s", ...)` searched by `searchMedications`. -/
def searchableText (medication : MedicationData) : String :=
  medication.ProductName ++ " " ++ medication.Manufacturer ++ " " ++ medication.Batch ++ " "
    ++ medication.GTIN ++ " " ++ medication.SerialNumber ++ " " ++ medication.Location

/-- The Go method `searchMedications`.  Args: query. -/
def searchMedications (stub : Store) (args : List String) : Response × Store :=
  match args with
  | [query] =>
    if query = "" then (Response.error "Missing search query", stub)
    else
      (Response.success (Payload.medications
        ((scanMedications stub).filter fun medication =>
          containsIgnoreCase (searchableText medication) query)), stub)
  | _ => (Response.error "Incorrect number of arguments. Expecting 1: query", stub)

/-- The Go method `Invoke`: the dispatch on the function name. -/
def Invoke (stub : Store) (function : String) (args : List String) (now : Clock) :
    Response × Store :=
  if function = "commissionMedication" then commissionMedication stub args now
  else if function = "addTrackingEvent" then addTrackingEvent stub args now
  else if function = "verifyMedication" then verifyMedication stub args now
  else if function = "issueMedicationRecall" then issueMedicationRecall stub args now
  else if function = "getMedication" then getMedication stub args
  else if function = "getTrackingHistory" then getTrackingHistory stub args
  else if function = "getMedicationsByManufacturer" then getMedicationsByManufacturer stub args
  else if function = "getVerificationStats" then getVerificationStats stub args
  else if function = "searchMedications" then searchMedications stub args
  else (Response.error ("Received unknown function invocation: " ++ function), stub)

/-- One invocation: function name, arguments and the clock readings it sees. -/
structure Call where
  function : String
  args : List String
  now : Clock

/-- The store after one invocation. -/
def exec (stub : Store) (c : Call) : Store := (Invoke stub c.function c.args c.now).2

/-- The store after a sequence of invocations. -/
def run (stub : Store) (calls : List Call) : Store := calls.foldl exec stub

/-- The unit stored under `id`: the stored bytes decoded as `MedicationData`. -/
def unitAt (stub : Store) (id : String) : Option MedicationData :=
  match GetState stub id with
  | none => none
  | some d => unmarshalMedicationData d

/-- The status of the unit stored under `id`. -/
def statusAt (stub : Store) (id : String) : Option String :=
  (unitAt stub id).map fun m => m.Status

/-- The responses of a sequence of invocations, in order. -/
def responses : Store → List Call → List Response
  | _, [] => []
  | stub, c :: rest => (Invoke stub c.function c.args c.now).1 :: responses (exec stub c) rest

/-- The `isValid` of a response of `verifyMedication`, if it is a success. -/
def isValidOf : Response → Option Bool
  | Response.success (Payload.verification r) => some r.IsValid
  | _ => none

/-! ## The effect of one invocation on the store -/

/-- The medication id that a writing invocation addresses: `batch-serialNumber`
for a commission, the first argument otherwise. -/
def Call.medicationID (c : Call) : String :=
  if c.function = "commissionMedication" then c.args.getD 1 "" ++ "-" ++ c.args.getD 2 ""
  else c.args.getD 0 ""

/-- The key under which a writing invocation stores its event. -/
def Call.eventKey (c : Call) : String :=
  trackingKey c.medicationID
    (eventID (UnixNano (c.now (if c.function = "commissionMedication" then 3 else 0))))

/-- A writing invocation is disciplined on a store when the medication id it
addresses does not pass the tracking-key test and the key of its event is not
yet in use. -/
def Call.disciplined (s : Store) (c : Call) : Bool :=
  !(decide (c.function = "commissionMedication") || decide (c.function = "addTrackingEvent")
      || decide (c.function = "issueMedicationRecall"))
    || (!(isTrackingKey c.medicationID) && (GetState s c.eventKey).isNone)

/-- Every invocation of the sequence is disciplined on the store it runs on. -/
def disciplined : Store → List Call → Bool
  | _, [] => true
  | s, c :: rest => c.disciplined s && disciplined (exec s c) rest

/-- The shapes of the store change of one invocation.  With `fresh = true` the
unit key does not pass the tracking-key test and the event key is new. -/
inductive Step (fresh : Bool) : Store → Store → Prop
  | skip (s : Store) : Step fresh s s
  | commissioned (s : Store) (m : MedicationData) (e : TrackingEvent)
      (habsent : GetState s m.ID = none) (hid : m.ID ≠ "")
      (hstatus : m.Status = "active") (hreason : m.RecallReason = "")
      (hevent : e.Event = "commission") (hmed : e.MedicationID = m.ID)
      (hfresh : fresh = true →
        isTrackingKey m.ID = false ∧ GetState s (trackingKey m.ID e.ID) = none) :
      Step fresh s
        (PutState (PutState s m.ID (marshalMedicationData m)) (trackingKey m.ID e.ID)
          (marshalTrackingEvent e))
  | tracked (s : Store) (id : String) (m : MedicationData) (e : TrackingEvent)
      (hid : id ≠ "") (hunit : unitAt s id = some m) (hmed : e.MedicationID = id)
      (hfresh : fresh = true →
        isTrackingKey id = false ∧ GetState s (trackingKey id e.ID) = none) :
      Step fresh s
        (PutState (PutState s (trackingKey id e.ID) (marshalTrackingEvent e)) id
          (marshalMedicationData { m with Location := e.Location }))
  | recalled (s : Store) (id : String) (m : MedicationData) (reason : String)
      (e : TrackingEvent)
      (hid : id ≠ "") (hunit : unitAt s id = some m) (hmed : e.MedicationID = id)
      (hevent : e.Event = "recall")
      (hfresh : fresh = true →
        isTrackingKey id = false ∧ GetState s (trackingKey id e.ID) = none) :
      Step fresh s
        (PutState
          (PutState s id
            (marshalMedicationData { m with Status := "recalled", RecallReason := reason }))
          (trackingKey id e.ID) (marshalTrackingEvent e))

/-- Every unit with status `recalled` has an event tagged `recall` stored under
a tracking key. -/
def RecallRecorded (s : Store) : Prop :=
  ∀ k m, unitAt s k = some m → m.Status = "recalled" →
    ∃ tk e, isTrackingKey tk = true ∧ GetState s tk = some (marshalTrackingEvent e) ∧
      e.Event = "recall" ∧ e.MedicationID = k

/-- The arguments after the medication id, and the clock, of one
`addTrackingEvent` invocation. -/
structure EventInput where
  event : String
  location : String
  actor : String
  signature : String
  now : Clock

/-- One `addTrackingEvent` invocation for the unit `id` per input, in order;
`none` when an invocation returns an error. -/
def addEvents (stub : Store) (id : String) : List EventInput → Option Store
  | [] => some stub
  | x :: rest =>
    match addTrackingEvent stub [id, x.event, x.location, x.actor, x.signature] x.now with
    | (Response.success _, stub') => addEvents stub' id rest
    | (Response.error _, _) => none

/-- Every stored event that names a medication id names a key of the store. -/
def NoOrphan (s : Store) : Prop :=
  ∀ kv ∈ s, ∀ e, unmarshalTrackingEvent kv.2 = some e → e.MedicationID ≠ "" →
    GetState s e.MedicationID ≠ none

/-- The events of the unit `id` in the store are stored under the tracking keys
of the event ids `K`, one event per id. -/
def TrackedBy (id : String) (s : Store) (K : List String) : Prop :=
  (∀ kv ∈ s, trackingEventOf id kv ≠ none → ∃ eid ∈ K, kv.1 = trackingKey id eid) ∧
  (getTrackingEventsForMedication s id).length = K.length

/-! ## Concrete stores and traces of the examples -/

/-- The commission of the unit `B001-S001`. -/
def commissionCall : Call :=
  { function := "commissionMedication",
    args := ["7501001234567", "B001", "S001", "2025-12-31", "PharmaCorp",
      "Paracetamol 500mg", "Plant A"],
    now := clockFrom 1700000000000001000 }

/-- A store that holds the unit `B001-S001`: the empty store after its commission. -/
def demoStore : Store := run [] [commissionCall]

/-- The record of the unit `B001-S001` in `demoStore`. -/
def demoUnit : MedicationData :=
  { ID := "B001-S001", GTIN := "7501001234567", Batch := "B001", SerialNumber := "S001",
    ExpiryDate := "2025-12-31", Manufacturer := "PharmaCorp",
    ProductName := "Paracetamol 500mg", Location := "Plant A", Timestamp := 1700000000,
    TransactionHash := "tx_1700000000000001001", Status := "active",
    CommissionTime := 1700000000, RecallReason := "" }

/-- The commission event of the unit `B001-S001` in `demoStore`. -/
def demoEvent : TrackingEvent :=
  { ID := "evt_1700000000000001003", Event := "commission", Location := "Plant A",
    Timestamp := 1700000000, Actor := "PharmaCorp", MedicationID := "B001-S001",
    Signature := "" }

/-- The commission of the unit `B001-S001` followed by a tracking event with
the tag `recall`. -/
def taggedRecallCalls : List Call :=
  [ commissionCall,
    { function := "addTrackingEvent",
      args := ["B001-S001", "recall", "DC B", "LogisticsCorp", ""],
      now := clockFrom 1700000000000002000 } ]

/-- The commission of the unit `B001-S001` followed by its recall. -/
def recallCalls : List Call :=
  [ commissionCall,
    { function := "issueMedicationRecall",
      args := ["B001-S001", "contamination", "Regulator"],
      now := clockFrom 1700000000000002000 } ]

/-- The record of the unit `B001-S001` after `recallCalls`. -/
def recalledUnit : MedicationData :=
  { demoUnit with Status := "recalled", RecallReason := "contamination" }

/-- One tracking event: the shipment to `DC B`. -/
def shipInput : EventInput :=
  { event := "ship", location := "DC B", actor := "LogisticsCorp", signature := "",
    now := clockFrom 1700000000000002000 }

/-- A trace in which the id of a recalled unit is also the key of a later event
of another unit.  The unit `tracking_A-Z_evt_1700000000000009000` (batch
`tracking_A`) and the unit `A-Z` are commissioned, the first unit is recalled,
a tracking event is added for the key of its recall event, and a tracking event
of `A-Z` is stored at nanosecond `1700000000000009000`. -/
def shadowCalls : List Call :=
  [ { function := "commissionMedication",
      args := ["7501001234567", "tracking_A", "Z_evt_1700000000000009000", "2025-12-31",
        "PharmaCorp", "Paracetamol 500mg", "Plant A"],
      now := clockFrom 1700000000000001000 },
    { function := "commissionMedication",
      args := ["7501001234567", "A", "Z", "2025-12-31", "PharmaCorp", "Paracetamol 500mg",
        "Plant A"],
      now := clockFrom 1700000000000002000 },
    { function := "issueMedicationRecall",
      args := ["tracking_A-Z_evt_1700000000000009000", "contamination", "Regulator"],
      now := clockFrom 1700000000000005000 },
    { function := "addTrackingEvent",
      args := ["tracking_tracking_A-Z_evt_1700000000000009000_evt_1700000000000005000",
        "ship", "DC B", "LogisticsCorp", ""],
      now := clockFrom 1700000000000007000 },
    { function := "addTrackingEvent",
      args := ["A-Z", "ship", "DC B", "LogisticsCorp", ""],
      now := clockFrom 1700000000000009000 } ]

/-! ## Notions used by the claims C11 to C20 -/

/-- The two validation errors of `commissionMedication`: a wrong number of
arguments, or an empty required field. -/
def commissionValidationError (r : Response) : Prop :=
  r = Response.error
      ("Incorrect number of arguments. Expecting 7: gtin, batch, serialNumber, expiryDate, "
        ++ "manufacturer, productName, location") ∨
  r = Response.error
      "Missing required fields: gtin, batch, serialNumber, manufacturer, productName"

/-- The store after the commission of the unit
`tracking_A-Z_evt_1700000000000009000` (the first invocation of `shadowCalls`). -/
def shadowStore : Store := run [] (shadowCalls.take 1)

/-- The record of the unit `tracking_A-Z_evt_1700000000000009000` in `shadowStore`. -/
def shadowUnit : MedicationData :=
  { ID := "tracking_A-Z_evt_1700000000000009000", GTIN := "7501001234567",
    Batch := "tracking_A", SerialNumber := "Z_evt_1700000000000009000",
    ExpiryDate := "2025-12-31", Manufacturer := "PharmaCorp",
    ProductName := "Paracetamol 500mg", Location := "Plant A", Timestamp := 1700000000,
    TransactionHash := "tx_1700000000000001001", Status := "active",
    CommissionTime := 1700000000, RecallReason := "" }

/-- The `currentHolder` of a response of `verifyMedication`, if it is a success. -/
def currentHolderOf : Response → Option String
  | Response.success (Payload.verification r) => some r.CurrentHolder
  | _ => none

/-- The shipment of the unit `B001-S001` to `DC B` by `LogisticsCorp`. -/
def shipCall : Call :=
  { function := "addTrackingEvent",
    args := ["B001-S001", "ship", "DC B", "LogisticsCorp", ""],
    now := clockFrom 1700000000000002000 }

/-- The store after the commission of `B001-S001` and its shipment. -/
def shippedStore : Store := run [] [commissionCall, shipCall]

/-- The commission of `B001-S001` one second before the nanosecond count of
the clock reaches `10^18` (9 September 2001), and its shipment just after. -/
def rolloverCalls : List Call :=
  [ { function := "commissionMedication",
      args := ["7501001234567", "B001", "S001", "2025-12-31", "PharmaCorp",
        "Paracetamol 500mg", "Plant A"],
      now := clockFrom 999999999000000000 },
    { function := "addTrackingEvent",
      args := ["B001-S001", "ship", "DC B", "LogisticsCorp", ""],
      now := clockFrom 1000000000000000100 } ]

/-- Plain substring containment, in the words of the spec: the query occurs in
the text as a contiguous substring, character for character (no case
folding). -/
def occursIn (q text : String) : Prop := ∃ before after : String, text = before ++ q ++ after

/-- The medication records of a store, in the words of the spec (4.6): an entry
whose key carries the tracking-event prefix is an event record, every other
entry is a medication record, and a record that fails to parse as a
medication unit is skipped. -/
def medicationRecords (s : Store) : List MedicationData :=
  (s.filter fun kv => !isTrackingKey kv.1).filterMap fun kv => unmarshalMedicationData kv.2

/-- The census of a list of medication records: their number, the number of
those with status `active`, the number of those with status `recalled`. -/
def census (ms : List MedicationData) : Stats :=
  { TotalVerifications := (ms.length : Int),
    AuthenticMedications := ((ms.countP fun m => decide (m.Status = "active")) : Nat),
    AlertsActive := ((ms.countP fun m => decide (m.Status = "recalled")) : Nat) }

/-- The commission of a unit whose batch begins with `tracking_`. -/
def trackingBatchCall : Call :=
  { function := "commissionMedication",
    args := ["7501001234567", "tracking_A", "S001", "2025-12-31", "PharmaCorp",
      "Paracetamol 500mg", "Plant A"],
    now := clockFrom 1700000000000001000 }

/-! ## Notions used by the claims C21 to C26 -/

/-- Every unit whose status is not `recalled` has an empty recall reason. -/
def ReasonOnlyOnRecalled (s : Store) : Prop :=
  ∀ k m, unitAt s k = some m → m.Status ≠ "recalled" → m.RecallReason = ""

/-- Every entry under a key that does not pass the tracking-key test is a
medication record with status `active` or `recalled`. -/
def UnitsClassified (s : Store) : Prop :=
  ∀ kv ∈ s, isTrackingKey kv.1 = false →
    ∃ m, unmarshalMedicationData kv.2 = some m ∧ (m.Status = "active" ∨ m.Status = "recalled")

/-- The sum of the three counters of a statistics answer. -/
def counterSum : Response → Option Int
  | Response.success (Payload.stats total authentic alerts) => some (total + authentic + alerts)
  | _ => none

/-- Two commissions whose batch and serial number differ and whose derived id
is the same: batch `a-b` with serial `c`, then batch `a` with serial `b-c`. -/
def dashCalls : List Call :=
  [{ function := "commissionMedication",
     args := ["7501001234567", "a-b", "c", "2025-12-31", "PharmaCorp", "Paracetamol 500mg",
       "Plant A"],
     now := clockFrom 1700000000000001000 },
   { function := "commissionMedication",
     args := ["7501001234567", "a", "b-c", "2025-12-31", "PharmaCorp", "Paracetamol 500mg",
       "Plant A"],
     now := clockFrom 1700000000000002000 }]

/-- Every key of the store that is the tracking key of a medication id and a
generated event id belongs to an id that is itself a key of the store. -/
def EventKeysOwned (s : Store) : Prop :=
  ∀ id n, GetState s (trackingKey id (eventID n)) ≠ none → GetState s id ≠ none

/-- No commission of the sequence has a derived id that passes the tracking-key
test. -/
def plainCommissions (calls : List Call) : Bool :=
  calls.all fun c =>
    !(decide (c.function = "commissionMedication")) || !(isTrackingKey c.medicationID)

/-! ## Lemmas on the JSON encoding -/

theorem unmarshal_marshal_med (m : MedicationData) :
    unmarshalMedicationData (marshalMedicationData m) = some m := by
  cases m with
  | mk a b c d e f g h i j k l r =>
    by_cases hr : r = "" <;>
      simp [unmarshalMedicationData, marshalMedicationData, decodeString, decodeInt64, member, hr]

theorem unmarshal_marshal_evt (e : TrackingEvent) :
    unmarshalTrackingEvent (marshalTrackingEvent e) = some e := by
  cases e with
  | mk a b c d e f g =>
    by_cases hr : g = "" <;>
      simp [unmarshalTrackingEvent, marshalTrackingEvent, decodeString, decodeInt64, member, hr]

theorem unmarshalMed_marshalEvt (e : TrackingEvent) :
    unmarshalMedicationData (marshalTrackingEvent e) =
      some { MedicationData.zero with ID := e.ID, Location := e.Location, Timestamp := e.Timestamp } := by
  cases e with
  | mk a b c d e f g =>
    by_cases hr : g = "" <;>
      simp [unmarshalMedicationData, marshalTrackingEvent, decodeString, decodeInt64, member, hr, MedicationData.zero]

theorem unmarshalEvt_marshalMed (m : MedicationData) :
    unmarshalTrackingEvent (marshalMedicationData m) =
      some { TrackingEvent.zero with ID := m.ID, Location := m.Location, Timestamp := m.Timestamp } := by
  cases m with
  | mk a b c d e f g h i j k l r =>
    by_cases hr : r = "" <;>
      simp [unmarshalTrackingEvent, marshalMedicationData, decodeString, decodeInt64, member, hr, TrackingEvent.zero]

/-! ## Lemmas on the world state and on keys -/

theorem PutState_cons_lt (k' : String) (v' : Doc) (tl : Store) (k : String) (v : Doc)
    (h : keyLt k k') : PutState ((k', v') :: tl) k v = (k, v) :: (k', v') :: tl := by
  simp [PutState, h]

theorem PutState_cons_eq (v' : Doc) (tl : Store) (k : String) (v : Doc)
    (h : ¬ keyLt k k) : PutState ((k, v') :: tl) k v = (k, v) :: tl := by
  simp [PutState, h]

theorem PutState_cons_gt (k' : String) (v' : Doc) (tl : Store) (k : String) (v : Doc)
    (h1 : ¬ keyLt k k') (h2 : k ≠ k') :
    PutState ((k', v') :: tl) k v = (k', v') :: PutState tl k v := by
  simp [PutState, h1, h2]

theorem GetState_PutState_same (s : Store) (k : String) (v : Doc) :
    GetState (PutState s k v) k = some v := by
  induction s with
  | nil => simp [PutState, GetState]
  | cons hd tl ih =>
    obtain ⟨k', v'⟩ := hd
    by_cases h1 : keyLt k k'
    · simp [PutState_cons_lt _ _ _ _ _ h1, GetState]
    · by_cases h2 : k = k'
      · subst h2
        simp [PutState_cons_eq _ _ _ _ h1, GetState]
      · have h3 : ¬ k' = k := fun h => h2 h.symm
        simp [PutState_cons_gt _ _ _ _ _ h1 h2, GetState, h3, ih]

theorem GetState_PutState_other (s : Store) (k k2 : String) (v : Doc) (hne : k2 ≠ k) :
    GetState (PutState s k v) k2 = GetState s k2 := by
  have h : ¬ k = k2 := fun h => hne h.symm
  induction s with
  | nil => simp [PutState, GetState, h]
  | cons hd tl ih =>
    obtain ⟨k', v'⟩ := hd
    by_cases h1 : keyLt k k'
    · simp [PutState_cons_lt _ _ _ _ _ h1, GetState, h]
    · by_cases h2 : k = k'
      · subst h2
        simp [PutState_cons_eq _ _ _ _ h1, GetState, h]
      · simp [PutState_cons_gt _ _ _ _ _ h1 h2, GetState, ih]

theorem mem_PutState (s : Store) (k : String) (v : Doc) (x : String × Doc)
    (hx : x ∈ PutState s k v) : x = (k, v) ∨ x ∈ s := by
  induction s with
  | nil => simpa [PutState] using hx
  | cons hd tl ih =>
    obtain ⟨k', v'⟩ := hd
    by_cases h1 : keyLt k k'
    · rw [PutState_cons_lt _ _ _ _ _ h1] at hx
      simpa using hx
    · by_cases h2 : k = k'
      · subst h2
        rw [PutState_cons_eq _ _ _ _ h1] at hx
        rcases List.mem_cons.mp hx with h | h
        · exact Or.inl h
        · exact Or.inr (List.mem_cons_of_mem _ h)
      · rw [PutState_cons_gt _ _ _ _ _ h1 h2] at hx
        rcases List.mem_cons.mp hx with h | h
        · exact Or.inr (by simp [h])
        · rcases ih h with h' | h'
          · exact Or.inl h'
          · exact Or.inr (List.mem_cons_of_mem _ h')

theorem mem_of_GetState (s : Store) (k : String) (v : Doc) (h : GetState s k = some v) :
    (k, v) ∈ s := by
  induction s with
  | nil => simp [GetState] at h
  | cons hd tl ih =>
    obtain ⟨k', v'⟩ := hd
    unfold GetState at h
    by_cases h1 : k' = k
    · simp [h1] at h
      simp [h1, h]
    · simp [h1] at h
      simp [ih h]

/-- `PutState` either inserts one entry or replaces one entry that has the same key. -/
theorem PutState_split (s : Store) (k : String) (v : Doc) :
    (∃ l1 l2, s = l1 ++ l2 ∧ PutState s k v = l1 ++ (k, v) :: l2) ∨
    (∃ l1 l2 v0, s = l1 ++ (k, v0) :: l2 ∧ PutState s k v = l1 ++ (k, v) :: l2) := by
  induction s with
  | nil => exact Or.inl ⟨[], [], by simp [PutState]⟩
  | cons hd tl ih =>
    obtain ⟨k', v'⟩ := hd
    by_cases h1 : keyLt k k'
    · exact Or.inl ⟨[], (k', v') :: tl, by simp, by simp [PutState_cons_lt _ _ _ _ _ h1]⟩
    · by_cases h2 : k = k'
      · subst h2
        exact Or.inr ⟨[], tl, v', by simp, by simp [PutState_cons_eq _ _ _ _ h1]⟩
      · rw [PutState_cons_gt _ _ _ _ _ h1 h2]
        rcases ih with ⟨l1, l2, e1, e2⟩ | ⟨l1, l2, v0, e1, e2⟩
        · exact Or.inl ⟨(k', v') :: l1, l2, by rw [e1]; rfl, by rw [e2]; rfl⟩
        · exact Or.inr ⟨(k', v') :: l1, l2, v0, by rw [e1]; rfl, by rw [e2]; rfl⟩

theorem trackingKey_length (m e : String) :
    (trackingKey m e).length = 10 + m.length + e.length := by
  have h1 : "tracking_".length = 9 := by decide
  have h2 : "_".length = 1 := by decide
  simp only [trackingKey, String.length_append, h1, h2]
  omega

theorem trackingKey_ne (m e : String) : trackingKey m e ≠ m := by
  intro h
  have := congrArg String.length h
  rw [trackingKey_length] at this
  omega

theorem trackingKey_inj (m e1 e2 : String) (h : trackingKey m e1 = trackingKey m e2) : e1 = e2 := by
  unfold trackingKey at h
  have := congrArg String.data h
  simp only [String.data_append, List.append_assoc, List.append_cancel_left_eq] at this
  exact String.ext this

theorem utf8ByteSize_append (s t : String) :
    (s ++ t).utf8ByteSize = s.utf8ByteSize + t.utf8ByteSize := by
  cases s; cases t
  show String.utf8ByteSize (String.mk _ ++ String.mk _) = _
  simp only [String.utf8ByteSize_mk, HAppend.hAppend, Append.append, String.append,
    String.utf8ByteSize_mk]
  exact String.utf8Len_append _ _

theorem isTrackingKey_trackingKey (m e : String) :
    isTrackingKey (trackingKey m e) = true := by
  have h1 : "tracking_".utf8ByteSize = 9 := by decide
  have h2 : "_".utf8ByteSize = 1 := by decide
  have h3 : "tracking_".data.length = 9 := by decide
  have hsize : (trackingKey m e).utf8ByteSize > 9 := by
    simp only [trackingKey, utf8ByteSize_append, h1, h2]
    omega
  have htake : (trackingKey m e).data.take 9 = "tracking_".data := by
    simp only [trackingKey, String.data_append, List.append_assoc]
    rw [List.take_append_of_le_length (Nat.le_of_eq h3.symm)]
    exact List.take_of_length_le (Nat.le_of_eq h3)
  simp [isTrackingKey, hsize, htake]

/-! ## The successful paths of the three writing operations -/

theorem commissionMedication_success (s : Store)
    (gtin batch serialNumber expiryDate manufacturer productName location : String)
    (now : Clock)
    (hgtin : gtin ≠ "") (hbatch : batch ≠ "") (hserial : serialNumber ≠ "")
    (hmanufacturer : manufacturer ≠ "") (hproduct : productName ≠ "")
    (habsent : GetState s (batch ++ "-" ++ serialNumber) = none) :
    commissionMedication s
        [gtin, batch, serialNumber, expiryDate, manufacturer, productName, location] now
      = (Response.success (Payload.text (batch ++ "-" ++ serialNumber)),
          PutState
            (PutState s (batch ++ "-" ++ serialNumber)
              (marshalMedicationData
                { ID := batch ++ "-" ++ serialNumber, GTIN := gtin, Batch := batch,
                  SerialNumber := serialNumber, ExpiryDate := expiryDate,
                  Manufacturer := manufacturer, ProductName := productName,
                  Location := location, Timestamp := Unix (now 0),
                  TransactionHash := "tx_" ++ toString (UnixNano (now 1)),
                  Status := "active", CommissionTime := Unix (now 2), RecallReason := "" }))
            (trackingKey (batch ++ "-" ++ serialNumber) (eventID (UnixNano (now 3))))
            (marshalTrackingEvent
              { ID := eventID (UnixNano (now 3)), Event := "commission", Location := location,
                Timestamp := Unix (now 4), Actor := manufacturer,
                MedicationID := batch ++ "-" ++ serialNumber, Signature := "" })) := by
  simp only [commissionMedication, hgtin, hbatch, hserial, hmanufacturer, hproduct, habsent,
    or_self, if_false]

theorem addTrackingEvent_success (s : Store)
    (medicationId event location actor signature : String) (now : Clock)
    (d : Doc) (m : MedicationData) (hid : medicationId ≠ "")
    (hget : GetState s medicationId = some d) (hdec : unmarshalMedicationData d = some m) :
    addTrackingEvent s [medicationId, event, location, actor, signature] now
      = (Response.success (Payload.text (eventID (UnixNano (now 0)))),
          PutState
            (PutState s (trackingKey medicationId (eventID (UnixNano (now 0))))
              (marshalTrackingEvent
                { ID := eventID (UnixNano (now 0)), Event := event, Location := location,
                  Timestamp := Unix (now 1), Actor := actor, MedicationID := medicationId,
                  Signature := signature }))
            medicationId (marshalMedicationData { m with Location := location })) := by
  simp only [addTrackingEvent, hid, if_false, hget, hdec]

theorem issueMedicationRecall_success (s : Store) (medicationId reason issuer : String)
    (now : Clock) (d : Doc) (m : MedicationData) (hid : medicationId ≠ "")
    (hget : GetState s medicationId = some d) (hdec : unmarshalMedicationData d = some m) :
    issueMedicationRecall s [medicationId, reason, issuer] now
      = (Response.success (Payload.text (eventID (UnixNano (now 0)))),
          PutState
            (PutState s medicationId
              (marshalMedicationData { m with Status := "recalled", RecallReason := reason }))
            (trackingKey medicationId (eventID (UnixNano (now 0))))
            (marshalTrackingEvent
              { ID := eventID (UnixNano (now 0)), Event := "recall", Location := m.Location,
                Timestamp := Unix (now 1), Actor := issuer, MedicationID := medicationId,
                Signature := "" })) := by
  simp only [issueMedicationRecall, hid, if_false, hget, hdec]

theorem unitAt_some (s : Store) (id : String) (m : MedicationData) (h : unitAt s id = some m) :
    ∃ d, GetState s id = some d ∧ unmarshalMedicationData d = some m := by
  unfold unitAt at h
  cases hget : GetState s id with
  | none => simp [hget] at h
  | some d => exact ⟨d, rfl, by simpa [hget] using h⟩

theorem unitAt_of_GetState (s : Store) (id : String) (d : Doc) (h : GetState s id = some d) :
    unitAt s id = unmarshalMedicationData d := by
  simp [unitAt, h]

theorem unitAt_PutState_same (s : Store) (id : String) (m : MedicationData) :
    unitAt (PutState s id (marshalMedicationData m)) id = some m :=
  (unitAt_of_GetState _ _ _ (GetState_PutState_same s id _)).trans (unmarshal_marshal_med m)

theorem unitAt_PutState_other (s : Store) (k id : String) (d : Doc) (hne : id ≠ k) :
    unitAt (PutState s k d) id = unitAt s id := by
  simp only [unitAt, GetState_PutState_other s k id d hne]

theorem unitAt_PutState_trackingKey (s : Store) (id eid : String) (d : Doc) :
    unitAt (PutState s (trackingKey id eid) d) id = unitAt s id :=
  unitAt_PutState_other s _ id d (Ne.symm (trackingKey_ne id eid))

theorem recallScan_eq_true (b : Bool) (l : List TrackingEvent) :
    recallScan b l = true ↔ (b = true ∧ ∀ e ∈ l, e.Event ≠ "recall") := by
  induction l with
  | nil => simp [recallScan]
  | cons e rest ih =>
    by_cases h : e.Event = "recall"
    · simp [recallScan, h]
    · simp [recallScan, h, ih]

theorem verifyMedication_success (s : Store) (id : String) (now : Clock) (d : Doc)
    (m : MedicationData) (hid : id ≠ "")
    (hget : GetState s id = some d) (hdec : unmarshalMedicationData d = some m) :
    verifyMedication s [id] now
      = (Response.success (Payload.verification
          { IsValid := recallScan (decide (m.Status ≠ "recalled"))
              (getTrackingEventsForMedication s id),
            MedicationData := m,
            TrackingHistory := getTrackingEventsForMedication s id,
            CurrentHolder :=
              match (getTrackingEventsForMedication s id).getLast? with
              | some last => last.Actor
              | none => m.Manufacturer,
            VerificationTime := Unix (now 0) }), s) := by
  simp only [verifyMedication, hid, if_false, hget, hdec]

theorem append_dash_ne_empty (a b : String) : a ++ "-" ++ b ≠ "" := by
  intro h
  have := congrArg String.length h
  have h1 : "-".length = 1 := by decide
  have h2 : "".length = 0 := by decide
  simp only [String.length_append, h1, h2] at this
  omega

theorem commissionMedication_step (fresh : Bool) (s : Store) (args : List String) (now : Clock)
    (hf : fresh = true →
      isTrackingKey (args.getD 1 "" ++ "-" ++ args.getD 2 "") = false ∧
      GetState s (trackingKey (args.getD 1 "" ++ "-" ++ args.getD 2 "")
        (eventID (UnixNano (now 3)))) = none) :
    Step fresh s (commissionMedication s args now).2 := by
  unfold commissionMedication
  split
  · rename_i gtin batch serialNumber expiryDate manufacturer productName location
    split
    · exact Step.skip s
    · dsimp only
      split
      · exact Step.skip s
      · rename_i habsent
        exact Step.commissioned s
          { ID := batch ++ "-" ++ serialNumber, GTIN := gtin, Batch := batch,
            SerialNumber := serialNumber, ExpiryDate := expiryDate,
            Manufacturer := manufacturer, ProductName := productName,
            Location := location, Timestamp := Unix (now 0),
            TransactionHash := "tx_" ++ toString (UnixNano (now 1)),
            Status := "active", CommissionTime := Unix (now 2), RecallReason := "" }
          { ID := eventID (UnixNano (now 3)), Event := "commission", Location := location,
            Timestamp := Unix (now 4), Actor := manufacturer,
            MedicationID := batch ++ "-" ++ serialNumber, Signature := "" }
          habsent (append_dash_ne_empty _ _) rfl rfl rfl rfl
          (fun h => by simpa using hf h)
  · exact Step.skip s

theorem addTrackingEvent_step (fresh : Bool) (s : Store) (args : List String) (now : Clock)
    (hf : fresh = true →
      isTrackingKey (args.getD 0 "") = false ∧
      GetState s (trackingKey (args.getD 0 "") (eventID (UnixNano (now 0)))) = none) :
    Step fresh s (addTrackingEvent s args now).2 := by
  unfold addTrackingEvent
  split
  · rename_i medicationID event location actor signature
    split
    · exact Step.skip s
    · rename_i hid
      split
      · exact Step.skip s
      · rename_i d hget
        split
        · exact Step.skip s
        · rename_i m hdec
          exact Step.tracked s medicationID m
            { ID := eventID (UnixNano (now 0)), Event := event, Location := location,
              Timestamp := Unix (now 1), Actor := actor, MedicationID := medicationID,
              Signature := signature }
            hid ((unitAt_of_GetState _ _ _ hget).trans hdec) rfl (fun h => by simpa using hf h)
  · exact Step.skip s

theorem issueMedicationRecall_step (fresh : Bool) (s : Store) (args : List String)
    (now : Clock)
    (hf : fresh = true →
      isTrackingKey (args.getD 0 "") = false ∧
      GetState s (trackingKey (args.getD 0 "") (eventID (UnixNano (now 0)))) = none) :
    Step fresh s (issueMedicationRecall s args now).2 := by
  unfold issueMedicationRecall
  split
  · rename_i medicationID reason issuer
    split
    · exact Step.skip s
    · rename_i hid
      split
      · exact Step.skip s
      · rename_i d hget
        split
        · exact Step.skip s
        · rename_i m hdec
          exact Step.recalled s medicationID m reason
            { ID := eventID (UnixNano (now 0)), Event := "recall", Location := m.Location,
              Timestamp := Unix (now 1), Actor := issuer, MedicationID := medicationID,
              Signature := "" }
            hid ((unitAt_of_GetState _ _ _ hget).trans hdec) rfl rfl
            (fun h => by simpa using hf h)
  · exact Step.skip s

theorem verifyMedication_store (s : Store) (args : List String) (now : Clock) :
    (verifyMedication s args now).2 = s := by
  unfold verifyMedication
  split
  · split
    · rfl
    · split
      · rfl
      · split <;> rfl
  · rfl

theorem getMedication_store (s : Store) (args : List String) :
    (getMedication s args).2 = s := by
  unfold getMedication
  split
  · split
    · rfl
    · split <;> rfl
  · rfl

theorem getTrackingHistory_store (s : Store) (args : List String) :
    (getTrackingHistory s args).2 = s := by
  unfold getTrackingHistory
  split
  · split <;> rfl
  · rfl

theorem getMedicationsByManufacturer_store (s : Store) (args : List String) :
    (getMedicationsByManufacturer s args).2 = s := by
  unfold getMedicationsByManufacturer
  split
  · split <;> rfl
  · rfl

theorem getVerificationStats_store (s : Store) (args : List String) :
    (getVerificationStats s args).2 = s := by
  unfold getVerificationStats
  split <;> rfl

theorem searchMedications_store (s : Store) (args : List String) :
    (searchMedications s args).2 = s := by
  unfold searchMedications
  split
  · split <;> rfl
  · rfl

theorem exec_step (fresh : Bool) (s : Store) (c : Call)
    (hf : fresh = true → c.disciplined s = true) : Step fresh s (exec s c) := by
  unfold exec Invoke
  split_ifs with h1 h2 h3 h4 h5 h6 h7 h8 h9
  · refine commissionMedication_step fresh s c.args c.now (fun h => ?_)
    simpa [Call.disciplined, Call.medicationID, Call.eventKey, h1] using hf h
  · refine addTrackingEvent_step fresh s c.args c.now (fun h => ?_)
    simpa [Call.disciplined, Call.medicationID, Call.eventKey, h1, h2] using hf h
  · rw [verifyMedication_store]; exact Step.skip s
  · refine issueMedicationRecall_step fresh s c.args c.now (fun h => ?_)
    simpa [Call.disciplined, Call.medicationID, Call.eventKey, h1, h2, h4] using hf h
  · rw [getMedication_store]; exact Step.skip s
  · rw [getTrackingHistory_store]; exact Step.skip s
  · rw [getMedicationsByManufacturer_store]; exact Step.skip s
  · rw [getVerificationStats_store]; exact Step.skip s
  · rw [searchMedications_store]; exact Step.skip s
  · exact Step.skip s

theorem unitAt_PutState_event (s : Store) (k : String) (e : TrackingEvent) :
    unitAt (PutState s k (marshalTrackingEvent e)) k =
      some { MedicationData.zero with
        ID := e.ID, Location := e.Location, Timestamp := e.Timestamp } :=
  (unitAt_of_GetState _ _ _ (GetState_PutState_same s k _)).trans (unmarshalMed_marshalEvt e)

theorem recalled_ne_active : ("recalled" : String) ≠ "active" := by decide

theorem empty_ne_active : ("" : String) ≠ "active" := by decide

theorem empty_ne_recalled : ("" : String) ≠ "recalled" := by decide

theorem active_ne_recalled : ("active" : String) ≠ "recalled" := by decide

theorem unitAt_PutState_event_inactive (s : Store) (k : String) (e : TrackingEvent) :
    ∃ m, unitAt (PutState s k (marshalTrackingEvent e)) k = some m ∧ m.Status ≠ "active" :=
  ⟨_, unitAt_PutState_event s k e, empty_ne_active⟩

theorem unitAt_none_of_GetState (s : Store) (id : String) (h : GetState s id = none) :
    unitAt s id = none := by
  simp [unitAt, h]

/-- One invocation keeps a unit that is stored under `id` with a status other
than `active` in that condition. -/
theorem Step.keeps_inactive {fresh : Bool} {s s' : Store} (h : Step fresh s s') (id : String)
    (hinv : ∃ m, unitAt s id = some m ∧ m.Status ≠ "active") :
    ∃ m, unitAt s' id = some m ∧ m.Status ≠ "active" := by
  obtain ⟨m0, hm0, hs0⟩ := hinv
  cases h with
  | skip => exact ⟨m0, hm0, hs0⟩
  | commissioned m e habsent hid hstatus hreason hevent hmed hfresh =>
    by_cases h1 : id = trackingKey m.ID e.ID
    · subst h1
      exact unitAt_PutState_event_inactive _ _ _
    · rw [unitAt_PutState_other _ _ _ _ h1]
      have h2 : id ≠ m.ID := by
        intro h2
        subst h2
        rw [unitAt_none_of_GetState _ _ habsent] at hm0
        cases hm0
      rw [unitAt_PutState_other _ _ _ _ h2]
      exact ⟨m0, hm0, hs0⟩
  | tracked k m e hid hunit hmed hfresh =>
    by_cases h1 : id = k
    · subst h1
      rw [hunit] at hm0
      cases hm0
      exact ⟨_, unitAt_PutState_same _ _ _, hs0⟩
    · rw [unitAt_PutState_other _ _ _ _ h1]
      by_cases h2 : id = trackingKey k e.ID
      · subst h2
        exact unitAt_PutState_event_inactive _ _ _
      · rw [unitAt_PutState_other _ _ _ _ h2]
        exact ⟨m0, hm0, hs0⟩
  | recalled k m reason e hid hunit hmed hevent hfresh =>
    by_cases h1 : id = trackingKey k e.ID
    · subst h1
      exact unitAt_PutState_event_inactive _ _ _
    · rw [unitAt_PutState_other _ _ _ _ h1]
      by_cases h2 : id = k
      · subst h2
        exact ⟨_, unitAt_PutState_same _ _ _, recalled_ne_active⟩
      · rw [unitAt_PutState_other _ _ _ _ h2]
        exact ⟨m0, hm0, hs0⟩

theorem run_keeps_inactive (calls : List Call) (s : Store) (id : String)
    (hinv : ∃ m, unitAt s id = some m ∧ m.Status ≠ "active") :
    ∃ m, unitAt (run s calls) id = some m ∧ m.Status ≠ "active" := by
  induction calls generalizing s with
  | nil => exact hinv
  | cons c rest ih =>
    exact ih (exec s c) ((exec_step false s c (fun h => by cases h)).keeps_inactive id hinv)

theorem mem_getTrackingEventsForMedication (s : Store) (id tk : String) (e : TrackingEvent)
    (htk : isTrackingKey tk = true) (hget : GetState s tk = some (marshalTrackingEvent e))
    (hmed : e.MedicationID = id) : e ∈ getTrackingEventsForMedication s id := by
  unfold getTrackingEventsForMedication GetStateByRange
  rw [List.mem_filterMap]
  refine ⟨(tk, marshalTrackingEvent e), mem_of_GetState s tk _ hget, ?_⟩
  simp [trackingEventOf, htk, unmarshal_marshal_evt, hmed]

theorem GetState_ne_of_some_none (s : Store) (a b : String) (d : Doc)
    (ha : GetState s a = some d) (hb : GetState s b = none) : a ≠ b := by
  intro h
  subst h
  rw [ha] at hb
  cases hb

theorem ne_of_isTrackingKey (a b : String) (ha : isTrackingKey a = true)
    (hb : isTrackingKey b = false) : a ≠ b := by
  intro h
  subst h
  rw [ha] at hb
  cases hb

theorem unitAt_PutState_event_status (s : Store) (k : String) (e : TrackingEvent)
    (m : MedicationData) (h : unitAt (PutState s k (marshalTrackingEvent e)) k = some m) :
    m.Status = "" := by
  rw [unitAt_PutState_event] at h
  cases h
  rfl

theorem Step.keeps_recallRecorded {s s' : Store} (h : Step true s s')
    (hinv : RecallRecorded s) : RecallRecorded s' := by
  cases h with
  | skip => exact hinv
  | commissioned m e habsent hid hstatus hreason hevent hmed hfresh =>
    obtain ⟨hnt, hnew⟩ := hfresh rfl
    intro k mk hk hrec
    by_cases h1 : k = trackingKey m.ID e.ID
    · subst h1
      rw [unitAt_PutState_event_status _ _ _ _ hk] at hrec
      exact absurd hrec empty_ne_recalled
    · rw [unitAt_PutState_other _ _ _ _ h1] at hk
      by_cases h2 : k = m.ID
      · subst h2
        rw [unitAt_PutState_same] at hk
        cases hk
        rw [hstatus] at hrec
        exact absurd hrec active_ne_recalled
      · rw [unitAt_PutState_other _ _ _ _ h2] at hk
        obtain ⟨tk, ev, htk, hget, hev, hm⟩ := hinv k mk hk hrec
        refine ⟨tk, ev, htk, ?_, hev, hm⟩
        rw [GetState_PutState_other _ _ _ _ (GetState_ne_of_some_none s _ _ _ hget hnew),
          GetState_PutState_other _ _ _ _ (GetState_ne_of_some_none s _ _ _ hget habsent)]
        exact hget
  | tracked id m e hid hunit hmed hfresh =>
    obtain ⟨hnt, hnew⟩ := hfresh rfl
    intro k mk hk hrec
    have keep : ∀ k0 m0, unitAt s k0 = some m0 → m0.Status = "recalled" →
        ∃ tk ev, isTrackingKey tk = true ∧
          GetState (PutState (PutState s (trackingKey id e.ID) (marshalTrackingEvent e)) id
            (marshalMedicationData { m with Location := e.Location })) tk
            = some (marshalTrackingEvent ev) ∧ ev.Event = "recall" ∧ ev.MedicationID = k0 := by
      intro k0 m0 h0 hr0
      obtain ⟨tk, ev, htk, hget, hev, hm⟩ := hinv k0 m0 h0 hr0
      refine ⟨tk, ev, htk, ?_, hev, hm⟩
      rw [GetState_PutState_other _ _ _ _ (ne_of_isTrackingKey _ _ htk hnt),
        GetState_PutState_other _ _ _ _ (GetState_ne_of_some_none s _ _ _ hget hnew)]
      exact hget
    by_cases h1 : k = id
    · subst h1
      rw [unitAt_PutState_same] at hk
      cases hk
      exact keep k m hunit hrec
    · rw [unitAt_PutState_other _ _ _ _ h1] at hk
      by_cases h2 : k = trackingKey id e.ID
      · subst h2
        rw [unitAt_PutState_event_status _ _ _ _ hk] at hrec
        exact absurd hrec empty_ne_recalled
      · rw [unitAt_PutState_other _ _ _ _ h2] at hk
        exact keep k mk hk hrec
  | recalled id m reason e hid hunit hmed hevent hfresh =>
    obtain ⟨hnt, hnew⟩ := hfresh rfl
    intro k mk hk hrec
    by_cases h1 : k = trackingKey id e.ID
    · subst h1
      rw [unitAt_PutState_event_status _ _ _ _ hk] at hrec
      exact absurd hrec empty_ne_recalled
    · rw [unitAt_PutState_other _ _ _ _ h1] at hk
      by_cases h2 : k = id
      · subst h2
        exact ⟨trackingKey k e.ID, e, isTrackingKey_trackingKey _ _,
          GetState_PutState_same _ _ _, hevent, hmed⟩
      · rw [unitAt_PutState_other _ _ _ _ h2] at hk
        obtain ⟨tk, ev, htk, hget, hev, hm⟩ := hinv k mk hk hrec
        refine ⟨tk, ev, htk, ?_, hev, hm⟩
        rw [GetState_PutState_other _ _ _ _ (GetState_ne_of_some_none s _ _ _ hget hnew),
          GetState_PutState_other _ _ _ _ (ne_of_isTrackingKey _ _ htk hnt)]
        exact hget

theorem run_keeps_recallRecorded (calls : List Call) (s : Store)
    (hd : disciplined s calls = true) (hinv : RecallRecorded s) :
    RecallRecorded (run s calls) := by
  induction calls generalizing s with
  | nil => exact hinv
  | cons c rest ih =>
    simp only [disciplined, Bool.and_eq_true] at hd
    exact ih (exec s c) hd.2 ((exec_step true s c (fun _ => hd.1)).keeps_recallRecorded hinv)

theorem recallRecorded_empty : RecallRecorded [] := by
  intro k m hk
  simp [unitAt, GetState] at hk

theorem GetState_PutState_ne_none (s : Store) (k k2 : String) (v : Doc)
    (h : GetState s k2 ≠ none) : GetState (PutState s k v) k2 ≠ none := by
  by_cases hk : k2 = k
  · subst hk
    rw [GetState_PutState_same]
    exact Option.some_ne_none _
  · rw [GetState_PutState_other _ _ _ _ hk]
    exact h

theorem GetState_ne_none_of_unitAt (s : Store) (id : String) (m : MedicationData)
    (h : unitAt s id = some m) : GetState s id ≠ none := by
  obtain ⟨d, hd, _⟩ := unitAt_some s id m h
  rw [hd]
  exact Option.some_ne_none _

theorem NoOrphan_PutState (s : Store) (k : String) (d : Doc) (hinv : NoOrphan s)
    (hd : ∀ e, unmarshalTrackingEvent d = some e → e.MedicationID ≠ "" →
      GetState (PutState s k d) e.MedicationID ≠ none) :
    NoOrphan (PutState s k d) := by
  intro kv hkv e he hne
  rcases mem_PutState s k d kv hkv with h | h
  · subst h
    exact hd e he hne
  · exact GetState_PutState_ne_none _ _ _ _ (hinv kv h e he hne)

theorem NoOrphan_PutState_unit (s : Store) (k : String) (m : MedicationData)
    (hinv : NoOrphan s) : NoOrphan (PutState s k (marshalMedicationData m)) := by
  refine NoOrphan_PutState s k _ hinv (fun e he hne => ?_)
  rw [unmarshalEvt_marshalMed] at he
  cases he
  exact absurd rfl hne

theorem NoOrphan_PutState_event (s : Store) (k : String) (e : TrackingEvent)
    (hinv : NoOrphan s) (hpresent : GetState s e.MedicationID ≠ none) :
    NoOrphan (PutState s k (marshalTrackingEvent e)) := by
  refine NoOrphan_PutState s k _ hinv (fun e' he hne => ?_)
  rw [unmarshal_marshal_evt] at he
  cases he
  exact GetState_PutState_ne_none _ _ _ _ hpresent

theorem Step.keeps_noOrphan {fresh : Bool} {s s' : Store} (h : Step fresh s s')
    (hinv : NoOrphan s) : NoOrphan s' := by
  cases h with
  | skip => exact hinv
  | commissioned m e habsent hid hstatus hreason hevent hmed hfresh =>
    refine NoOrphan_PutState_event _ _ _ (NoOrphan_PutState_unit _ _ _ hinv) ?_
    rw [hmed, GetState_PutState_same]
    exact Option.some_ne_none _
  | tracked id m e hid hunit hmed hfresh =>
    refine NoOrphan_PutState_unit _ _ _ (NoOrphan_PutState_event _ _ _ hinv ?_)
    rw [hmed]
    exact GetState_ne_none_of_unitAt s id m hunit
  | recalled id m reason e hid hunit hmed hevent hfresh =>
    refine NoOrphan_PutState_event _ _ _ (NoOrphan_PutState_unit _ _ _ hinv) ?_
    rw [hmed, GetState_PutState_same]
    exact Option.some_ne_none _

theorem run_noOrphan (calls : List Call) (s : Store) (hinv : NoOrphan s) :
    NoOrphan (run s calls) := by
  induction calls generalizing s with
  | nil => exact hinv
  | cons c rest ih =>
    exact ih (exec s c) ((exec_step false s c (fun h => by cases h)).keeps_noOrphan hinv)

theorem noOrphan_empty : NoOrphan [] := by
  intro kv hkv
  cases hkv

theorem trackingEventOf_some (id : String) (kv : String × Doc) (e : TrackingEvent)
    (h : trackingEventOf id kv = some e) :
    unmarshalTrackingEvent kv.2 = some e ∧ e.MedicationID = id := by
  unfold trackingEventOf at h
  split at h
  · split at h
    · cases h
    · rename_i ev hev
      split at h
      · rename_i hid
        cases h
        exact ⟨hev, hid⟩
      · cases h
  · cases h

theorem trackingEventOf_unit (id k : String) (m : MedicationData) (hid : id ≠ "") :
    trackingEventOf id (k, marshalMedicationData m) = none := by
  cases h : trackingEventOf id (k, marshalMedicationData m) with
  | none => rfl
  | some e =>
    obtain ⟨hdec, hmed⟩ := trackingEventOf_some id _ e h
    rw [unmarshalEvt_marshalMed] at hdec
    cases hdec
    exact absurd hmed.symm hid

theorem trackingEventOf_event (id eid : String) (e : TrackingEvent)
    (hmed : e.MedicationID = id) :
    trackingEventOf id (trackingKey id eid, marshalTrackingEvent e) = some e := by
  simp [trackingEventOf, isTrackingKey_trackingKey, unmarshal_marshal_evt, hmed]

/-- In a store without orphan events, a unit whose key is absent has no events. -/
theorem trackedBy_nil_of_absent (s : Store) (id : String) (hno : NoOrphan s)
    (hid : id ≠ "") (habsent : GetState s id = none) : TrackedBy id s [] := by
  have hall : ∀ kv ∈ s, trackingEventOf id kv = none := by
    intro kv hkv
    cases h : trackingEventOf id kv with
    | none => rfl
    | some e =>
      obtain ⟨hdec, hmed⟩ := trackingEventOf_some id kv e h
      have := hno kv hkv e hdec (by rw [hmed]; exact hid)
      rw [hmed, habsent] at this
      exact absurd rfl this
  refine ⟨fun kv hkv hne => absurd (hall kv hkv) hne, ?_⟩
  unfold getTrackingEventsForMedication GetStateByRange
  rw [List.filterMap_eq_nil_iff.mpr hall]
  rfl

/-- The length of the history after a `PutState` that does not overwrite an
event of the unit. -/
theorem length_history_PutState (s : Store) (id k : String) (d : Doc)
    (hold : ∀ v0, (k, v0) ∈ s → trackingEventOf id (k, v0) = none) :
    (getTrackingEventsForMedication (PutState s k d) id).length =
      (getTrackingEventsForMedication s id).length +
        (if (trackingEventOf id (k, d)).isSome then 1 else 0) := by
  unfold getTrackingEventsForMedication GetStateByRange
  rcases PutState_split s k d with ⟨l1, l2, e1, e2⟩ | ⟨l1, l2, v0, e1, e2⟩
  · rw [e2, e1]
    cases h : trackingEventOf id (k, d) <;>
      simp [List.filterMap_append, List.filterMap_cons, h]
    omega
  · have h0 := hold v0 (by rw [e1]; simp)
    rw [e2, e1]
    cases h : trackingEventOf id (k, d) <;>
      simp [List.filterMap_append, List.filterMap_cons, h, h0]
    omega

theorem TrackedBy.put_unit {id : String} {s : Store} {K : List String}
    (h : TrackedBy id s K) (hid : id ≠ "") (m : MedicationData) :
    TrackedBy id (PutState s id (marshalMedicationData m)) K := by
  obtain ⟨h1, h2⟩ := h
  refine ⟨fun kv hkv hne => ?_, ?_⟩
  · rcases mem_PutState s id _ kv hkv with hk | hk
    · subst hk
      exact absurd (trackingEventOf_unit id id m hid) hne
    · exact h1 kv hk hne
  · rw [length_history_PutState s id id _ ?_, trackingEventOf_unit id id m hid, h2]
    · rfl
    · intro v0 hv0
      cases hc : trackingEventOf id (id, v0) with
      | none => rfl
      | some e =>
        obtain ⟨eid, _, hkey⟩ := h1 (id, v0) hv0 (by rw [hc]; exact Option.some_ne_none _)
        exact absurd hkey.symm (trackingKey_ne id eid)

theorem TrackedBy.put_event {id : String} {s : Store} {K : List String}
    (h : TrackedBy id s K) (eid : String) (e : TrackingEvent) (hmed : e.MedicationID = id)
    (hnew : eid ∉ K) :
    TrackedBy id (PutState s (trackingKey id eid) (marshalTrackingEvent e)) (eid :: K) := by
  obtain ⟨h1, h2⟩ := h
  refine ⟨fun kv hkv hne => ?_, ?_⟩
  · rcases mem_PutState s _ _ kv hkv with hk | hk
    · subst hk
      exact ⟨eid, List.mem_cons_self _ _, rfl⟩
    · obtain ⟨eid', hmem, hkey⟩ := h1 kv hk hne
      exact ⟨eid', List.mem_cons_of_mem _ hmem, hkey⟩
  · rw [length_history_PutState s id _ _ ?_, trackingEventOf_event id eid e hmed, h2]
    · rfl
    · intro v0 hv0
      cases hc : trackingEventOf id (trackingKey id eid, v0) with
      | none => rfl
      | some e0 =>
        obtain ⟨eid', hmem, hkey⟩ := h1 _ hv0 (by rw [hc]; exact Option.some_ne_none _)
        have := trackingKey_inj id eid eid' hkey
        subst this
        exact absurd hmem hnew

theorem addEvents_history (id : String) (hid : id ≠ "") (xs : List EventInput) :
    ∀ (s : Store) (K : List String) (m : MedicationData),
      TrackedBy id s K → unitAt s id = some m →
      (∀ x ∈ xs, eventID (UnixNano (x.now 0)) ∉ K) →
      (xs.map fun x => eventID (UnixNano (x.now 0))).Nodup →
      ∃ s' m', addEvents s id xs = some s' ∧
        (getTrackingEventsForMedication s' id).length = K.length + xs.length ∧
        unitAt s' id = some m' ∧
        m'.Location = ((xs.map fun x => x.location).getLast?).getD m.Location := by
  induction xs with
  | nil =>
    intro s K m ht hu _ _
    exact ⟨s, m, rfl, by simpa using ht.2, hu, rfl⟩
  | cons x rest ih =>
    intro s K m ht hu hK hN
    obtain ⟨d, hget, hdec⟩ := unitAt_some s id m hu
    have hsucc := addTrackingEvent_success s id x.event x.location x.actor x.signature x.now d m
      hid hget hdec
    have hnew : eventID (UnixNano (x.now 0)) ∉ K := hK x (List.mem_cons_self _ _)
    have ht' := (ht.put_event (eventID (UnixNano (x.now 0)))
      { ID := eventID (UnixNano (x.now 0)), Event := x.event, Location := x.location,
        Timestamp := Unix (x.now 1), Actor := x.actor, MedicationID := id,
        Signature := x.signature } rfl hnew).put_unit hid { m with Location := x.location }
    rw [List.map_cons, List.nodup_cons] at hN
    have hK' : ∀ y ∈ rest, eventID (UnixNano (y.now 0)) ∉
        eventID (UnixNano (x.now 0)) :: K := by
      intro y hy hmem
      rcases List.mem_cons.mp hmem with h | h
      · exact hN.1 (by rw [← h]; exact List.mem_map_of_mem _ hy)
      · exact hK y (List.mem_cons_of_mem _ hy) h
    obtain ⟨s', m', hrun, hlen, hu', hloc⟩ :=
      ih _ _ { m with Location := x.location } ht' (unitAt_PutState_same _ _ _) hK' hN.2
    refine ⟨s', m', ?_, ?_, hu', ?_⟩
    · simp only [addEvents, hsucc]
      exact hrun
    · rw [hlen]
      simp only [List.length_cons]
      omega
    · rw [hloc]
      cases hrest : (rest.map fun x => x.location).getLast? with
      | none =>
        have : rest = [] := by
          cases rest with
          | nil => rfl
          | cons y ys => simp [List.getLast?_cons_cons] at hrest
        subst this
        rfl
      | some l =>
        have : ((x :: rest).map fun x => x.location).getLast? = some l := by
          cases rest with
          | nil => simp at hrest
          | cons y ys =>
            simpa [List.getLast?_cons_cons] using hrest
        rw [this]
        rfl

theorem commissionMedication_success_inv (s : Store)
    (gtin batch serialNumber expiryDate manufacturer productName location : String)
    (now : Clock) (p : Payload)
    (h : (commissionMedication s
      [gtin, batch, serialNumber, expiryDate, manufacturer, productName, location] now).1
        = Response.success p) :
    gtin ≠ "" ∧ batch ≠ "" ∧ serialNumber ≠ "" ∧ manufacturer ≠ "" ∧ productName ≠ "" ∧
      GetState s (batch ++ "-" ++ serialNumber) = none := by
  unfold commissionMedication at h
  dsimp only at h
  split at h
  · cases h
  · rename_i hne
    simp only [not_or] at hne
    obtain ⟨h1, h2, h3, h4, h5⟩ := hne
    split at h
    · cases h
    · rename_i habsent
      exact ⟨h1, h2, h3, h4, h5, habsent⟩

theorem keyLt_trans {a b c : String} (h1 : keyLt a b) (h2 : keyLt b c) : keyLt a c :=
  lt_trans (α := List Char) h1 h2

theorem keyLt_of_not_lt_of_ne {a b : String} (h1 : ¬ keyLt a b) (h2 : a ≠ b) : keyLt b a := by
  have hne : a.data ≠ b.data := fun h => h2 (String.ext h)
  rcases lt_trichotomy a.data b.data with h | h | h
  · exact absurd h h1
  · exact absurd h hne
  · exact h

/-- `PutState` keeps the keys strictly ascending. -/
theorem PutState_WF (s : Store) (k : String) (v : Doc) (h : Store.WF s) :
    Store.WF (PutState s k v) := by
  induction s with
  | nil => simp [PutState, Store.WF]
  | cons hd tl ih =>
    obtain ⟨k', v'⟩ := hd
    unfold Store.WF at h ih ⊢
    rw [List.pairwise_cons] at h
    obtain ⟨hhd, htl⟩ := h
    by_cases h1 : keyLt k k'
    · rw [PutState_cons_lt _ _ _ _ _ h1, List.pairwise_cons, List.pairwise_cons]
      refine ⟨fun b hb => ?_, hhd, htl⟩
      rcases List.mem_cons.mp hb with hb | hb
      · rw [hb]
        exact h1
      · exact keyLt_trans h1 (hhd b hb)
    · by_cases h2 : k = k'
      · subst h2
        rw [PutState_cons_eq _ _ _ _ h1, List.pairwise_cons]
        exact ⟨hhd, htl⟩
      · rw [PutState_cons_gt _ _ _ _ _ h1 h2, List.pairwise_cons]
        refine ⟨fun b hb => ?_, ih htl⟩
        rcases mem_PutState tl k v b hb with hb | hb
        · rw [hb]
          exact keyLt_of_not_lt_of_ne h1 h2
        · exact hhd b hb

theorem trackingKey_ne_empty (m e : String) : trackingKey m e ≠ "" := by
  intro h
  have := congrArg String.length h
  rw [trackingKey_length] at this
  have h0 : "".length = 0 := by decide
  omega

/-- A store of the ledger: keys strictly ascending, and no empty key. -/
theorem Step.keeps_ledger {fresh : Bool} {s s' : Store} (h : Step fresh s s')
    (hinv : Store.WF s ∧ GetState s "" = none) : Store.WF s' ∧ GetState s' "" = none := by
  obtain ⟨hwf, hkey⟩ := hinv
  cases h with
  | skip => exact ⟨hwf, hkey⟩
  | commissioned m e habsent hid hstatus hreason hevent hmed hfresh =>
    refine ⟨PutState_WF _ _ _ (PutState_WF _ _ _ hwf), ?_⟩
    rw [GetState_PutState_other _ _ _ _ (Ne.symm (trackingKey_ne_empty _ _)),
      GetState_PutState_other _ _ _ _ (Ne.symm hid)]
    exact hkey
  | tracked id m e hid hunit hmed hfresh =>
    refine ⟨PutState_WF _ _ _ (PutState_WF _ _ _ hwf), ?_⟩
    rw [GetState_PutState_other _ _ _ _ (Ne.symm hid),
      GetState_PutState_other _ _ _ _ (Ne.symm (trackingKey_ne_empty _ _))]
    exact hkey
  | recalled id m reason e hid hunit hmed hevent hfresh =>
    refine ⟨PutState_WF _ _ _ (PutState_WF _ _ _ hwf), ?_⟩
    rw [GetState_PutState_other _ _ _ _ (Ne.symm (trackingKey_ne_empty _ _)),
      GetState_PutState_other _ _ _ _ (Ne.symm hid)]
    exact hkey

/-- Every store reached from the empty store has strictly ascending keys and
no empty key. -/
theorem run_ledger (calls : List Call) (s : Store)
    (hinv : Store.WF s ∧ GetState s "" = none) :
    Store.WF (run s calls) ∧ GetState (run s calls) "" = none := by
  induction calls generalizing s with
  | nil => exact hinv
  | cons c rest ih =>
    exact ih (exec s c) ((exec_step false s c (fun h => by cases h)).keeps_ledger hinv)

theorem ledger_empty : Store.WF [] ∧ GetState [] "" = none :=
  ⟨List.Pairwise.nil, rfl⟩

theorem recallScan_false (l : List TrackingEvent) : recallScan false l = false := by
  induction l with
  | nil => rfl
  | cons e rest ih =>
    by_cases h : e.Event = "recall"
    · simp [recallScan, h]
    · simp [recallScan, h, ih]

/-- One invocation keeps a recalled unit recalled when its id does not pass the
tracking-key test. -/
theorem Step.keeps_recalled {fresh : Bool} {s s' : Store} (h : Step fresh s s') (id : String)
    (hid : isTrackingKey id = false)
    (hinv : ∃ m, unitAt s id = some m ∧ m.Status = "recalled") :
    ∃ m, unitAt s' id = some m ∧ m.Status = "recalled" := by
  obtain ⟨m0, hm0, hs0⟩ := hinv
  have hne : ∀ k eid, id ≠ trackingKey k eid := fun k eid h =>
    ne_of_isTrackingKey _ _ (isTrackingKey_trackingKey k eid) hid h.symm
  cases h with
  | skip => exact ⟨m0, hm0, hs0⟩
  | commissioned m e habsent _ hstatus hreason hevent hmed hfresh =>
    rw [unitAt_PutState_other _ _ _ _ (hne _ _)]
    have h2 : id ≠ m.ID := by
      intro h2
      subst h2
      rw [unitAt_none_of_GetState _ _ habsent] at hm0
      cases hm0
    rw [unitAt_PutState_other _ _ _ _ h2]
    exact ⟨m0, hm0, hs0⟩
  | tracked k m e _ hunit hmed hfresh =>
    by_cases h1 : id = k
    · subst h1
      rw [hunit] at hm0
      cases hm0
      exact ⟨_, unitAt_PutState_same _ _ _, hs0⟩
    · rw [unitAt_PutState_other _ _ _ _ h1, unitAt_PutState_other _ _ _ _ (hne _ _)]
      exact ⟨m0, hm0, hs0⟩
  | recalled k m reason e _ hunit hmed hevent hfresh =>
    rw [unitAt_PutState_other _ _ _ _ (hne _ _)]
    by_cases h2 : id = k
    · subst h2
      exact ⟨_, unitAt_PutState_same _ _ _, rfl⟩
    · rw [unitAt_PutState_other _ _ _ _ h2]
      exact ⟨m0, hm0, hs0⟩

/-- What holds of recall and verification: when `id` is non-empty and does not
pass the tracking-key test, then after a recall of the unit under `id` and any
further sequence of invocations `verifyMedication` returns `isValid = false`. -/
theorem verifyMedication_invalid_after_recall (s : Store) (id reason issuer : String)
    (now now' : Clock) (m : MedicationData) (calls : List Call)
    (hne : id ≠ "") (hid : isTrackingKey id = false) (hunit : unitAt s id = some m) :
    isValidOf (verifyMedication
      (run (issueMedicationRecall s [id, reason, issuer] now).2 calls) [id] now').1
      = some false := by
  obtain ⟨d, hget, hdec⟩ := unitAt_some s id m hunit
  have h0 : ∃ m1, unitAt (issueMedicationRecall s [id, reason, issuer] now).2 id = some m1 ∧
      m1.Status = "recalled" := by
    rw [issueMedicationRecall_success s id reason issuer now d m hne hget hdec]
    exact ⟨_, (unitAt_PutState_trackingKey _ _ _ _).trans (unitAt_PutState_same _ _ _), rfl⟩
  have hrun : ∀ (cs : List Call) (t : Store),
      (∃ m1, unitAt t id = some m1 ∧ m1.Status = "recalled") →
      ∃ m1, unitAt (run t cs) id = some m1 ∧ m1.Status = "recalled" := by
    intro cs
    induction cs with
    | nil => exact fun t h => h
    | cons c rest ih =>
      exact fun t h =>
        ih (exec t c) ((exec_step false t c (fun h => by cases h)).keeps_recalled id hid h)
  obtain ⟨m1, hm1, hs1⟩ := hrun calls _ h0
  obtain ⟨d1, hget1, hdec1⟩ := unitAt_some _ id m1 hm1
  rw [verifyMedication_success _ id now' d1 m1 hne hget1 hdec1]
  simp [isValidOf, hs1, recallScan_false]

theorem ne_empty_of_unitAt (s : Store) (id : String) (m : MedicationData)
    (hkey : GetState s "" = none) (hunit : unitAt s id = some m) : id ≠ "" := by
  intro h
  subst h
  rw [unitAt_none_of_GetState s "" hkey] at hunit
  cases hunit

/-- On an absent key `addTrackingEvent` answers `Medication not found` and
leaves the store as it was. -/
theorem addTrackingEvent_absent (s : Store) (medicationId event location actor signature : String)
    (now : Clock) (hid : medicationId ≠ "") (habsent : GetState s medicationId = none) :
    addTrackingEvent s [medicationId, event, location, actor, signature] now
      = (Response.error ("Medication not found: " ++ medicationId), s) := by
  simp only [addTrackingEvent, hid, if_false, habsent]

theorem issueMedicationRecall_success_inv (s : Store) (id reason issuer : String)
    (now : Clock) (p : Payload)
    (h : (issueMedicationRecall s [id, reason, issuer] now).1 = Response.success p) :
    id ≠ "" ∧ ∃ d m, GetState s id = some d ∧ unmarshalMedicationData d = some m := by
  unfold issueMedicationRecall at h
  dsimp only at h
  split at h
  · cases h
  · rename_i hid
    split at h
    · cases h
    · rename_i d hget
      split at h
      · cases h
      · rename_i m hdec
        exact ⟨hid, d, m, hget, hdec⟩

/-- A disciplined invocation keeps every entry stored under a tracking key. -/
theorem Step.keeps_tracking_entries {s s' : Store} (h : Step true s s') (k : String) (d : Doc)
    (hk : isTrackingKey k = true) (hget : GetState s k = some d) :
    GetState s' k = some d := by
  cases h with
  | skip => exact hget
  | commissioned m e habsent hid hstatus hreason hevent hmed hfresh =>
    obtain ⟨hnt, hnew⟩ := hfresh rfl
    rw [GetState_PutState_other _ _ _ _ (GetState_ne_of_some_none s _ _ _ hget hnew),
      GetState_PutState_other _ _ _ _ (ne_of_isTrackingKey _ _ hk hnt)]
    exact hget
  | tracked id m e hid hunit hmed hfresh =>
    obtain ⟨hnt, hnew⟩ := hfresh rfl
    rw [GetState_PutState_other _ _ _ _ (ne_of_isTrackingKey _ _ hk hnt),
      GetState_PutState_other _ _ _ _ (GetState_ne_of_some_none s _ _ _ hget hnew)]
    exact hget
  | recalled id m reason e hid hunit hmed hevent hfresh =>
    obtain ⟨hnt, hnew⟩ := hfresh rfl
    rw [GetState_PutState_other _ _ _ _ (GetState_ne_of_some_none s _ _ _ hget hnew),
      GetState_PutState_other _ _ _ _ (ne_of_isTrackingKey _ _ hk hnt)]
    exact hget

theorem exists_ne_of_data_ne (a b : String) (h : a.data ≠ b.data) : a ≠ b :=
  fun hab => h (congrArg String.data hab)

theorem alreadyExists_not_validationError (id : String) :
    ¬ commissionValidationError (Response.error ("Medication already exists with ID: " ++ id)) := by
  intro h
  rcases h with h | h
  · injection h with h
    have := congrArg String.data h
    simp [String.data_append] at this
  · injection h with h
    have := congrArg String.data h
    simp [String.data_append] at this

theorem success_not_validationError (p : Payload) :
    ¬ commissionValidationError (Response.success p) := by
  intro h
  rcases h with h | h <;> cases h

theorem commissionMedication_argCount (s : Store) (args : List String) (now : Clock)
    (h : args.length ≠ 7) :
    commissionMedication s args now
      = (Response.error
          ("Incorrect number of arguments. Expecting 7: gtin, batch, serialNumber, expiryDate, "
            ++ "manufacturer, productName, location"), s) := by
  unfold commissionMedication
  split
  · simp at h
  · rfl

theorem commissionMedication_missing (s : Store)
    (gtin batch serialNumber expiryDate manufacturer productName location : String)
    (now : Clock)
    (h : gtin = "" ∨ batch = "" ∨ serialNumber = "" ∨ manufacturer = "" ∨ productName = "") :
    commissionMedication s
        [gtin, batch, serialNumber, expiryDate, manufacturer, productName, location] now
      = (Response.error
          "Missing required fields: gtin, batch, serialNumber, manufacturer, productName", s) := by
  simp only [commissionMedication, h, if_true]

theorem commissionMedication_not_validationError (s : Store)
    (gtin batch serialNumber expiryDate manufacturer productName location : String)
    (now : Clock)
    (h : ¬ (gtin = "" ∨ batch = "" ∨ serialNumber = "" ∨ manufacturer = "" ∨ productName = "")) :
    ¬ commissionValidationError (commissionMedication s
        [gtin, batch, serialNumber, expiryDate, manufacturer, productName, location] now).1 := by
  have h' := h
  simp only [not_or] at h'
  obtain ⟨h1, h2, h3, h4, h5⟩ := h'
  cases hget : GetState s (batch ++ "-" ++ serialNumber) with
  | none =>
    rw [commissionMedication_success s gtin batch serialNumber expiryDate manufacturer
      productName location now h1 h2 h3 h4 h5 hget]
    exact success_not_validationError _
  | some d =>
    have : commissionMedication s
        [gtin, batch, serialNumber, expiryDate, manufacturer, productName, location] now
        = (Response.error ("Medication already exists with ID: " ++ (batch ++ "-" ++ serialNumber)),
          s) := by
      simp [commissionMedication, h1, h2, h3, h4, h5, hget]
    rw [this]
    exact alreadyExists_not_validationError _

theorem GetState_PutState_two_other (s : Store) (k1 : String) (d1 : Doc) (k2 : String)
    (d2 : Doc) (k : String) (h1 : k ≠ k1) (h2 : k ≠ k2) :
    GetState (PutState (PutState s k1 d1) k2 d2) k = GetState s k := by
  rw [GetState_PutState_other _ _ _ _ h2, GetState_PutState_other _ _ _ _ h1]

theorem commissionMedication_store_effect (s : Store)
    (gtin batch serialNumber expiryDate manufacturer productName location : String)
    (now : Clock) (p : Payload)
    (hok : (commissionMedication s
      [gtin, batch, serialNumber, expiryDate, manufacturer, productName, location] now).1
        = Response.success p) :
    GetState s (batch ++ "-" ++ serialNumber) = none ∧
    (commissionMedication s
      [gtin, batch, serialNumber, expiryDate, manufacturer, productName, location] now).2
      = PutState
          (PutState s (batch ++ "-" ++ serialNumber)
            (marshalMedicationData
              { ID := batch ++ "-" ++ serialNumber, GTIN := gtin, Batch := batch,
                SerialNumber := serialNumber, ExpiryDate := expiryDate,
                Manufacturer := manufacturer, ProductName := productName,
                Location := location, Timestamp := Unix (now 0),
                TransactionHash := "tx_" ++ toString (UnixNano (now 1)),
                Status := "active", CommissionTime := Unix (now 2), RecallReason := "" }))
          (trackingKey (batch ++ "-" ++ serialNumber) (eventID (UnixNano (now 3))))
          (marshalTrackingEvent
            { ID := eventID (UnixNano (now 3)), Event := "commission", Location := location,
              Timestamp := Unix (now 4), Actor := manufacturer,
              MedicationID := batch ++ "-" ++ serialNumber, Signature := "" }) := by
  obtain ⟨h1, h2, h3, h4, h5, habsent⟩ := commissionMedication_success_inv _ _ _ _ _ _ _ _ _ _ hok
  rw [commissionMedication_success s gtin batch serialNumber expiryDate manufacturer productName
    location now h1 h2 h3 h4 h5 habsent]
  exact ⟨habsent, rfl⟩

theorem isPrefixOf_eq_true_iff (a l : List Char) :
    a.isPrefixOf l = true ↔ ∃ t, l = a ++ t := by
  induction a generalizing l with
  | nil => simp [List.isPrefixOf]
  | cons x xs ih =>
    cases l with
    | nil => simp [List.isPrefixOf]
    | cons y ys =>
      simp only [List.isPrefixOf, Bool.and_eq_true, beq_iff_eq, ih, List.cons_append,
        List.cons.injEq]
      constructor
      · rintro ⟨rfl, t, rfl⟩
        exact ⟨t, rfl, rfl⟩
      · rintro ⟨t, rfl, rfl⟩
        exact ⟨rfl, t, rfl⟩

theorem isSuffixOf_eq_true_iff (a l : List Char) :
    a.isSuffixOf l = true ↔ ∃ t, l = t ++ a := by
  unfold List.isSuffixOf
  rw [isPrefixOf_eq_true_iff]
  constructor
  · rintro ⟨t, ht⟩
    refine ⟨t.reverse, ?_⟩
    have := congrArg List.reverse ht
    simpa using this
  · rintro ⟨t, rfl⟩
    exact ⟨t.reverse, by simp⟩

theorem bytesContains_eq_true_iff (l q : List Char) :
    bytesContains l q = true ↔ ∃ a b, l = a ++ q ++ b := by
  induction l with
  | nil =>
    simp only [bytesContains, List.isEmpty_iff]
    constructor
    · rintro rfl
      exact ⟨[], [], rfl⟩
    · rintro ⟨a, b, h⟩
      have h1 := congrArg List.length h
      simp only [List.length_nil, List.length_append] at h1
      exact List.eq_nil_of_length_eq_zero (by omega)
  | cons c rest ih =>
    simp only [bytesContains, Bool.or_eq_true, isPrefixOf_eq_true_iff, ih]
    constructor
    · rintro (⟨t, ht⟩ | ⟨a, b, hab⟩)
      · exact ⟨[], t, by simpa using ht⟩
      · exact ⟨c :: a, b, by simp [hab]⟩
    · rintro ⟨a, b, hab⟩
      cases a with
      | nil => exact Or.inl ⟨b, by simpa using hab⟩
      | cons x xs =>
        simp only [List.cons_append, List.cons.injEq] at hab
        exact Or.inr ⟨xs, b, by simpa using hab.2⟩

theorem occursIn_iff_data (q text : String) :
    occursIn q text ↔ ∃ a b, text.data = a ++ q.data ++ b := by
  constructor
  · rintro ⟨x, y, rfl⟩
    exact ⟨x.data, y.data, by simp [String.data_append]⟩
  · rintro ⟨a, b, h⟩
    exact ⟨String.mk a, String.mk b, String.ext (by simpa [String.data_append] using h)⟩

theorem utf8ByteSize_eq_utf8Len (s : String) : s.utf8ByteSize = String.utf8Len s.data := by
  cases s
  rfl

/-- The Go helper `containsIgnoreCase` is plain substring containment: its
length, equality, beginning and end tests never change the result. -/
theorem containsIgnoreCase_eq_true_iff (text q : String) :
    containsIgnoreCase text q = true ↔ occursIn q text := by
  rw [occursIn_iff_data]
  unfold containsIgnoreCase
  simp only [Bool.and_eq_true, Bool.or_eq_true, decide_eq_true_eq, isPrefixOf_eq_true_iff,
    isSuffixOf_eq_true_iff, bytesContains_eq_true_iff]
  constructor
  · rintro ⟨_, h | ⟨_, (⟨t, ht⟩ | ⟨t, ht⟩) | h⟩⟩
    · subst h
      exact ⟨[], [], by simp⟩
    · exact ⟨[], t, by simpa using ht⟩
    · exact ⟨t, [], by simpa using ht⟩
    · exact h
  · rintro ⟨a, b, hab⟩
    have hsize : text.utf8ByteSize
        = String.utf8Len a + q.utf8ByteSize + String.utf8Len b := by
      rw [utf8ByteSize_eq_utf8Len, utf8ByteSize_eq_utf8Len, hab, String.utf8Len_append,
        String.utf8Len_append]
    refine ⟨by omega, ?_⟩
    by_cases heq : text = q
    · exact Or.inl heq
    · refine Or.inr ⟨?_, Or.inr ⟨a, b, hab⟩⟩
      have hne : ¬ (a = [] ∧ b = []) := by
        rintro ⟨rfl, rfl⟩
        exact heq (String.ext (by simpa using hab))
      have hpos : 0 < String.utf8Len a + String.utf8Len b := by
        by_contra hzero
        have h0 : String.utf8Len a = 0 ∧ String.utf8Len b = 0 := by omega
        exact hne ⟨String.utf8Len_eq_zero.mp h0.1, String.utf8Len_eq_zero.mp h0.2⟩
      omega

theorem scanMedications_eq_medicationRecords (s : Store) :
    scanMedications s = medicationRecords s := by
  unfold scanMedications medicationRecords GetStateByRange
  induction s with
  | nil => rfl
  | cons kv rest ih =>
    by_cases h : isTrackingKey kv.1 = true
    · simp [List.filterMap_cons, List.filter_cons, h, ih]
    · simp only [Bool.not_eq_true] at h
      simp [List.filterMap_cons, List.filter_cons, h, ih]

theorem medicationRecords_cons (kv : String × Doc) (rest : Store) :
    medicationRecords (kv :: rest) =
      if isTrackingKey kv.1 = true then medicationRecords rest
      else
        match unmarshalMedicationData kv.2 with
        | none => medicationRecords rest
        | some m => m :: medicationRecords rest := by
  unfold medicationRecords
  by_cases h : isTrackingKey kv.1 = true
  · simp [List.filter_cons, h]
  · simp only [Bool.not_eq_true] at h
    cases hdec : unmarshalMedicationData kv.2 <;>
      simp [List.filter_cons, List.filterMap_cons, h, hdec]

theorem medicationRecords_filter (s : Store) :
    medicationRecords (s.filter fun kv => !isTrackingKey kv.1) = medicationRecords s := by
  unfold medicationRecords
  rw [List.filter_filter]
  simp

/-- The counters after the loop of `getVerificationStats`: the counters before
the loop plus the census of the medication records met. -/
theorem foldl_statsStep (l : Store) (acc : Stats) :
    l.foldl statsStep acc =
      { TotalVerifications := acc.TotalVerifications + (census (medicationRecords l)).TotalVerifications,
        AuthenticMedications :=
          acc.AuthenticMedications + (census (medicationRecords l)).AuthenticMedications,
        AlertsActive := acc.AlertsActive + (census (medicationRecords l)).AlertsActive } := by
  induction l generalizing acc with
  | nil => simp [medicationRecords, census]
  | cons kv rest ih =>
    rw [List.foldl_cons, ih]
    by_cases h : isTrackingKey kv.1 = true
    · have hrec : medicationRecords (kv :: rest) = medicationRecords rest := by
        rw [medicationRecords_cons]
        simp [h]
      rw [hrec]
      simp [statsStep, h]
    · cases hdec : unmarshalMedicationData kv.2 with
      | none =>
        have hrec : medicationRecords (kv :: rest) = medicationRecords rest := by
          rw [medicationRecords_cons]
          simp [h, hdec]
        rw [hrec]
        simp [statsStep, h, hdec]
      | some m =>
        have hrec : medicationRecords (kv :: rest) = m :: medicationRecords rest := by
          rw [medicationRecords_cons]
          simp [h, hdec]
        rw [hrec]
        by_cases ha : m.Status = "active"
        · have hr : ¬ m.Status = "recalled" := by rw [ha]; exact active_ne_recalled
          have e1 : statsStep acc kv =
              { TotalVerifications := acc.TotalVerifications + 1,
                AuthenticMedications := acc.AuthenticMedications + 1,
                AlertsActive := acc.AlertsActive } := by
            simp [statsStep, h, hdec, ha]
          have e2 : census (m :: medicationRecords rest) =
              { TotalVerifications := (census (medicationRecords rest)).TotalVerifications + 1,
                AuthenticMedications :=
                  (census (medicationRecords rest)).AuthenticMedications + 1,
                AlertsActive := (census (medicationRecords rest)).AlertsActive } := by
            simp [census, List.countP_cons, ha, hr]
          simp only [e1, e2, Stats.mk.injEq]
          refine ⟨?_, ?_, ?_⟩ <;> first | trivial | omega
        · by_cases hr : m.Status = "recalled"
          · have e1 : statsStep acc kv =
                { TotalVerifications := acc.TotalVerifications + 1,
                  AuthenticMedications := acc.AuthenticMedications,
                  AlertsActive := acc.AlertsActive + 1 } := by
              simp [statsStep, h, hdec, ha, hr]
            have e2 : census (m :: medicationRecords rest) =
                { TotalVerifications := (census (medicationRecords rest)).TotalVerifications + 1,
                  AuthenticMedications :=
                    (census (medicationRecords rest)).AuthenticMedications,
                  AlertsActive := (census (medicationRecords rest)).AlertsActive + 1 } := by
              simp [census, List.countP_cons, ha, hr]
            simp only [e1, e2, Stats.mk.injEq]
            refine ⟨?_, ?_, ?_⟩ <;> first | trivial | omega
          · have e1 : statsStep acc kv =
                { TotalVerifications := acc.TotalVerifications + 1,
                  AuthenticMedications := acc.AuthenticMedications,
                  AlertsActive := acc.AlertsActive } := by
              simp [statsStep, h, hdec, ha, hr]
            have e2 : census (m :: medicationRecords rest) =
                { TotalVerifications := (census (medicationRecords rest)).TotalVerifications + 1,
                  AuthenticMedications :=
                    (census (medicationRecords rest)).AuthenticMedications,
                  AlertsActive := (census (medicationRecords rest)).AlertsActive } := by
              simp [census, List.countP_cons, ha, hr]
            simp only [e1, e2, Stats.mk.injEq]
            refine ⟨?_, ?_, ?_⟩ <;> first | trivial | omega

theorem searchMedications_success (s : Store) (query : String) (hq : query ≠ "") :
    searchMedications s [query]
      = (Response.success (Payload.medications
          ((scanMedications s).filter fun medication =>
            containsIgnoreCase (searchableText medication) query)), s) := by
  simp only [searchMedications, hq, if_false]

theorem occursIn_searchableText (q : String) (m : MedicationData)
    (h : occursIn q m.ProductName) : occursIn q (searchableText m) := by
  obtain ⟨x, y, hxy⟩ := h
  refine ⟨x, y ++ " " ++ m.Manufacturer ++ " " ++ m.Batch ++ " " ++ m.GTIN ++ " "
    ++ m.SerialNumber ++ " " ++ m.Location, ?_⟩
  unfold searchableText
  rw [hxy]
  simp only [String.append_assoc]

theorem mem_scanMedications (s : Store) (k : String) (m : MedicationData)
    (hk : isTrackingKey k = false) (hget : GetState s k = some (marshalMedicationData m)) :
    m ∈ scanMedications s := by
  unfold scanMedications GetStateByRange
  rw [List.mem_filterMap]
  exact ⟨(k, marshalMedicationData m), mem_of_GetState s k _ hget,
    by simp [hk, unmarshal_marshal_med]⟩

/-- What holds of commission and search: a unit commissioned under an id that
does not pass the tracking-key test is returned by every search with a
non-empty query that occurs in its product name, and it is the only unit
returned when the store was empty before the commission. -/
theorem searchMedications_finds_commissioned (s : Store)
    (gtin batch serialNumber expiryDate manufacturer productName location : String)
    (now : Clock) (p : Payload) (query : String)
    (hok : (commissionMedication s
      [gtin, batch, serialNumber, expiryDate, manufacturer, productName, location] now).1
        = Response.success p)
    (hnt : isTrackingKey (batch ++ "-" ++ serialNumber) = false)
    (hq : query ≠ "") (hocc : occursIn query productName) :
    ∃ m ms, unitAt (commissionMedication s
        [gtin, batch, serialNumber, expiryDate, manufacturer, productName, location] now).2
        (batch ++ "-" ++ serialNumber) = some m ∧
      (searchMedications (commissionMedication s
        [gtin, batch, serialNumber, expiryDate, manufacturer, productName, location] now).2
        [query]).1 = Response.success (Payload.medications ms) ∧
      m ∈ ms ∧ (s = [] → ms = [m]) := by
  obtain ⟨_, heq⟩ := commissionMedication_store_effect s gtin batch serialNumber expiryDate
    manufacturer productName location now p hok
  rw [heq, searchMedications_success _ query hq]
  have hget : GetState
      (PutState
        (PutState s (batch ++ "-" ++ serialNumber)
          (marshalMedicationData
            { ID := batch ++ "-" ++ serialNumber, GTIN := gtin, Batch := batch,
              SerialNumber := serialNumber, ExpiryDate := expiryDate,
              Manufacturer := manufacturer, ProductName := productName,
              Location := location, Timestamp := Unix (now 0),
              TransactionHash := "tx_" ++ toString (UnixNano (now 1)),
              Status := "active", CommissionTime := Unix (now 2), RecallReason := "" }))
        (trackingKey (batch ++ "-" ++ serialNumber) (eventID (UnixNano (now 3))))
        (marshalTrackingEvent
          { ID := eventID (UnixNano (now 3)), Event := "commission", Location := location,
            Timestamp := Unix (now 4), Actor := manufacturer,
            MedicationID := batch ++ "-" ++ serialNumber, Signature := "" }))
      (batch ++ "-" ++ serialNumber) = some _ :=
    (GetState_PutState_other _ _ _ _ (Ne.symm (trackingKey_ne _ _))).trans
      (GetState_PutState_same _ _ _)
  have hmatch : containsIgnoreCase (searchableText
      { ID := batch ++ "-" ++ serialNumber, GTIN := gtin, Batch := batch,
        SerialNumber := serialNumber, ExpiryDate := expiryDate,
        Manufacturer := manufacturer, ProductName := productName,
        Location := location, Timestamp := Unix (now 0),
        TransactionHash := "tx_" ++ toString (UnixNano (now 1)),
        Status := "active", CommissionTime := Unix (now 2), RecallReason := "" }) query
      = true :=
    (containsIgnoreCase_eq_true_iff _ _).mpr (occursIn_searchableText query _ hocc)
  refine ⟨_, _, (unitAt_of_GetState _ _ _ hget).trans (unmarshal_marshal_med _), rfl, ?_, ?_⟩
  · rw [List.mem_filter]
    exact ⟨mem_scanMedications _ _ _ hnt hget, hmatch⟩
  · intro hs
    subst hs
    have htk := isTrackingKey_trackingKey (batch ++ "-" ++ serialNumber)
      (eventID (UnixNano (now 3)))
    have hne := trackingKey_ne (batch ++ "-" ++ serialNumber) (eventID (UnixNano (now 3)))
    have hne' : batch ++ "-" ++ serialNumber ≠
        trackingKey (batch ++ "-" ++ serialNumber) (eventID (UnixNano (now 3))) := Ne.symm hne
    unfold scanMedications GetStateByRange
    simp only [PutState]
    split_ifs <;>
      simp [List.filterMap_cons, htk, hnt, unmarshal_marshal_med, hmatch]

/-- A search with a non-empty query that occurs in the searchable text of no
medication record of the store succeeds and returns no unit. -/
theorem searchMedications_no_match (s : Store) (query : String) (hq : query ≠ "")
    (hno : ∀ m ∈ scanMedications s, ¬ occursIn query (searchableText m)) :
    searchMedications s [query] = (Response.success (Payload.medications []), s) := by
  rw [searchMedications_success s query hq]
  have : ((scanMedications s).filter fun medication =>
      containsIgnoreCase (searchableText medication) query) = [] := by
    rw [List.filter_eq_nil_iff]
    intro m hm hc
    exact hno m hm ((containsIgnoreCase_eq_true_iff _ _).mp hc)
  rw [this]

theorem unitAt_PutState_event_reason (s : Store) (k : String) (e : TrackingEvent)
    (m : MedicationData) (h : unitAt (PutState s k (marshalTrackingEvent e)) k = some m) :
    m.RecallReason = "" := by
  rw [unitAt_PutState_event] at h
  cases h
  rfl

theorem Step.keeps_reasonOnlyOnRecalled {fresh : Bool} {s s' : Store} (h : Step fresh s s')
    (hinv : ReasonOnlyOnRecalled s) : ReasonOnlyOnRecalled s' := by
  cases h with
  | skip => exact hinv
  | commissioned m e habsent hid hstatus hreason hevent hmed hfresh =>
    intro k mk hk hnr
    by_cases h1 : k = trackingKey m.ID e.ID
    · subst h1
      exact unitAt_PutState_event_reason _ _ _ _ hk
    · rw [unitAt_PutState_other _ _ _ _ h1] at hk
      by_cases h2 : k = m.ID
      · subst h2
        rw [unitAt_PutState_same] at hk
        cases hk
        exact hreason
      · rw [unitAt_PutState_other _ _ _ _ h2] at hk
        exact hinv k mk hk hnr
  | tracked id m e hid hunit hmed hfresh =>
    intro k mk hk hnr
    by_cases h1 : k = id
    · subst h1
      rw [unitAt_PutState_same] at hk
      cases hk
      exact hinv k m hunit hnr
    · rw [unitAt_PutState_other _ _ _ _ h1] at hk
      by_cases h2 : k = trackingKey id e.ID
      · subst h2
        exact unitAt_PutState_event_reason _ _ _ _ hk
      · rw [unitAt_PutState_other _ _ _ _ h2] at hk
        exact hinv k mk hk hnr
  | recalled id m reason e hid hunit hmed hevent hfresh =>
    intro k mk hk hnr
    by_cases h1 : k = trackingKey id e.ID
    · subst h1
      exact unitAt_PutState_event_reason _ _ _ _ hk
    · rw [unitAt_PutState_other _ _ _ _ h1] at hk
      by_cases h2 : k = id
      · subst h2
        rw [unitAt_PutState_same] at hk
        cases hk
        exact absurd rfl hnr
      · rw [unitAt_PutState_other _ _ _ _ h2] at hk
        exact hinv k mk hk hnr

theorem run_keeps_reasonOnlyOnRecalled (calls : List Call) (s : Store)
    (hinv : ReasonOnlyOnRecalled s) : ReasonOnlyOnRecalled (run s calls) := by
  induction calls generalizing s with
  | nil => exact hinv
  | cons c rest ih =>
    exact ih (exec s c)
      ((exec_step false s c (fun h => by cases h)).keeps_reasonOnlyOnRecalled hinv)

theorem reasonOnlyOnRecalled_empty : ReasonOnlyOnRecalled [] := by
  intro k m hk
  simp [unitAt, GetState] at hk

theorem issueMedicationRecall_absent (s : Store) (id reason issuer : String) (now : Clock)
    (hid : id ≠ "") (habsent : GetState s id = none) :
    issueMedicationRecall s [id, reason, issuer] now
      = (Response.error ("Medication not found: " ++ id), s) := by
  simp only [issueMedicationRecall, hid, if_false, habsent]

theorem verifyMedication_absent (s : Store) (id : String) (now : Clock)
    (hid : id ≠ "") (habsent : GetState s id = none) :
    verifyMedication s [id] now = (Response.error ("Medication not found: " ++ id), s) := by
  simp only [verifyMedication, hid, if_false, habsent]

theorem getMedication_absent (s : Store) (id : String)
    (hid : id ≠ "") (habsent : GetState s id = none) :
    getMedication s [id] = (Response.error ("Medication not found: " ++ id), s) := by
  simp only [getMedication, hid, if_false, habsent]

theorem getMedication_present (s : Store) (id : String) (d : Doc)
    (hid : id ≠ "") (hget : GetState s id = some d) :
    getMedication s [id] = (Response.success (Payload.raw d), s) := by
  simp only [getMedication, hid, if_false, hget]

theorem UnitsClassified_PutState (s : Store) (k : String) (d : Doc) (hinv : UnitsClassified s)
    (hd : isTrackingKey k = false →
      ∃ m, unmarshalMedicationData d = some m ∧ (m.Status = "active" ∨ m.Status = "recalled")) :
    UnitsClassified (PutState s k d) := by
  intro kv hkv hnt
  rcases mem_PutState s k d kv hkv with h | h
  · subst h
    exact hd hnt
  · exact hinv kv h hnt

theorem UnitsClassified_PutState_event (s : Store) (id eid : String) (d : Doc)
    (hinv : UnitsClassified s) : UnitsClassified (PutState s (trackingKey id eid) d) :=
  UnitsClassified_PutState s _ d hinv (fun h => by
    rw [isTrackingKey_trackingKey] at h
    cases h)

theorem UnitsClassified.status_of_unitAt {s : Store} (hinv : UnitsClassified s) (id : String)
    (m : MedicationData) (hnt : isTrackingKey id = false) (hunit : unitAt s id = some m) :
    m.Status = "active" ∨ m.Status = "recalled" := by
  obtain ⟨d, hget, hdec⟩ := unitAt_some s id m hunit
  obtain ⟨m', hdec', hst⟩ := hinv (id, d) (mem_of_GetState s id d hget) hnt
  rw [hdec] at hdec'
  cases hdec'
  exact hst

theorem Step.keeps_unitsClassified {fresh : Bool} {s s' : Store} (h : Step fresh s s')
    (hinv : UnitsClassified s) : UnitsClassified s' := by
  cases h with
  | skip => exact hinv
  | commissioned m e habsent hid hstatus hreason hevent hmed hfresh =>
    refine UnitsClassified_PutState_event _ _ _ _
      (UnitsClassified_PutState _ _ _ hinv (fun _ => ?_))
    exact ⟨m, unmarshal_marshal_med m, Or.inl hstatus⟩
  | tracked id m e hid hunit hmed hfresh =>
    refine UnitsClassified_PutState _ _ _ (UnitsClassified_PutState_event _ _ _ _ hinv)
      (fun hnt => ?_)
    exact ⟨_, unmarshal_marshal_med _, hinv.status_of_unitAt id m hnt hunit⟩
  | recalled id m reason e hid hunit hmed hevent hfresh =>
    refine UnitsClassified_PutState_event _ _ _ _
      (UnitsClassified_PutState _ _ _ hinv (fun _ => ?_))
    exact ⟨_, unmarshal_marshal_med _, Or.inr rfl⟩

theorem run_unitsClassified (calls : List Call) (s : Store) (hinv : UnitsClassified s) :
    UnitsClassified (run s calls) := by
  induction calls generalizing s with
  | nil => exact hinv
  | cons c rest ih =>
    exact ih (exec s c) ((exec_step false s c (fun h => by cases h)).keeps_unitsClassified hinv)

theorem unitsClassified_empty : UnitsClassified [] := by
  intro kv hkv
  cases hkv

/-- In a store whose medication keys are all classified, the medication records
are as many as the keys that do not pass the tracking-key test, and each of
them is counted as active or as recalled, never as both. -/
theorem census_of_unitsClassified (s : Store) (hinv : UnitsClassified s) :
    (medicationRecords s).length = (s.filter fun kv => !isTrackingKey kv.1).length ∧
    ((medicationRecords s).countP fun m => decide (m.Status = "active"))
      + ((medicationRecords s).countP fun m => decide (m.Status = "recalled"))
      = (medicationRecords s).length := by
  induction s with
  | nil => simp [medicationRecords]
  | cons kv rest ih =>
    have htl : UnitsClassified rest := fun x hx => hinv x (List.mem_cons_of_mem _ hx)
    obtain ⟨ih1, ih2⟩ := ih htl
    by_cases h : isTrackingKey kv.1 = true
    · have hrec : medicationRecords (kv :: rest) = medicationRecords rest := by
        rw [medicationRecords_cons]
        simp [h]
      rw [hrec]
      refine ⟨?_, ih2⟩
      rw [ih1]
      simp [List.filter_cons, h]
    · have hnt : isTrackingKey kv.1 = false := by simpa using h
      obtain ⟨m, hdec, hst⟩ := hinv kv (List.mem_cons_self _ _) hnt
      have hrec : medicationRecords (kv :: rest) = m :: medicationRecords rest := by
        rw [medicationRecords_cons]
        simp [h, hdec]
      rw [hrec]
      constructor
      · simp [List.filter_cons, hnt, ih1]
      · rcases hst with ha | hr
        · have hne : ¬ ("active" : String) = "recalled" := active_ne_recalled
          simp only [List.countP_cons, ha, hne, decide_True, decide_False, if_true,
            Bool.false_eq_true, if_false, List.length_cons]
          omega
        · have hne : ¬ ("recalled" : String) = "active" := recalled_ne_active
          simp only [List.countP_cons, hr, hne, decide_True, decide_False, if_true,
            Bool.false_eq_true, if_false, List.length_cons]
          omega

theorem getVerificationStats_eq_census (s : Store) :
    getVerificationStats s []
      = (Response.success (Payload.stats
          ((medicationRecords s).length : Int)
          (((medicationRecords s).countP fun m => decide (m.Status = "active")) : Nat)
          (((medicationRecords s).countP fun m => decide (m.Status = "recalled")) : Nat)), s) := by
  simp only [getVerificationStats, GetStateByRange, foldl_statsStep, census, zero_add]

/-- A unit commissioned under an id that does not pass the tracking-key test is
among the medication records of the store after the commission, the records
that `getVerificationStats` counts. -/
theorem commissioned_unit_counted (s : Store)
    (gtin batch serialNumber expiryDate manufacturer productName location : String)
    (now : Clock) (p : Payload)
    (hok : (commissionMedication s
      [gtin, batch, serialNumber, expiryDate, manufacturer, productName, location] now).1
        = Response.success p)
    (hnt : isTrackingKey (batch ++ "-" ++ serialNumber) = false) :
    ∃ m, unitAt (commissionMedication s
        [gtin, batch, serialNumber, expiryDate, manufacturer, productName, location] now).2
        (batch ++ "-" ++ serialNumber) = some m ∧
      m ∈ medicationRecords (commissionMedication s
        [gtin, batch, serialNumber, expiryDate, manufacturer, productName, location] now).2 := by
  obtain ⟨_, heq⟩ := commissionMedication_store_effect s gtin batch serialNumber expiryDate
    manufacturer productName location now p hok
  rw [heq, ← scanMedications_eq_medicationRecords]
  have hget : GetState
      (PutState
        (PutState s (batch ++ "-" ++ serialNumber)
          (marshalMedicationData
            { ID := batch ++ "-" ++ serialNumber, GTIN := gtin, Batch := batch,
              SerialNumber := serialNumber, ExpiryDate := expiryDate,
              Manufacturer := manufacturer, ProductName := productName,
              Location := location, Timestamp := Unix (now 0),
              TransactionHash := "tx_" ++ toString (UnixNano (now 1)),
              Status := "active", CommissionTime := Unix (now 2), RecallReason := "" }))
        (trackingKey (batch ++ "-" ++ serialNumber) (eventID (UnixNano (now 3))))
        (marshalTrackingEvent
          { ID := eventID (UnixNano (now 3)), Event := "commission", Location := location,
            Timestamp := Unix (now 4), Actor := manufacturer,
            MedicationID := batch ++ "-" ++ serialNumber, Signature := "" }))
      (batch ++ "-" ++ serialNumber) = some _ :=
    (GetState_PutState_other _ _ _ _ (Ne.symm (trackingKey_ne _ _))).trans
      (GetState_PutState_same _ _ _)
  exact ⟨_, (unitAt_of_GetState _ _ _ hget).trans (unmarshal_marshal_med _),
    mem_scanMedications _ _ _ hnt hget⟩

/-- No entry under a tracking key is among the counted records: the medication
records of a store are those of the store without its tracking keys. -/
theorem medicationRecords_without_events (s : Store) :
    medicationRecords (s.filter fun kv => !isTrackingKey kv.1) = medicationRecords s := by
  induction s with
  | nil => rfl
  | cons kv rest ih =>
    by_cases h : isTrackingKey kv.1 = true
    · rw [List.filter_cons]
      simp only [h, Bool.not_true, Bool.false_eq_true, if_false]
      rw [ih, medicationRecords_cons kv rest]
      simp [h]
    · have hnt : isTrackingKey kv.1 = false := by simpa using h
      rw [List.filter_cons]
      simp only [hnt, Bool.not_false, if_true]
      rw [medicationRecords_cons, medicationRecords_cons, ih]

theorem append_cons_inj_of_not_mem (c : Char) (a b x y : List Char)
    (ha : c ∉ a) (hb : c ∉ b) (h : a ++ c :: x = b ++ c :: y) : a = b ∧ x = y := by
  induction a generalizing b with
  | nil =>
    cases b with
    | nil =>
      simp only [List.nil_append, List.cons.injEq, true_and] at h
      exact ⟨rfl, h⟩
    | cons d b' =>
      simp only [List.nil_append, List.cons_append, List.cons.injEq] at h
      exact absurd (h.1 ▸ List.mem_cons_self _ _) hb
  | cons d a' ih =>
    cases b with
    | nil =>
      simp only [List.nil_append, List.cons_append, List.cons.injEq] at h
      exact absurd (h.1 ▸ List.mem_cons_self _ _) ha
    | cons d' b' =>
      simp only [List.cons_append, List.cons.injEq] at h
      obtain ⟨hd, ht⟩ := h
      obtain ⟨hab, hxy⟩ := ih b' (fun hm => ha (List.mem_cons_of_mem _ hm))
        (fun hm => hb (List.mem_cons_of_mem _ hm)) ht
      exact ⟨by rw [hd, hab], hxy⟩

/-- The derived id `batch + "-" + serialNumber` determines the pair when the
batch holds no `-`. -/
theorem medicationID_inj (batch1 serial1 batch2 serial2 : String)
    (h1 : '-' ∉ batch1.data) (h2 : '-' ∉ batch2.data)
    (h : batch1 ++ "-" ++ serial1 = batch2 ++ "-" ++ serial2) :
    batch1 = batch2 ∧ serial1 = serial2 := by
  have hd := congrArg String.data h
  have hdash : ("-" : String).data = ['-'] := rfl
  simp only [String.data_append, List.append_assoc, hdash, List.singleton_append] at hd
  obtain ⟨hb, hs⟩ := append_cons_inj_of_not_mem '-' _ _ _ _ h1 h2 hd
  exact ⟨String.ext hb, String.ext hs⟩

theorem commissionMedication_alreadyExists_iff (s : Store)
    (gtin batch serialNumber expiryDate manufacturer productName location : String)
    (now : Clock)
    (hgtin : gtin ≠ "") (hbatch : batch ≠ "") (hserial : serialNumber ≠ "")
    (hmanufacturer : manufacturer ≠ "") (hproduct : productName ≠ "") :
    (commissionMedication s
        [gtin, batch, serialNumber, expiryDate, manufacturer, productName, location] now).1
      = Response.error ("Medication already exists with ID: " ++ (batch ++ "-" ++ serialNumber))
    ↔ GetState s (batch ++ "-" ++ serialNumber) ≠ none := by
  cases hget : GetState s (batch ++ "-" ++ serialNumber) with
  | none =>
    rw [commissionMedication_success s gtin batch serialNumber expiryDate manufacturer
      productName location now hgtin hbatch hserial hmanufacturer hproduct hget]
    simp
  | some d =>
    simp only [commissionMedication, hgtin, hbatch, hserial, hmanufacturer, hproduct, hget,
      or_self, if_false, ne_eq, not_false_eq_true, reduceCtorEq]

/-! ## Event keys and the ids they belong to -/

theorem digitChar_ne_underscore (d : Nat) (hd : d < 10) : Nat.digitChar d ≠ '_' := by
  interval_cases d <;> decide

theorem toDigitsCore_no_underscore (fuel : Nat) :
    ∀ (n : Nat) (ds : List Char), '_' ∉ ds → '_' ∉ Nat.toDigitsCore 10 fuel n ds := by
  induction fuel with
  | zero =>
    intro n ds hds
    simpa [Nat.toDigitsCore] using hds
  | succ fuel ih =>
    intro n ds hds
    have hd : '_' ∉ Nat.digitChar (n % 10) :: ds := by
      intro hmem
      rcases List.mem_cons.mp hmem with h | h
      · exact digitChar_ne_underscore (n % 10) (Nat.mod_lt _ (by decide)) h.symm
      · exact hds h
    unfold Nat.toDigitsCore
    dsimp only
    split
    · exact hd
    · exact ih _ _ hd

/-- The decimal text of an integer holds no underscore. -/
theorem toString_int_no_underscore (n : Int) : '_' ∉ (toString n).data := by
  have hnat : ∀ m : Nat, '_' ∉ (Nat.repr m).data := by
    intro m
    show '_' ∉ (Nat.toDigits 10 m).asString.data
    exact toDigitsCore_no_underscore _ _ _ (List.not_mem_nil _)
  cases n with
  | ofNat m => exact hnat m
  | negSucc m =>
    show '_' ∉ ("-" ++ Nat.repr (Nat.succ m)).data
    rw [String.data_append]
    intro hmem
    rcases List.mem_append.mp hmem with h | h
    · revert h
      decide
    · exact hnat _ h

theorem append_cons_inj_of_not_mem_tail (c : Char) (a b x y : List Char)
    (hx : c ∉ x) (hy : c ∉ y) (h : a ++ c :: x = b ++ c :: y) : a = b ∧ x = y := by
  have hr := congrArg List.reverse h
  simp only [List.reverse_append, List.reverse_cons, List.append_assoc,
    List.singleton_append] at hr
  obtain ⟨h1, h2⟩ := append_cons_inj_of_not_mem c x.reverse y.reverse a.reverse b.reverse
    (fun hm => hx (List.mem_reverse.mp hm)) (fun hm => hy (List.mem_reverse.mp hm)) hr
  exact ⟨List.reverse_injective h2, List.reverse_injective h1⟩

/-- The tracking key of a generated event id determines the medication id. -/
theorem trackingKey_eventID_inj (a b : String) (n m : Int)
    (h : trackingKey a (eventID n) = trackingKey b (eventID m)) : a = b := by
  have hd := congrArg String.data h
  have h1 : ("_" : String).data = ['_'] := rfl
  have h2 : ("evt_" : String).data = ['e', 'v', 't', '_'] := rfl
  simp only [trackingKey, eventID, String.data_append, List.append_assoc,
    List.append_cancel_left_eq, h1, h2, List.singleton_append, List.cons_append,
    List.nil_append, List.cons.injEq, true_and] at hd
  have hd' : (a.data ++ ['_', 'e', 'v', 't']) ++ '_' :: (toString n).data
      = (b.data ++ ['_', 'e', 'v', 't']) ++ '_' :: (toString m).data := by
    simpa only [List.append_assoc, List.cons_append, List.nil_append] using hd
  obtain ⟨hab, _⟩ := append_cons_inj_of_not_mem_tail '_' _ _ _ _
    (toString_int_no_underscore n) (toString_int_no_underscore m) hd'
  exact String.ext (List.append_cancel_right hab)

theorem GetState_PutState_ne_none_cases (s : Store) (k k2 : String) (v : Doc)
    (h : GetState (PutState s k v) k2 ≠ none) : k2 = k ∨ GetState s k2 ≠ none := by
  by_cases hk : k2 = k
  · exact Or.inl hk
  · rw [GetState_PutState_other _ _ _ _ hk] at h
    exact Or.inr h

theorem EventKeysOwned_PutState_unit (s : Store) (id : String) (d : Doc)
    (hinv : EventKeysOwned s)
    (hid : GetState s id ≠ none ∨ isTrackingKey id = false) :
    EventKeysOwned (PutState s id d) := by
  intro id' n hpresent
  rcases GetState_PutState_ne_none_cases s id _ d hpresent with h | h
  · rcases hid with hid | hid
    · rw [← h] at hid
      exact GetState_PutState_ne_none s id id' d (hinv id' n hid)
    · rw [← h, isTrackingKey_trackingKey] at hid
      cases hid
  · exact GetState_PutState_ne_none s id id' d (hinv id' n h)

theorem EventKeysOwned_PutState_event (s : Store) (id : String) (n : Int) (d : Doc)
    (hinv : EventKeysOwned s) (hid : GetState s id ≠ none) :
    EventKeysOwned (PutState s (trackingKey id (eventID n)) d) := by
  intro id' n' hpresent
  rcases GetState_PutState_ne_none_cases s _ _ d hpresent with h | h
  · rw [trackingKey_eventID_inj id' id n' n h]
    exact GetState_PutState_ne_none s _ id d hid
  · exact GetState_PutState_ne_none s _ id' d (hinv id' n' h)

theorem commissionMedication_keeps_eventKeysOwned (s : Store) (args : List String)
    (now : Clock) (hinv : EventKeysOwned s)
    (hplain : isTrackingKey (args.getD 1 "" ++ "-" ++ args.getD 2 "") = false) :
    EventKeysOwned (commissionMedication s args now).2 := by
  unfold commissionMedication
  split
  · rename_i gtin batch serialNumber expiryDate manufacturer productName location
    split
    · exact hinv
    · dsimp only
      split
      · exact hinv
      · exact EventKeysOwned_PutState_event _ _ _ _
          (EventKeysOwned_PutState_unit s _ _ hinv (Or.inr (by simpa using hplain)))
          (by rw [GetState_PutState_same]; exact Option.some_ne_none _)
  · exact hinv

theorem addTrackingEvent_keeps_eventKeysOwned (s : Store) (args : List String)
    (now : Clock) (hinv : EventKeysOwned s) :
    EventKeysOwned (addTrackingEvent s args now).2 := by
  unfold addTrackingEvent
  split
  · rename_i medicationID event location actor signature
    split
    · exact hinv
    · split
      · exact hinv
      · rename_i d hget
        have hpresent : GetState s medicationID ≠ none := by
          rw [hget]
          exact Option.some_ne_none _
        split
        · exact hinv
        · exact EventKeysOwned_PutState_unit _ _ _
            (EventKeysOwned_PutState_event s _ _ _ hinv hpresent)
            (Or.inl (GetState_PutState_ne_none s _ _ _ hpresent))
  · exact hinv

theorem issueMedicationRecall_keeps_eventKeysOwned (s : Store) (args : List String)
    (now : Clock) (hinv : EventKeysOwned s) :
    EventKeysOwned (issueMedicationRecall s args now).2 := by
  unfold issueMedicationRecall
  split
  · rename_i medicationID reason issuer
    split
    · exact hinv
    · split
      · exact hinv
      · rename_i d hget
        have hpresent : GetState s medicationID ≠ none := by
          rw [hget]
          exact Option.some_ne_none _
        split
        · exact hinv
        · exact EventKeysOwned_PutState_event _ _ _ _
            (EventKeysOwned_PutState_unit s _ _ hinv (Or.inl hpresent))
            (by rw [GetState_PutState_same]; exact Option.some_ne_none _)
  · exact hinv

theorem exec_keeps_eventKeysOwned (s : Store) (c : Call) (hinv : EventKeysOwned s)
    (hplain : c.function = "commissionMedication" → isTrackingKey c.medicationID = false) :
    EventKeysOwned (exec s c) := by
  unfold exec Invoke
  split_ifs with h1 h2 h3 h4 h5 h6 h7 h8 h9
  · refine commissionMedication_keeps_eventKeysOwned s c.args c.now hinv ?_
    simpa [Call.medicationID, h1] using hplain h1
  · exact addTrackingEvent_keeps_eventKeysOwned s c.args c.now hinv
  · rw [verifyMedication_store]; exact hinv
  · exact issueMedicationRecall_keeps_eventKeysOwned s c.args c.now hinv
  · rw [getMedication_store]; exact hinv
  · rw [getTrackingHistory_store]; exact hinv
  · rw [getMedicationsByManufacturer_store]; exact hinv
  · rw [getVerificationStats_store]; exact hinv
  · rw [searchMedications_store]; exact hinv
  · exact hinv

theorem run_eventKeysOwned (calls : List Call) (s : Store) (hinv : EventKeysOwned s)
    (hplain : plainCommissions calls = true) : EventKeysOwned (run s calls) := by
  induction calls generalizing s with
  | nil => exact hinv
  | cons c rest ih =>
    simp only [plainCommissions, List.all_cons, Bool.and_eq_true, Bool.or_eq_true,
      Bool.not_eq_true', decide_eq_false_iff_not] at hplain
    refine ih (exec s c) (exec_keeps_eventKeysOwned s c hinv (fun hc => ?_)) ?_
    · rcases hplain.1 with h | h
      · exact absurd hc h
      · exact h
    · simp only [plainCommissions]
      exact hplain.2

theorem eventKeysOwned_empty : EventKeysOwned [] := by
  intro id n h
  exact absurd rfl h

/-- The commission frame on a store reached without a commission id in the
tracking namespace: on every store reached from the empty store by invocations
whose commissions all have a derived id that does not pass the tracking-key
test, a successful `commissionMedication` (with any arguments and any clock)
changes the store in exactly two keys, the unit key and the commission-event
key, both absent before the call, and every key present before the call keeps
its value. -/
theorem commissionMedication_frame_of_plain_commissions (calls : List Call)
    (hplain : plainCommissions calls = true)
    (gtin batch serialNumber expiryDate manufacturer productName location : String)
    (now : Clock) (p : Payload)
    (hok : (commissionMedication (run [] calls)
      [gtin, batch, serialNumber, expiryDate, manufacturer, productName, location] now).1
        = Response.success p) :
    GetState (run [] calls) (batch ++ "-" ++ serialNumber) = none ∧
    GetState (run [] calls)
      (trackingKey (batch ++ "-" ++ serialNumber) (eventID (UnixNano (now 3)))) = none ∧
    trackingKey (batch ++ "-" ++ serialNumber) (eventID (UnixNano (now 3)))
      ≠ batch ++ "-" ++ serialNumber ∧
    GetState (commissionMedication (run [] calls)
      [gtin, batch, serialNumber, expiryDate, manufacturer, productName, location] now).2
      (batch ++ "-" ++ serialNumber) ≠ none ∧
    GetState (commissionMedication (run [] calls)
      [gtin, batch, serialNumber, expiryDate, manufacturer, productName, location] now).2
      (trackingKey (batch ++ "-" ++ serialNumber) (eventID (UnixNano (now 3)))) ≠ none ∧
    (∀ k, k ≠ batch ++ "-" ++ serialNumber →
      k ≠ trackingKey (batch ++ "-" ++ serialNumber) (eventID (UnixNano (now 3))) →
      GetState (commissionMedication (run [] calls)
        [gtin, batch, serialNumber, expiryDate, manufacturer, productName, location] now).2 k
        = GetState (run [] calls) k) ∧
    (∀ k d, GetState (run [] calls) k = some d →
      GetState (commissionMedication (run [] calls)
        [gtin, batch, serialNumber, expiryDate, manufacturer, productName, location] now).2 k
        = some d) := by
  obtain ⟨habsent, heq⟩ := commissionMedication_store_effect (run [] calls) gtin batch
    serialNumber expiryDate manufacturer productName location now p hok
  have hfresh : GetState (run [] calls)
      (trackingKey (batch ++ "-" ++ serialNumber) (eventID (UnixNano (now 3)))) = none := by
    by_contra hne
    exact run_eventKeysOwned calls [] eventKeysOwned_empty hplain _ _ hne habsent
  rw [heq]
  refine ⟨habsent, hfresh, trackingKey_ne _ _, ?_, ?_, ?_, ?_⟩
  · rw [GetState_PutState_other _ _ _ _ (Ne.symm (trackingKey_ne _ _)), GetState_PutState_same]
    exact Option.some_ne_none _
  · rw [GetState_PutState_same]
    exact Option.some_ne_none _
  · intro k h1 h2
    exact GetState_PutState_two_other (run [] calls) _ _ _ _ k h1 h2
  · intro k d hk
    rw [GetState_PutState_two_other (run [] calls) _ _ _ _ k
      (GetState_ne_of_some_none (run [] calls) _ _ _ hk habsent)
      (GetState_ne_of_some_none (run [] calls) _ _ _ hk hfresh)]
    exact hk

/-- An instance of the frame: after the commission of `B001-S001`, the
commission of `B001-S002` at the same clock readings leaves the two keys of the
first unit as they were. -/
theorem commissionMedication_frame_of_plain_commissions_example :
    plainCommissions [commissionCall] = true ∧
    (commissionMedication (run [] [commissionCall])
      ["7501001234567", "B001", "S002", "2025-12-31", "PharmaCorp", "Paracetamol 500mg",
        "Plant A"] (clockFrom 1700000000000001000)).1
        = Response.success (Payload.text "B001-S002") ∧
    GetState (commissionMedication (run [] [commissionCall])
      ["7501001234567", "B001", "S002", "2025-12-31", "PharmaCorp", "Paracetamol 500mg",
        "Plant A"] (clockFrom 1700000000000001000)).2 "B001-S001"
      = some (marshalMedicationData demoUnit) :=
  ⟨by decide, by set_option maxRecDepth 65536 in decide,
    (commissionMedication_frame_of_plain_commissions [commissionCall] (by decide)
      "7501001234567" "B001" "S002" "2025-12-31" "PharmaCorp" "Paracetamol 500mg" "Plant A"
      (clockFrom 1700000000000001000) (Payload.text "B001-S002")
      (by set_option maxRecDepth 65536 in decide)).2.2.2.2.2.2 "B001-S001"
      (marshalMedicationData demoUnit) (by set_option maxRecDepth 65536 in decide)⟩

/-! ## Claims C1 to C10 -/

/-- C1: when the unit stored under `id` has status `recalled`, then after every
finite sequence of invocations (of `commissionMedication`, `addTrackingEvent`,
`issueMedicationRecall` or any other function, with arbitrary arguments and
clock readings) the store still holds a unit under `id` and its status is not
`active`. -/
theorem status_never_back_to_active (s : Store) (id : String) (m : MedicationData)
    (hunit : unitAt s id = some m) (hrecalled : m.Status = "recalled") (calls : List Call) :
    ∃ m', unitAt (run s calls) id = some m' ∧ m'.Status ≠ "active" :=
  run_keeps_inactive calls s id ⟨m, hunit, by rw [hrecalled]; exact recalled_ne_active⟩

/-- C1 (witness): the recalled unit `B001-S001`, followed by a second commission
of the same unit and a tracking event. -/
theorem status_never_back_to_active_witness :
    unitAt (run [] recallCalls) "B001-S001" = some recalledUnit ∧
    recalledUnit.Status = "recalled" ∧
    ∃ m', unitAt (run (run [] recallCalls) taggedRecallCalls) "B001-S001" = some m' ∧
      m'.Status ≠ "active" :=
  ⟨by decide, rfl,
    status_never_back_to_active (run [] recallCalls) "B001-S001" recalledUnit (by decide) rfl
      taggedRecallCalls⟩

/-- C2 (counterexample): on a store that holds a record under `B001-S001`, a
commission with that batch and serial number and an empty gtin is answered with
the validation error, not with the already-exists error. -/
theorem commissionMedication_duplicate_empty_gtin :
    GetState demoStore ("B001" ++ "-" ++ "S001") ≠ none ∧
    (commissionMedication demoStore ["", "B001", "S001", "2025-12-31", "PharmaCorp", "X", "Y"]
        (clockFrom 1700000000000002000)).1
      = Response.error
          "Missing required fields: gtin, batch, serialNumber, manufacturer, productName" ∧
    (commissionMedication demoStore ["", "B001", "S001", "2025-12-31", "PharmaCorp", "X", "Y"]
        (clockFrom 1700000000000002000)).1
      ≠ Response.error ("Medication already exists with ID: " ++ ("B001" ++ "-" ++ "S001")) := by
  decide

/-- C2 (amended): when the store holds a record under `batch-serialNumber`, a
commission with that batch and serial number whose required fields are all
non-empty returns the already-exists error and leaves the store unchanged,
whatever the other field values are. -/
theorem commissionMedication_duplicate_rejected (s : Store)
    (gtin batch serialNumber expiryDate manufacturer productName location : String)
    (now : Clock) (d : Doc)
    (hgtin : gtin ≠ "") (hbatch : batch ≠ "") (hserial : serialNumber ≠ "")
    (hmanufacturer : manufacturer ≠ "") (hproduct : productName ≠ "")
    (hheld : GetState s (batch ++ "-" ++ serialNumber) = some d) :
    commissionMedication s
        [gtin, batch, serialNumber, expiryDate, manufacturer, productName, location] now
      = (Response.error ("Medication already exists with ID: " ++ (batch ++ "-" ++ serialNumber)),
          s) := by
  simp [commissionMedication, hgtin, hbatch, hserial, hmanufacturer, hproduct, hheld]

/-- C2 (witness): a second commission of `B001-S001` with other field values. -/
theorem commissionMedication_duplicate_rejected_witness :
    ("1234" ≠ "" ∧ "B001" ≠ "" ∧ "S001" ≠ "" ∧ "OtherCorp" ≠ "" ∧ "Other" ≠ "") ∧
    GetState demoStore ("B001" ++ "-" ++ "S001") = some (marshalMedicationData demoUnit) ∧
    commissionMedication demoStore ["1234", "B001", "S001", "", "OtherCorp", "Other", ""]
        (clockFrom 1700000000000002000)
      = (Response.error ("Medication already exists with ID: " ++ ("B001" ++ "-" ++ "S001")),
          demoStore) :=
  ⟨by decide, by decide,
    commissionMedication_duplicate_rejected demoStore "1234" "B001" "S001" "" "OtherCorp" "Other"
      "" (clockFrom 1700000000000002000) (marshalMedicationData demoUnit)
      (by decide) (by decide) (by decide) (by decide) (by decide) (by decide)⟩

/-- C3: a commission with seven arguments, non-empty required fields and no
record under `batch-serialNumber` succeeds, returns that id, and the record
stored under the id afterwards carries the inputs, status `active` and an empty
recall reason. -/
theorem commissionMedication_creates_unit (s : Store)
    (gtin batch serialNumber expiryDate manufacturer productName location : String)
    (now : Clock)
    (hgtin : gtin ≠ "") (hbatch : batch ≠ "") (hserial : serialNumber ≠ "")
    (hmanufacturer : manufacturer ≠ "") (hproduct : productName ≠ "")
    (habsent : GetState s (batch ++ "-" ++ serialNumber) = none) :
    (commissionMedication s
        [gtin, batch, serialNumber, expiryDate, manufacturer, productName, location] now).1
      = Response.success (Payload.text (batch ++ "-" ++ serialNumber)) ∧
    ∃ m,
      unitAt (commissionMedication s
        [gtin, batch, serialNumber, expiryDate, manufacturer, productName, location] now).2
        (batch ++ "-" ++ serialNumber) = some m ∧
      m.ID = batch ++ "-" ++ serialNumber ∧ m.GTIN = gtin ∧ m.Batch = batch ∧
      m.SerialNumber = serialNumber ∧ m.ExpiryDate = expiryDate ∧
      m.Manufacturer = manufacturer ∧ m.ProductName = productName ∧
      m.Location = location ∧ m.Status = "active" ∧ m.RecallReason = "" := by
  rw [commissionMedication_success s gtin batch serialNumber expiryDate manufacturer productName
    location now hgtin hbatch hserial hmanufacturer hproduct habsent]
  refine ⟨rfl, _, (unitAt_PutState_trackingKey _ _ _ _).trans (unitAt_PutState_same _ _ _), ?_⟩
  exact ⟨rfl, rfl, rfl, rfl, rfl, rfl, rfl, rfl, rfl, rfl⟩

/-- C3 (witness): the commission of `B001-S001` on the empty store. -/
theorem commissionMedication_creates_unit_witness :
    ("7501001234567" ≠ "" ∧ "B001" ≠ "" ∧ "S001" ≠ "" ∧ "PharmaCorp" ≠ "" ∧
      "Paracetamol 500mg" ≠ "") ∧
    GetState [] ("B001" ++ "-" ++ "S001") = none ∧
    (commissionMedication []
        ["7501001234567", "B001", "S001", "2025-12-31", "PharmaCorp", "Paracetamol 500mg",
          "Plant A"] (clockFrom 1700000000000001000)).1
      = Response.success (Payload.text ("B001" ++ "-" ++ "S001")) ∧
    ∃ m,
      unitAt (commissionMedication []
        ["7501001234567", "B001", "S001", "2025-12-31", "PharmaCorp", "Paracetamol 500mg",
          "Plant A"] (clockFrom 1700000000000001000)).2
        ("B001" ++ "-" ++ "S001") = some m ∧
      m.ID = "B001" ++ "-" ++ "S001" ∧ m.GTIN = "7501001234567" ∧ m.Batch = "B001" ∧
      m.SerialNumber = "S001" ∧ m.ExpiryDate = "2025-12-31" ∧
      m.Manufacturer = "PharmaCorp" ∧ m.ProductName = "Paracetamol 500mg" ∧
      m.Location = "Plant A" ∧ m.Status = "active" ∧ m.RecallReason = "" :=
  ⟨by decide, by decide,
    commissionMedication_creates_unit [] "7501001234567" "B001" "S001" "2025-12-31" "PharmaCorp"
      "Paracetamol 500mg" "Plant A" (clockFrom 1700000000000001000)
      (by decide) (by decide) (by decide) (by decide) (by decide) (by decide)⟩

/-- C4: on a store that holds a unit under `id` (the world state has no empty
key), `verifyMedication` succeeds, returns the unit and its tracking history,
and the returned `isValid` is true exactly when the unit's status is not
`recalled` and no event of the returned history has the tag `recall`. -/
theorem verifyMedication_isValid_iff (s : Store) (id : String) (now : Clock)
    (m : MedicationData) (hkey : GetState s "" = none) (hunit : unitAt s id = some m) :
    ∃ r, verifyMedication s [id] now = (Response.success (Payload.verification r), s) ∧
      r.MedicationData = m ∧
      r.TrackingHistory = getTrackingEventsForMedication s id ∧
      (r.IsValid = true ↔
        (m.Status ≠ "recalled" ∧ ∀ e ∈ r.TrackingHistory, e.Event ≠ "recall")) := by
  obtain ⟨d, hget, hdec⟩ := unitAt_some s id m hunit
  refine ⟨_, verifyMedication_success s id now d m (ne_empty_of_unitAt s id m hkey hunit)
    hget hdec, rfl, rfl, ?_⟩
  simp [recallScan_eq_true]

/-- C4 (witness): the verification of `B001-S001` in `demoStore`. -/
theorem verifyMedication_isValid_iff_witness :
    GetState demoStore "" = none ∧
    unitAt demoStore "B001-S001" = some demoUnit ∧
    ∃ r, verifyMedication demoStore ["B001-S001"] (clockFrom 1700000000000002000)
        = (Response.success (Payload.verification r), demoStore) ∧
      r.MedicationData = demoUnit ∧
      r.TrackingHistory = getTrackingEventsForMedication demoStore "B001-S001" ∧
      (r.IsValid = true ↔
        (demoUnit.Status ≠ "recalled" ∧ ∀ e ∈ r.TrackingHistory, e.Event ≠ "recall")) :=
  ⟨by decide, by decide,
    verifyMedication_isValid_iff demoStore "B001-S001" (clockFrom 1700000000000002000) demoUnit
      (by decide) (by decide)⟩

/-- C5 (counterexample): after the commission of `B001-S001` and a tracking event
with the tag `recall`, the unit has status `active` although its tracking
history contains an event with event = `recall`. -/
theorem tagged_recall_event_without_recalled_status :
    statusAt (run [] taggedRecallCalls) "B001-S001" = some "active" ∧
    (∃ e ∈ getTrackingEventsForMedication (run [] taggedRecallCalls) "B001-S001",
      e.Event = "recall") ∧
    ¬ (statusAt (run [] taggedRecallCalls) "B001-S001" = some "recalled" ↔
      ∃ e ∈ getTrackingEventsForMedication (run [] taggedRecallCalls) "B001-S001",
        e.Event = "recall") := by
  have h1 : statusAt (run [] taggedRecallCalls) "B001-S001" = some "active" := by decide
  have h2 : ∃ e ∈ getTrackingEventsForMedication (run [] taggedRecallCalls) "B001-S001",
      e.Event = "recall" := by
    set_option maxRecDepth 8192 in decide
  refine ⟨h1, h2, fun hiff => ?_⟩
  have h3 := hiff.mpr h2
  rw [h1] at h3
  exact absurd h3 (by decide)

/-- C5 (amended): in every store reached from the empty store by a sequence of
invocations in which every writing invocation addresses a medication id that
does not pass the tracking-key test and stores its event under a key not yet in
use, a unit whose status is `recalled` has an event with event = `recall` in its
tracking history. -/
theorem recalled_unit_has_recall_event (calls : List Call)
    (hd : disciplined [] calls = true) (id : String) (m : MedicationData)
    (hunit : unitAt (run [] calls) id = some m) (hrecalled : m.Status = "recalled") :
    ∃ e ∈ getTrackingEventsForMedication (run [] calls) id, e.Event = "recall" := by
  obtain ⟨tk, e, htk, hget, hev, hm⟩ :=
    run_keeps_recallRecorded calls [] hd recallRecorded_empty id m hunit hrecalled
  exact ⟨e, mem_getTrackingEventsForMedication _ id tk e htk hget hm, hev⟩

/-- C5 (witness): the commission of `B001-S001` followed by its recall. -/
theorem recalled_unit_has_recall_event_witness :
    disciplined [] recallCalls = true ∧
    unitAt (run [] recallCalls) "B001-S001" = some recalledUnit ∧
    recalledUnit.Status = "recalled" ∧
    ∃ e ∈ getTrackingEventsForMedication (run [] recallCalls) "B001-S001", e.Event = "recall" :=
  ⟨by decide, by decide, rfl,
    recalled_unit_has_recall_event recallCalls (by decide) "B001-S001" recalledUnit
      (by decide) rfl⟩

/-- C6: on a store that holds a unit under `id` (the world state has no empty
key), `issueMedicationRecall` succeeds for every reason and issuer, and the
unit stored under `id` afterwards is the former unit with status `recalled` and
the given recall reason, every other field unchanged. -/
theorem issueMedicationRecall_updates_unit (s : Store) (id reason issuer : String)
    (now : Clock) (m : MedicationData) (hkey : GetState s "" = none)
    (hunit : unitAt s id = some m) :
    (issueMedicationRecall s [id, reason, issuer] now).1
      = Response.success (Payload.text (eventID (UnixNano (now 0)))) ∧
    unitAt (issueMedicationRecall s [id, reason, issuer] now).2 id
      = some { m with Status := "recalled", RecallReason := reason } := by
  obtain ⟨d, hget, hdec⟩ := unitAt_some s id m hunit
  rw [issueMedicationRecall_success s id reason issuer now d m
    (ne_empty_of_unitAt s id m hkey hunit) hget hdec]
  exact ⟨rfl, (unitAt_PutState_trackingKey _ _ _ _).trans (unitAt_PutState_same _ _ _)⟩

/-- C6 (witness): the recall of `B001-S001` in `demoStore`. -/
theorem issueMedicationRecall_updates_unit_witness :
    GetState demoStore "" = none ∧
    unitAt demoStore "B001-S001" = some demoUnit ∧
    (issueMedicationRecall demoStore ["B001-S001", "contamination", "Regulator"]
        (clockFrom 1700000000000002000)).1
      = Response.success (Payload.text (eventID (UnixNano (clockFrom 1700000000000002000 0)))) ∧
    unitAt (issueMedicationRecall demoStore ["B001-S001", "contamination", "Regulator"]
        (clockFrom 1700000000000002000)).2 "B001-S001"
      = some { demoUnit with Status := "recalled", RecallReason := "contamination" } :=
  ⟨by decide, by decide,
    issueMedicationRecall_updates_unit demoStore "B001-S001" "contamination" "Regulator"
      (clockFrom 1700000000000002000) demoUnit (by decide) (by decide)⟩

/-- C7 (failing input): the trace `shadowCalls`.  Every invocation succeeds;
after the recall (the third invocation) the unit
`tracking_A-Z_evt_1700000000000009000` has status `recalled` and is verified as
not valid; after the two further successful `addTrackingEvent` invocations
`verifyMedication` for the same id returns `isValid = true`. -/
theorem verifyMedication_valid_after_recall :
    responses [] shadowCalls =
      [ Response.success (Payload.text "tracking_A-Z_evt_1700000000000009000"),
        Response.success (Payload.text "A-Z"),
        Response.success (Payload.text "evt_1700000000000005000"),
        Response.success (Payload.text "evt_1700000000000007000"),
        Response.success (Payload.text "evt_1700000000000009000") ] ∧
    statusAt (run [] (shadowCalls.take 3)) "tracking_A-Z_evt_1700000000000009000"
      = some "recalled" ∧
    isValidOf (verifyMedication (run [] (shadowCalls.take 3))
      ["tracking_A-Z_evt_1700000000000009000"] (clockFrom 1700000000000006000)).1
      = some false ∧
    isValidOf (verifyMedication (run [] shadowCalls)
      ["tracking_A-Z_evt_1700000000000009000"] (clockFrom 1700000000000010000)).1
      = some true := by
  refine ⟨?_, ?_, ?_, ?_⟩
  · set_option maxRecDepth 65536 in decide
  · set_option maxRecDepth 65536 in decide
  · set_option maxRecDepth 65536 in decide
  · set_option maxRecDepth 65536 in decide

/-- C8: on a store that holds a unit under `medicationId` (the world state has
no empty key), `addTrackingEvent` succeeds for every event tag, location, actor
and signature, and the unit stored under `medicationId` afterwards is the
former unit with the location argument as its location, every other field
unchanged. -/
theorem addTrackingEvent_updates_location_only (s : Store)
    (medicationId event location actor signature : String) (now : Clock)
    (m : MedicationData) (hkey : GetState s "" = none)
    (hunit : unitAt s medicationId = some m) :
    (addTrackingEvent s [medicationId, event, location, actor, signature] now).1
      = Response.success (Payload.text (eventID (UnixNano (now 0)))) ∧
    unitAt (addTrackingEvent s [medicationId, event, location, actor, signature] now).2
        medicationId
      = some { m with Location := location } := by
  obtain ⟨d, hget, hdec⟩ := unitAt_some s medicationId m hunit
  rw [addTrackingEvent_success s medicationId event location actor signature now d m
    (ne_empty_of_unitAt s medicationId m hkey hunit) hget hdec]
  exact ⟨rfl, unitAt_PutState_same _ _ _⟩

/-- C8 (witness): a tracking event with the tag `recall` for `B001-S001`. -/
theorem addTrackingEvent_updates_location_only_witness :
    GetState demoStore "" = none ∧
    unitAt demoStore "B001-S001" = some demoUnit ∧
    (addTrackingEvent demoStore ["B001-S001", "recall", "DC B", "LogisticsCorp", ""]
        (clockFrom 1700000000000002000)).1
      = Response.success (Payload.text (eventID (UnixNano (clockFrom 1700000000000002000 0)))) ∧
    unitAt (addTrackingEvent demoStore ["B001-S001", "recall", "DC B", "LogisticsCorp", ""]
        (clockFrom 1700000000000002000)).2 "B001-S001"
      = some { demoUnit with Location := "DC B" } :=
  ⟨by decide, by decide,
    addTrackingEvent_updates_location_only demoStore "B001-S001" "recall" "DC B" "LogisticsCorp"
      "" (clockFrom 1700000000000002000) demoUnit (by decide) (by decide)⟩

/-- C9: for a unit created by a successful `commissionMedication` on a store
reached from the empty store, and for `N` inputs whose generated event ids are
distinct from each other and from the id of the commission event, the `N`
`addTrackingEvent` invocations for the unit all succeed, `getTrackingHistory`
then returns exactly `N + 1` events, and the location of the stored unit is the
location argument of the last invocation (the commission location when `N = 0`). -/
theorem history_length_and_current_location (calls : List Call)
    (gtin batch serialNumber expiryDate manufacturer productName location : String)
    (now : Clock) (xs : List EventInput)
    (hok : (commissionMedication (run [] calls)
      [gtin, batch, serialNumber, expiryDate, manufacturer, productName, location] now).1
        = Response.success (Payload.text (batch ++ "-" ++ serialNumber)))
    (hdistinct :
      (eventID (UnixNano (now 3)) :: xs.map fun x => eventID (UnixNano (x.now 0))).Nodup) :
    ∃ s' es m,
      addEvents (commissionMedication (run [] calls)
        [gtin, batch, serialNumber, expiryDate, manufacturer, productName, location] now).2
        (batch ++ "-" ++ serialNumber) xs = some s' ∧
      getTrackingHistory s' [batch ++ "-" ++ serialNumber]
        = (Response.success (Payload.events es), s') ∧
      es.length = xs.length + 1 ∧
      unitAt s' (batch ++ "-" ++ serialNumber) = some m ∧
      m.Location = ((xs.map fun x => x.location).getLast?).getD location := by
  obtain ⟨h1, h2, h3, h4, h5, habsent⟩ := commissionMedication_success_inv _ _ _ _ _ _ _ _ _ _ hok
  have hid : batch ++ "-" ++ serialNumber ≠ "" := append_dash_ne_empty _ _
  rw [commissionMedication_success _ gtin batch serialNumber expiryDate manufacturer productName
    location now h1 h2 h3 h4 h5 habsent]
  have ht0 := trackedBy_nil_of_absent _ _ (run_noOrphan calls [] noOrphan_empty) hid habsent
  have ht1 := (ht0.put_unit hid
    { ID := batch ++ "-" ++ serialNumber, GTIN := gtin, Batch := batch,
      SerialNumber := serialNumber, ExpiryDate := expiryDate,
      Manufacturer := manufacturer, ProductName := productName,
      Location := location, Timestamp := Unix (now 0),
      TransactionHash := "tx_" ++ toString (UnixNano (now 1)),
      Status := "active", CommissionTime := Unix (now 2), RecallReason := "" }).put_event
    (eventID (UnixNano (now 3)))
    { ID := eventID (UnixNano (now 3)), Event := "commission", Location := location,
      Timestamp := Unix (now 4), Actor := manufacturer,
      MedicationID := batch ++ "-" ++ serialNumber, Signature := "" } rfl
    (List.not_mem_nil _)
  rw [List.nodup_cons] at hdistinct
  have hK : ∀ x ∈ xs, eventID (UnixNano (x.now 0)) ∉ [eventID (UnixNano (now 3))] := by
    intro x hx hmem
    rw [List.mem_singleton] at hmem
    exact hdistinct.1 (by rw [← hmem]; exact List.mem_map_of_mem _ hx)
  obtain ⟨s', m', hrun, hlen, hu, hloc⟩ :=
    addEvents_history _ hid xs _ _ _ ht1
      ((unitAt_PutState_trackingKey _ _ _ _).trans (unitAt_PutState_same _ _ _)) hK hdistinct.2
  refine ⟨s', getTrackingEventsForMedication s' (batch ++ "-" ++ serialNumber), m', hrun, ?_, ?_,
    hu, hloc⟩
  · simp only [getTrackingHistory, hid, if_false]
  · rw [hlen]
    simp only [List.length_singleton]
    omega

/-- C9 (witness): the commission of `B001-S001` on the empty store followed by
one shipment. -/
theorem history_length_and_current_location_witness :
    (commissionMedication (run [] [])
      ["7501001234567", "B001", "S001", "2025-12-31", "PharmaCorp", "Paracetamol 500mg",
        "Plant A"] (clockFrom 1700000000000001000)).1
        = Response.success (Payload.text ("B001" ++ "-" ++ "S001")) ∧
    (eventID (UnixNano (clockFrom 1700000000000001000 3)) ::
      [shipInput].map fun x => eventID (UnixNano (x.now 0))).Nodup ∧
    ∃ s' es m,
      addEvents (commissionMedication (run [] [])
        ["7501001234567", "B001", "S001", "2025-12-31", "PharmaCorp", "Paracetamol 500mg",
          "Plant A"] (clockFrom 1700000000000001000)).2
        ("B001" ++ "-" ++ "S001") [shipInput] = some s' ∧
      getTrackingHistory s' ["B001" ++ "-" ++ "S001"]
        = (Response.success (Payload.events es), s') ∧
      es.length = [shipInput].length + 1 ∧
      unitAt s' ("B001" ++ "-" ++ "S001") = some m ∧
      m.Location = (([shipInput].map fun x => x.location).getLast?).getD "Plant A" :=
  ⟨by decide, by decide,
    history_length_and_current_location [] "7501001234567" "B001" "S001" "2025-12-31"
      "PharmaCorp" "Paracetamol 500mg" "Plant A" (clockFrom 1700000000000001000) [shipInput]
      (by decide) (by decide)⟩

/-- C10 (failing input): in `demoStore` the key
`tracking_B001-S001_evt_1700000000000001003` holds the commission event of the
unit and no medication record.  `addTrackingEvent` with that key as medication
id does not fail: it returns an event id, stores a new event that references
the key, and replaces the commission event by a medication record. -/
theorem addTrackingEvent_accepts_event_key :
    GetState demoStore "tracking_B001-S001_evt_1700000000000001003"
      = some (marshalTrackingEvent demoEvent) ∧
    isTrackingKey "tracking_B001-S001_evt_1700000000000001003" = true ∧
    (addTrackingEvent demoStore
      ["tracking_B001-S001_evt_1700000000000001003", "ship", "DC B", "LogisticsCorp", ""]
      (clockFrom 1700000000000002000)).1
      = Response.success (Payload.text "evt_1700000000000002000") ∧
    GetState (addTrackingEvent demoStore
      ["tracking_B001-S001_evt_1700000000000001003", "ship", "DC B", "LogisticsCorp", ""]
      (clockFrom 1700000000000002000)).2
      "tracking_tracking_B001-S001_evt_1700000000000001003_evt_1700000000000002000"
      = some (marshalTrackingEvent
          { ID := "evt_1700000000000002000", Event := "ship", Location := "DC B",
            Timestamp := 1700000000, Actor := "LogisticsCorp",
            MedicationID := "tracking_B001-S001_evt_1700000000000001003", Signature := "" }) ∧
    GetState (addTrackingEvent demoStore
      ["tracking_B001-S001_evt_1700000000000001003", "ship", "DC B", "LogisticsCorp", ""]
      (clockFrom 1700000000000002000)).2
      "tracking_B001-S001_evt_1700000000000001003"
      = some (marshalMedicationData
          { MedicationData.zero with
            ID := "evt_1700000000000001003", Location := "DC B", Timestamp := 1700000000 }) := by
  refine ⟨?_, ?_, ?_, ?_, ?_⟩
  · decide
  · decide
  · decide
  · set_option maxRecDepth 65536 in decide
  · set_option maxRecDepth 65536 in decide

/-! ## Claims C11 to C20 -/

/-- C11 (counterexample): two invocations on `demoStore` after which the
commission event stored under `tracking_B001-S001_evt_1700000000000001003` is
no longer there.  A tracking event of the unit generated at the same nanosecond
is stored under the same key and replaces it; a recall with that key as
medication id replaces it by a medication record. -/
theorem tracking_event_overwritten :
    isTrackingKey "tracking_B001-S001_evt_1700000000000001003" = true ∧
    GetState demoStore "tracking_B001-S001_evt_1700000000000001003"
      = some (marshalTrackingEvent demoEvent) ∧
    GetState (exec demoStore
        { function := "addTrackingEvent",
          args := ["B001-S001", "ship", "DC B", "LogisticsCorp", ""],
          now := clockFrom 1700000000000001003 })
        "tracking_B001-S001_evt_1700000000000001003"
      = some (marshalTrackingEvent
          { ID := "evt_1700000000000001003", Event := "ship", Location := "DC B",
            Timestamp := 1700000000, Actor := "LogisticsCorp", MedicationID := "B001-S001",
            Signature := "" }) ∧
    GetState (exec demoStore
        { function := "issueMedicationRecall",
          args := ["tracking_B001-S001_evt_1700000000000001003", "contamination", "Regulator"],
          now := clockFrom 1700000000000002000 })
        "tracking_B001-S001_evt_1700000000000001003"
      = some (marshalMedicationData
          { MedicationData.zero with
            ID := "evt_1700000000000001003", Location := "Plant A", Timestamp := 1700000000,
            Status := "recalled", RecallReason := "contamination" }) ∧
    marshalTrackingEvent demoEvent ≠
      marshalTrackingEvent
        { ID := "evt_1700000000000001003", Event := "ship", Location := "DC B",
          Timestamp := 1700000000, Actor := "LogisticsCorp", MedicationID := "B001-S001",
          Signature := "" } ∧
    marshalTrackingEvent demoEvent ≠
      marshalMedicationData
        { MedicationData.zero with
          ID := "evt_1700000000000001003", Location := "Plant A", Timestamp := 1700000000,
          Status := "recalled", RecallReason := "contamination" } := by
  refine ⟨?_, ?_, ?_, ?_, ?_, ?_⟩
  · decide
  · decide
  · set_option maxRecDepth 65536 in decide
  · set_option maxRecDepth 65536 in decide
  · decide
  · decide

/-- C11 (amended): an invocation of any function with any argument list that,
when it writes, addresses a medication id that does not pass the tracking-key
test and stores its event under a key not yet in use, keeps every record that
is stored under a tracking key: same key, identical value. -/
theorem tracking_events_kept (s : Store) (c : Call) (k : String) (d : Doc)
    (hd : c.disciplined s = true) (hk : isTrackingKey k = true)
    (hget : GetState s k = some d) :
    GetState (exec s c) k = some d :=
  (exec_step true s c (fun _ => hd)).keeps_tracking_entries k d hk hget

/-- C11 (witness): a shipment of `B001-S001` in `demoStore` keeps the
commission event. -/
theorem tracking_events_kept_witness :
    Call.disciplined demoStore
      { function := "addTrackingEvent",
        args := ["B001-S001", "ship", "DC B", "LogisticsCorp", ""],
        now := clockFrom 1700000000000002000 } = true ∧
    isTrackingKey "tracking_B001-S001_evt_1700000000000001003" = true ∧
    GetState demoStore "tracking_B001-S001_evt_1700000000000001003"
      = some (marshalTrackingEvent demoEvent) ∧
    GetState (exec demoStore
        { function := "addTrackingEvent",
          args := ["B001-S001", "ship", "DC B", "LogisticsCorp", ""],
          now := clockFrom 1700000000000002000 })
        "tracking_B001-S001_evt_1700000000000001003"
      = some (marshalTrackingEvent demoEvent) :=
  ⟨by decide, by decide, by decide,
    tracking_events_kept demoStore
      { function := "addTrackingEvent",
        args := ["B001-S001", "ship", "DC B", "LogisticsCorp", ""],
        now := clockFrom 1700000000000002000 }
      "tracking_B001-S001_evt_1700000000000001003" (marshalTrackingEvent demoEvent)
      (by decide) (by decide) (by decide)⟩

/-- C12 (failing input): in `shadowStore`, the store after the commission of the
unit with batch `tracking_A` and serial `Z_evt_1700000000000009000`, the key
`tracking_A-Z_evt_1700000000000009000` holds that unit.  The commission of the
unit `A-Z` whose event id is generated at nanosecond `1700000000000009000`
succeeds and stores its commission event under that key: the event key is
present before the call and a key present before the call does not keep its
value. -/
theorem commissionMedication_overwrites_present_key :
    GetState shadowStore "tracking_A-Z_evt_1700000000000009000"
      = some (marshalMedicationData shadowUnit) ∧
    (commissionMedication shadowStore
      ["7501001234567", "A", "Z", "2025-12-31", "PharmaCorp", "Paracetamol 500mg", "Plant A"]
      (clockFrom 1700000000000008997)).1 = Response.success (Payload.text "A-Z") ∧
    GetState (commissionMedication shadowStore
      ["7501001234567", "A", "Z", "2025-12-31", "PharmaCorp", "Paracetamol 500mg", "Plant A"]
      (clockFrom 1700000000000008997)).2 "tracking_A-Z_evt_1700000000000009000"
      = some (marshalTrackingEvent
          { ID := "evt_1700000000000009000", Event := "commission", Location := "Plant A",
            Timestamp := 1700000000, Actor := "PharmaCorp", MedicationID := "A-Z",
            Signature := "" }) ∧
    marshalMedicationData shadowUnit ≠
      marshalTrackingEvent
        { ID := "evt_1700000000000009000", Event := "commission", Location := "Plant A",
          Timestamp := 1700000000, Actor := "PharmaCorp", MedicationID := "A-Z",
          Signature := "" } := by
  refine ⟨?_, ?_, ?_, ?_⟩
  · set_option maxRecDepth 65536 in decide
  · set_option maxRecDepth 65536 in decide
  · set_option maxRecDepth 65536 in decide
  · decide

/-- The commission frame on an arbitrary store: a successful
`commissionMedication` whose commission-event key is not in the store before
the call changes the store in exactly two keys,
the unit key and the commission-event key: both are absent before the call and
present after it, and the value under every other key, so under every key
present before the call, is the same before and after. -/
theorem commissionMedication_frame (s : Store)
    (gtin batch serialNumber expiryDate manufacturer productName location : String)
    (now : Clock) (p : Payload)
    (hok : (commissionMedication s
      [gtin, batch, serialNumber, expiryDate, manufacturer, productName, location] now).1
        = Response.success p)
    (hfresh : GetState s
      (trackingKey (batch ++ "-" ++ serialNumber) (eventID (UnixNano (now 3)))) = none) :
    GetState s (batch ++ "-" ++ serialNumber) = none ∧
    GetState s (trackingKey (batch ++ "-" ++ serialNumber) (eventID (UnixNano (now 3)))) = none ∧
    trackingKey (batch ++ "-" ++ serialNumber) (eventID (UnixNano (now 3)))
      ≠ batch ++ "-" ++ serialNumber ∧
    GetState (commissionMedication s
      [gtin, batch, serialNumber, expiryDate, manufacturer, productName, location] now).2
      (batch ++ "-" ++ serialNumber) ≠ none ∧
    GetState (commissionMedication s
      [gtin, batch, serialNumber, expiryDate, manufacturer, productName, location] now).2
      (trackingKey (batch ++ "-" ++ serialNumber) (eventID (UnixNano (now 3)))) ≠ none ∧
    (∀ k, k ≠ batch ++ "-" ++ serialNumber →
      k ≠ trackingKey (batch ++ "-" ++ serialNumber) (eventID (UnixNano (now 3))) →
      GetState (commissionMedication s
        [gtin, batch, serialNumber, expiryDate, manufacturer, productName, location] now).2 k
        = GetState s k) ∧
    (∀ k d, GetState s k = some d →
      GetState (commissionMedication s
        [gtin, batch, serialNumber, expiryDate, manufacturer, productName, location] now).2 k
        = some d) := by
  obtain ⟨habsent, heq⟩ := commissionMedication_store_effect s gtin batch serialNumber expiryDate
    manufacturer productName location now p hok
  rw [heq]
  refine ⟨habsent, hfresh, trackingKey_ne _ _, ?_, ?_, ?_, ?_⟩
  · rw [GetState_PutState_other _ _ _ _ (Ne.symm (trackingKey_ne _ _)), GetState_PutState_same]
    exact Option.some_ne_none _
  · rw [GetState_PutState_same]
    exact Option.some_ne_none _
  · intro k h1 h2
    exact GetState_PutState_two_other s _ _ _ _ k h1 h2
  · intro k d hk
    rw [GetState_PutState_two_other s _ _ _ _ k
      (GetState_ne_of_some_none s _ _ _ hk habsent)
      (GetState_ne_of_some_none s _ _ _ hk hfresh)]
    exact hk

/-- An instance of the frame on an arbitrary store: the commission of
`B001-S001` on the empty store. -/
theorem commissionMedication_frame_witness :
    (commissionMedication []
      ["7501001234567", "B001", "S001", "2025-12-31", "PharmaCorp", "Paracetamol 500mg",
        "Plant A"] (clockFrom 1700000000000001000)).1
        = Response.success (Payload.text "B001-S001") ∧
    GetState []
      (trackingKey ("B001" ++ "-" ++ "S001")
        (eventID (UnixNano (clockFrom 1700000000000001000 3)))) = none ∧
    GetState (commissionMedication []
      ["7501001234567", "B001", "S001", "2025-12-31", "PharmaCorp", "Paracetamol 500mg",
        "Plant A"] (clockFrom 1700000000000001000)).2 ("B001" ++ "-" ++ "S001") ≠ none ∧
    GetState (commissionMedication []
      ["7501001234567", "B001", "S001", "2025-12-31", "PharmaCorp", "Paracetamol 500mg",
        "Plant A"] (clockFrom 1700000000000001000)).2
      (trackingKey ("B001" ++ "-" ++ "S001")
        (eventID (UnixNano (clockFrom 1700000000000001000 3)))) ≠ none :=
  have h := commissionMedication_frame [] "7501001234567" "B001" "S001" "2025-12-31"
    "PharmaCorp" "Paracetamol 500mg" "Plant A" (clockFrom 1700000000000001000)
    (Payload.text "B001-S001") (by decide) (by decide)
  ⟨by decide, by decide, h.2.2.2.1, h.2.2.2.2.1⟩

/-- C13: `commissionMedication` returns a validation error and leaves the store
as it was exactly when the argument list does not have 7 elements or one of
gtin, batch, serialNumber, manufacturer, productName (arguments 0, 1, 2, 4, 5)
is empty; expiryDate and location (arguments 3 and 6) play no part. -/
theorem commissionMedication_validation (s : Store) (args : List String) (now : Clock) :
    (commissionValidationError (commissionMedication s args now).1 ∧
        (commissionMedication s args now).2 = s) ↔
      (args.length ≠ 7 ∨ args.getD 0 "" = "" ∨ args.getD 1 "" = "" ∨ args.getD 2 "" = "" ∨
        args.getD 4 "" = "" ∨ args.getD 5 "" = "") := by
  by_cases hlen : args.length = 7
  · obtain ⟨gtin, batch, serialNumber, expiryDate, manufacturer, productName, location, rfl⟩ :
        ∃ a0 a1 a2 a3 a4 a5 a6, args = [a0, a1, a2, a3, a4, a5, a6] := by
      rcases args with _ | ⟨a0, _ | ⟨a1, _ | ⟨a2, _ | ⟨a3, _ | ⟨a4, _ | ⟨a5, _ | ⟨a6, _ | ⟨a7, t⟩⟩⟩⟩⟩⟩⟩⟩ <;>
        simp at hlen
      exact ⟨a0, a1, a2, a3, a4, a5, a6, rfl⟩
    by_cases hreq :
        gtin = "" ∨ batch = "" ∨ serialNumber = "" ∨ manufacturer = "" ∨ productName = ""
    · rw [commissionMedication_missing s gtin batch serialNumber expiryDate manufacturer
        productName location now hreq]
      constructor
      · intro _
        exact Or.inr (by simpa using hreq)
      · intro _
        exact ⟨Or.inr rfl, rfl⟩
    · constructor
      · intro h
        exact absurd h.1 (commissionMedication_not_validationError s gtin batch serialNumber
          expiryDate manufacturer productName location now hreq)
      · intro h
        rcases h with h | h
        · simp at h
        · exact absurd (by simpa using h) hreq
  · rw [commissionMedication_argCount s args now hlen]
    constructor
    · intro _
      exact Or.inl hlen
    · intro _
      exact ⟨Or.inl rfl, rfl⟩

/-- C14: after a successful `commissionMedication` the store holds, under the
key `tracking_` + id + `_` + event id, an event with event = `commission`,
actor = the manufacturer argument, location = the location argument,
medicationId = id and an empty signature, and `getTrackingHistory` for the id
returns a history that contains that event. -/
theorem commissionMedication_synthesizes_event (s : Store)
    (gtin batch serialNumber expiryDate manufacturer productName location : String)
    (now : Clock) (p : Payload)
    (hok : (commissionMedication s
      [gtin, batch, serialNumber, expiryDate, manufacturer, productName, location] now).1
        = Response.success p) :
    ∃ e,
      GetState (commissionMedication s
        [gtin, batch, serialNumber, expiryDate, manufacturer, productName, location] now).2
        ("tracking_" ++ (batch ++ "-" ++ serialNumber) ++ "_" ++ e.ID)
        = some (marshalTrackingEvent e) ∧
      e.ID = eventID (UnixNano (now 3)) ∧ e.Event = "commission" ∧
      e.Actor = manufacturer ∧ e.Location = location ∧
      e.MedicationID = batch ++ "-" ++ serialNumber ∧ e.Signature = "" ∧
      (getTrackingHistory (commissionMedication s
        [gtin, batch, serialNumber, expiryDate, manufacturer, productName, location] now).2
        [batch ++ "-" ++ serialNumber]).1
        = Response.success (Payload.events (getTrackingEventsForMedication
            (commissionMedication s
              [gtin, batch, serialNumber, expiryDate, manufacturer, productName, location]
              now).2 (batch ++ "-" ++ serialNumber))) ∧
      e ∈ getTrackingEventsForMedication
        (commissionMedication s
          [gtin, batch, serialNumber, expiryDate, manufacturer, productName, location] now).2
        (batch ++ "-" ++ serialNumber) := by
  obtain ⟨_, heq⟩ := commissionMedication_store_effect s gtin batch serialNumber expiryDate
    manufacturer productName location now p hok
  rw [heq]
  have hid : batch ++ "-" ++ serialNumber ≠ "" := append_dash_ne_empty _ _
  have hget := GetState_PutState_same
    (PutState s (batch ++ "-" ++ serialNumber)
      (marshalMedicationData
        { ID := batch ++ "-" ++ serialNumber, GTIN := gtin, Batch := batch,
          SerialNumber := serialNumber, ExpiryDate := expiryDate,
          Manufacturer := manufacturer, ProductName := productName,
          Location := location, Timestamp := Unix (now 0),
          TransactionHash := "tx_" ++ toString (UnixNano (now 1)),
          Status := "active", CommissionTime := Unix (now 2), RecallReason := "" }))
    (trackingKey (batch ++ "-" ++ serialNumber) (eventID (UnixNano (now 3))))
    (marshalTrackingEvent
      { ID := eventID (UnixNano (now 3)), Event := "commission", Location := location,
        Timestamp := Unix (now 4), Actor := manufacturer,
        MedicationID := batch ++ "-" ++ serialNumber, Signature := "" })
  refine ⟨
    { ID := eventID (UnixNano (now 3)), Event := "commission", Location := location,
      Timestamp := Unix (now 4), Actor := manufacturer,
      MedicationID := batch ++ "-" ++ serialNumber, Signature := "" },
    hget, rfl, rfl, rfl, rfl, rfl, rfl, ?_, ?_⟩
  · simp only [getTrackingHistory, hid, if_false]
  · exact mem_getTrackingEventsForMedication _ _ _ _ (isTrackingKey_trackingKey _ _) hget rfl

/-- C14 (witness): the commission of `B001-S001` on the empty store. -/
theorem commissionMedication_synthesizes_event_witness :
    (commissionMedication []
      ["7501001234567", "B001", "S001", "2025-12-31", "PharmaCorp", "Paracetamol 500mg",
        "Plant A"] (clockFrom 1700000000000001000)).1
        = Response.success (Payload.text "B001-S001") ∧
    ∃ e,
      GetState (commissionMedication []
        ["7501001234567", "B001", "S001", "2025-12-31", "PharmaCorp", "Paracetamol 500mg",
          "Plant A"] (clockFrom 1700000000000001000)).2
        ("tracking_" ++ ("B001" ++ "-" ++ "S001") ++ "_" ++ e.ID)
        = some (marshalTrackingEvent e) ∧
      e.ID = eventID (UnixNano (clockFrom 1700000000000001000 3)) ∧ e.Event = "commission" ∧
      e.Actor = "PharmaCorp" ∧ e.Location = "Plant A" ∧
      e.MedicationID = "B001" ++ "-" ++ "S001" ∧ e.Signature = "" ∧
      (getTrackingHistory (commissionMedication []
        ["7501001234567", "B001", "S001", "2025-12-31", "PharmaCorp", "Paracetamol 500mg",
          "Plant A"] (clockFrom 1700000000000001000)).2
        ["B001" ++ "-" ++ "S001"]).1
        = Response.success (Payload.events (getTrackingEventsForMedication
            (commissionMedication []
              ["7501001234567", "B001", "S001", "2025-12-31", "PharmaCorp",
                "Paracetamol 500mg", "Plant A"]
              (clockFrom 1700000000000001000)).2 ("B001" ++ "-" ++ "S001"))) ∧
      e ∈ getTrackingEventsForMedication
        (commissionMedication []
          ["7501001234567", "B001", "S001", "2025-12-31", "PharmaCorp", "Paracetamol 500mg",
            "Plant A"] (clockFrom 1700000000000001000)).2
        ("B001" ++ "-" ++ "S001") :=
  ⟨by decide,
    commissionMedication_synthesizes_event [] "7501001234567" "B001" "S001" "2025-12-31"
      "PharmaCorp" "Paracetamol 500mg" "Plant A" (clockFrom 1700000000000001000)
      (Payload.text "B001-S001") (by decide)⟩

/-- C15: on a store that holds a unit under `id` (the world state has no empty
key), a recall with reason `r1` followed by a recall with reason `r2` both
succeed; the unit stored afterwards is the former unit with status `recalled`
and recall reason `r2`, the unit that the recall with `r2` alone stores, and
the stored bytes are the same in both stores.  After the first recall the unit
is the former unit with status `recalled` and recall reason `r1`, so a second
recall with the same reason leaves the unit as it was. -/
theorem issueMedicationRecall_last_reason_wins (s : Store)
    (id r1 r2 issuer1 issuer2 : String) (now1 now2 : Clock) (m : MedicationData)
    (hkey : GetState s "" = none) (hunit : unitAt s id = some m) :
    (issueMedicationRecall s [id, r1, issuer1] now1).1
      = Response.success (Payload.text (eventID (UnixNano (now1 0)))) ∧
    (issueMedicationRecall (issueMedicationRecall s [id, r1, issuer1] now1).2
      [id, r2, issuer2] now2).1
      = Response.success (Payload.text (eventID (UnixNano (now2 0)))) ∧
    unitAt (issueMedicationRecall s [id, r1, issuer1] now1).2 id
      = some { m with Status := "recalled", RecallReason := r1 } ∧
    unitAt (issueMedicationRecall (issueMedicationRecall s [id, r1, issuer1] now1).2
      [id, r2, issuer2] now2).2 id
      = some { m with Status := "recalled", RecallReason := r2 } ∧
    unitAt (issueMedicationRecall s [id, r2, issuer2] now2).2 id
      = some { m with Status := "recalled", RecallReason := r2 } ∧
    GetState (issueMedicationRecall (issueMedicationRecall s [id, r1, issuer1] now1).2
      [id, r2, issuer2] now2).2 id
      = GetState (issueMedicationRecall s [id, r2, issuer2] now2).2 id := by
  obtain ⟨d, hget, hdec⟩ := unitAt_some s id m hunit
  have hid := ne_empty_of_unitAt s id m hkey hunit
  have e1 := issueMedicationRecall_success s id r1 issuer1 now1 d m hid hget hdec
  have e2 := issueMedicationRecall_success s id r2 issuer2 now2 d m hid hget hdec
  have hget1 : GetState (issueMedicationRecall s [id, r1, issuer1] now1).2 id
      = some (marshalMedicationData { m with Status := "recalled", RecallReason := r1 }) := by
    rw [e1]
    exact (GetState_PutState_other _ _ _ _ (Ne.symm (trackingKey_ne _ _))).trans
      (GetState_PutState_same _ _ _)
  have e12 := issueMedicationRecall_success (issueMedicationRecall s [id, r1, issuer1] now1).2
    id r2 issuer2 now2 _ _ hid hget1 (unmarshal_marshal_med _)
  refine ⟨by rw [e1], by rw [e12], ?_, ?_, ?_, ?_⟩
  · rw [unitAt_of_GetState _ _ _ hget1]
    exact unmarshal_marshal_med _
  · rw [e12]
    exact (unitAt_PutState_trackingKey _ _ _ _).trans (unitAt_PutState_same _ _ _)
  · rw [e2]
    exact (unitAt_PutState_trackingKey _ _ _ _).trans (unitAt_PutState_same _ _ _)
  · rw [e12, e2]
    rw [GetState_PutState_other _ _ _ _ (Ne.symm (trackingKey_ne _ _)), GetState_PutState_same,
      GetState_PutState_other _ _ _ _ (Ne.symm (trackingKey_ne _ _)), GetState_PutState_same]

/-- C15 (witness): two recalls of `B001-S001` in `demoStore`, with the reasons
`contamination` and `mislabelled`. -/
theorem issueMedicationRecall_last_reason_wins_witness :
    GetState demoStore "" = none ∧
    unitAt demoStore "B001-S001" = some demoUnit ∧
    unitAt (issueMedicationRecall
      (issueMedicationRecall demoStore ["B001-S001", "contamination", "Regulator"]
        (clockFrom 1700000000000002000)).2
      ["B001-S001", "mislabelled", "Agency"] (clockFrom 1700000000000003000)).2 "B001-S001"
      = some { demoUnit with Status := "recalled", RecallReason := "mislabelled" } ∧
    unitAt (issueMedicationRecall demoStore ["B001-S001", "mislabelled", "Agency"]
      (clockFrom 1700000000000003000)).2 "B001-S001"
      = some { demoUnit with Status := "recalled", RecallReason := "mislabelled" } :=
  have h := issueMedicationRecall_last_reason_wins demoStore "B001-S001" "contamination"
    "mislabelled" "Regulator" "Agency" (clockFrom 1700000000000002000)
    (clockFrom 1700000000000003000) demoUnit (by decide) (by decide)
  ⟨by decide, by decide, h.2.2.2.1, h.2.2.2.2.1⟩

/-- C16: after a successful `issueMedicationRecall(id, reason, issuer)` the
store holds, under the tracking key of `id` and the new event id, an event with
event = `recall`, actor = issuer, medicationId = `id`, an empty signature and
the location that the unit has before and after the call; the event is part of
the tracking history of `id`, and the call returns the id of that event. -/
theorem issueMedicationRecall_synthesizes_event (s : Store) (id reason issuer : String)
    (now : Clock) (p : Payload)
    (hok : (issueMedicationRecall s [id, reason, issuer] now).1 = Response.success p) :
    ∃ e m m',
      p = Payload.text e.ID ∧
      GetState (issueMedicationRecall s [id, reason, issuer] now).2
        ("tracking_" ++ id ++ "_" ++ e.ID) = some (marshalTrackingEvent e) ∧
      e.Event = "recall" ∧ e.Actor = issuer ∧ e.MedicationID = id ∧ e.Signature = "" ∧
      unitAt s id = some m ∧ e.Location = m.Location ∧
      unitAt (issueMedicationRecall s [id, reason, issuer] now).2 id = some m' ∧
      e.Location = m'.Location ∧
      e ∈ getTrackingEventsForMedication (issueMedicationRecall s [id, reason, issuer] now).2
        id := by
  obtain ⟨hid, d, m, hget, hdec⟩ := issueMedicationRecall_success_inv s id reason issuer now p hok
  have heq := issueMedicationRecall_success s id reason issuer now d m hid hget hdec
  rw [heq] at hok ⊢
  have hev := GetState_PutState_same
    (PutState s id
      (marshalMedicationData { m with Status := "recalled", RecallReason := reason }))
    (trackingKey id (eventID (UnixNano (now 0))))
    (marshalTrackingEvent
      { ID := eventID (UnixNano (now 0)), Event := "recall", Location := m.Location,
        Timestamp := Unix (now 1), Actor := issuer, MedicationID := id, Signature := "" })
  refine ⟨
    { ID := eventID (UnixNano (now 0)), Event := "recall", Location := m.Location,
      Timestamp := Unix (now 1), Actor := issuer, MedicationID := id, Signature := "" },
    m, { m with Status := "recalled", RecallReason := reason },
    ?_, hev, rfl, rfl, rfl, rfl, (unitAt_of_GetState _ _ _ hget).trans hdec, rfl,
    (unitAt_PutState_trackingKey _ _ _ _).trans (unitAt_PutState_same _ _ _), rfl, ?_⟩
  · injection hok with hp
    exact hp.symm
  · exact mem_getTrackingEventsForMedication _ _ _ _ (isTrackingKey_trackingKey _ _) hev rfl

/-- C16 (witness): the recall of `B001-S001` in `demoStore`. -/
theorem issueMedicationRecall_synthesizes_event_witness :
    (issueMedicationRecall demoStore ["B001-S001", "contamination", "Regulator"]
      (clockFrom 1700000000000002000)).1
      = Response.success (Payload.text "evt_1700000000000002000") ∧
    ∃ e m m',
      Payload.text "evt_1700000000000002000" = Payload.text e.ID ∧
      GetState (issueMedicationRecall demoStore ["B001-S001", "contamination", "Regulator"]
        (clockFrom 1700000000000002000)).2
        ("tracking_" ++ "B001-S001" ++ "_" ++ e.ID) = some (marshalTrackingEvent e) ∧
      e.Event = "recall" ∧ e.Actor = "Regulator" ∧ e.MedicationID = "B001-S001" ∧
      e.Signature = "" ∧
      unitAt demoStore "B001-S001" = some m ∧ e.Location = m.Location ∧
      unitAt (issueMedicationRecall demoStore ["B001-S001", "contamination", "Regulator"]
        (clockFrom 1700000000000002000)).2 "B001-S001" = some m' ∧
      e.Location = m'.Location ∧
      e ∈ getTrackingEventsForMedication
        (issueMedicationRecall demoStore ["B001-S001", "contamination", "Regulator"]
          (clockFrom 1700000000000002000)).2 "B001-S001" :=
  ⟨by decide,
    issueMedicationRecall_synthesizes_event demoStore "B001-S001" "contamination" "Regulator"
      (clockFrom 1700000000000002000) (Payload.text "evt_1700000000000002000") (by decide)⟩

/-- C17 (counterexample): after `rolloverCalls` the tracking history of
`B001-S001` lists the shipment first and the commission last, because the key
of the shipment event (`..._evt_1000000000000000100`) sorts before the key of
the commission event (`..._evt_999999999000000003`).  The shipment has the
greater timestamp and the actor `LogisticsCorp`, yet `verifyMedication`
returns the current holder `PharmaCorp`. -/
theorem currentHolder_not_latest_timestamp :
    getTrackingEventsForMedication (run [] rolloverCalls) "B001-S001"
      = [ { ID := "evt_1000000000000000100", Event := "ship", Location := "DC B",
            Timestamp := 1000000000, Actor := "LogisticsCorp", MedicationID := "B001-S001",
            Signature := "" },
          { ID := "evt_999999999000000003", Event := "commission", Location := "Plant A",
            Timestamp := 999999999, Actor := "PharmaCorp", MedicationID := "B001-S001",
            Signature := "" } ] ∧
    currentHolderOf (verifyMedication (run [] rolloverCalls) ["B001-S001"]
      (clockFrom 1000000000000001000)).1 = some "PharmaCorp" ∧
    (999999999 : Int) < 1000000000 ∧ "PharmaCorp" ≠ "LogisticsCorp" := by
  refine ⟨?_, ?_, ?_, ?_⟩
  · set_option maxRecDepth 65536 in decide
  · set_option maxRecDepth 65536 in decide
  · decide
  · decide

/-- C17 (amended): on a store that holds a unit under `id` (the world state has
no empty key), `verifyMedication` returns as current holder the actor of the
last event of the unit's tracking history in scan order, that is in ascending
key order of the store, and the unit's manufacturer when the history is
empty. -/
theorem verifyMedication_currentHolder (s : Store) (id : String) (now : Clock)
    (m : MedicationData) (hkey : GetState s "" = none) (hunit : unitAt s id = some m) :
    ∃ r, verifyMedication s [id] now = (Response.success (Payload.verification r), s) ∧
      r.TrackingHistory = getTrackingEventsForMedication s id ∧
      (∀ e, (getTrackingEventsForMedication s id).getLast? = some e →
        r.CurrentHolder = e.Actor) ∧
      (getTrackingEventsForMedication s id = [] → r.CurrentHolder = m.Manufacturer) := by
  obtain ⟨d, hget, hdec⟩ := unitAt_some s id m hunit
  refine ⟨_, verifyMedication_success s id now d m (ne_empty_of_unitAt s id m hkey hunit)
    hget hdec, rfl, ?_, ?_⟩
  · intro e he
    simp only [he]
  · intro hnil
    simp only [hnil, List.getLast?_nil]

/-- C17 (witness): the commission of `B001-S001` by `PharmaCorp` followed by a
shipment with actor `LogisticsCorp` (clock readings of the year 2023): the
current holder is `LogisticsCorp`, the unit is valid and the history has two
events. -/
theorem verifyMedication_currentHolder_witness :
    GetState shippedStore "" = none ∧
    unitAt shippedStore "B001-S001" = some { demoUnit with Location := "DC B" } ∧
    currentHolderOf (verifyMedication shippedStore ["B001-S001"]
      (clockFrom 1700000000000003000)).1 = some "LogisticsCorp" ∧
    isValidOf (verifyMedication shippedStore ["B001-S001"]
      (clockFrom 1700000000000003000)).1 = some true ∧
    (getTrackingEventsForMedication shippedStore "B001-S001").length = 2 ∧
    ∃ r, verifyMedication shippedStore ["B001-S001"] (clockFrom 1700000000000003000)
        = (Response.success (Payload.verification r), shippedStore) ∧
      r.TrackingHistory = getTrackingEventsForMedication shippedStore "B001-S001" ∧
      (∀ e, (getTrackingEventsForMedication shippedStore "B001-S001").getLast? = some e →
        r.CurrentHolder = e.Actor) ∧
      (getTrackingEventsForMedication shippedStore "B001-S001" = [] →
        r.CurrentHolder = demoUnit.Manufacturer) := by
  refine ⟨?_, ?_, ?_, ?_, ?_,
    verifyMedication_currentHolder shippedStore "B001-S001" (clockFrom 1700000000000003000)
      { demoUnit with Location := "DC B" } ?_ ?_⟩
  · decide
  · set_option maxRecDepth 65536 in decide
  · set_option maxRecDepth 65536 in decide
  · set_option maxRecDepth 65536 in decide
  · set_option maxRecDepth 65536 in decide
  · decide
  · set_option maxRecDepth 65536 in decide

/-- C18: `containsIgnoreCase(text, q)` is true exactly when `q` occurs in `text`
as a contiguous substring, for all strings; and for a non-empty query
`searchMedications` succeeds and returns exactly the medication records met by
the scan in whose text productName + " " + manufacturer + " " + batch + " " +
gtin + " " + serialNumber + " " + location the query occurs. -/
theorem searchMedications_match_rule (s : Store) (query : String) (hq : query ≠ "") :
    (∀ text q, containsIgnoreCase text q = true ↔ occursIn q text) ∧
    ∃ ms, searchMedications s [query] = (Response.success (Payload.medications ms), s) ∧
      ∀ m, m ∈ ms ↔
        (m ∈ scanMedications s ∧
          occursIn query
            (m.ProductName ++ " " ++ m.Manufacturer ++ " " ++ m.Batch ++ " " ++ m.GTIN ++ " "
              ++ m.SerialNumber ++ " " ++ m.Location)) := by
  refine ⟨containsIgnoreCase_eq_true_iff, _, searchMedications_success s query hq, ?_⟩
  intro m
  rw [List.mem_filter, containsIgnoreCase_eq_true_iff]
  rfl

/-- C18 (witness): the query `Paracetamol` on `demoStore`. -/
theorem searchMedications_match_rule_witness :
    "Paracetamol" ≠ "" ∧
    searchMedications demoStore ["Paracetamol"]
      = (Response.success (Payload.medications [demoUnit]), demoStore) ∧
    searchMedications demoStore ["paracetamol"]
      = (Response.success (Payload.medications []), demoStore) ∧
    (∀ text q, containsIgnoreCase text q = true ↔ occursIn q text) ∧
    ∃ ms, searchMedications demoStore ["Paracetamol"]
        = (Response.success (Payload.medications ms), demoStore) ∧
      ∀ m, m ∈ ms ↔
        (m ∈ scanMedications demoStore ∧
          occursIn "Paracetamol"
            (m.ProductName ++ " " ++ m.Manufacturer ++ " " ++ m.Batch ++ " " ++ m.GTIN ++ " "
              ++ m.SerialNumber ++ " " ++ m.Location)) := by
  refine ⟨by decide, ?_, ?_, searchMedications_match_rule demoStore "Paracetamol" (by decide)⟩
  · set_option maxRecDepth 65536 in decide
  · set_option maxRecDepth 65536 in decide

/-- C19 (failing input): the commission of a unit with batch `tracking_A` on the
empty store succeeds and stores the unit under `tracking_A-S001` with the
product name `Paracetamol 500mg`; a search for `Paracetamol` then succeeds and
returns no unit, because the scan skips every key that begins with
`tracking_`. -/
theorem searchMedications_misses_commissioned_unit :
    (Invoke [] trackingBatchCall.function trackingBatchCall.args trackingBatchCall.now).1
      = Response.success (Payload.text "tracking_A-S001") ∧
    (unitAt (run [] [trackingBatchCall]) "tracking_A-S001").map
        (fun m => (m.ProductName, m.Status))
      = some ("Paracetamol 500mg", "active") ∧
    isTrackingKey "tracking_A-S001" = true ∧
    searchMedications (run [] [trackingBatchCall]) ["Paracetamol"]
      = (Response.success (Payload.medications []), run [] [trackingBatchCall]) := by
  refine ⟨?_, ?_, ?_, ?_⟩
  · decide
  · set_option maxRecDepth 65536 in decide
  · decide
  · set_option maxRecDepth 65536 in decide

/-- C20: `getVerificationStats` returns the census of the medication records of
the store: their number, the number of those with status `active` and the
number of those with status `recalled`; the entries under a tracking key
contribute nothing, the answer is the same when they are all removed. -/
theorem getVerificationStats_census (s : Store) :
    getVerificationStats s []
      = (Response.success (Payload.stats
          ((medicationRecords s).length : Int)
          (((medicationRecords s).countP fun m => decide (m.Status = "active")) : Nat)
          (((medicationRecords s).countP fun m => decide (m.Status = "recalled")) : Nat)), s) ∧
    (getVerificationStats (s.filter fun kv => !isTrackingKey kv.1) []).1
      = (getVerificationStats s []).1 := by
  have h : ∀ t : Store, getVerificationStats t []
      = (Response.success (Payload.stats
          ((medicationRecords t).length : Int)
          (((medicationRecords t).countP fun m => decide (m.Status = "active")) : Nat)
          (((medicationRecords t).countP fun m => decide (m.Status = "recalled")) : Nat)), t) := by
    intro t
    simp only [getVerificationStats, GetStateByRange, foldl_statsStep, census, zero_add]
  refine ⟨h s, ?_⟩
  rw [h, h, medicationRecords_filter]

/-! ## Claims C21 to C26 -/

/-- C21 (counterexample): on the store after one commission the three counters
of `getVerificationStats` are 1, 1 and 0 and sum to 2, while the store holds one
key that is not a tracking key. -/
theorem stats_counters_sum_exceeds_key_count :
    getVerificationStats demoStore [] = (Response.success (Payload.stats 1 1 0), demoStore) ∧
    counterSum (getVerificationStats demoStore []).1 = some 2 ∧
    (demoStore.filter fun kv => !isTrackingKey kv.1).length = 1 := by
  refine ⟨?_, ?_, ?_⟩
  · set_option maxRecDepth 65536 in decide
  · set_option maxRecDepth 65536 in decide
  · set_option maxRecDepth 65536 in decide

/-- C21 (amended): in every store reached from the empty store by a sequence of
invocations, `totalVerifications` is the number of keys that do not pass the
tracking-key test, `authenticMedications` and `alertsActive` are the numbers of
medication records with status `active` and `recalled`, these two add up to
`totalVerifications`, and so the three counters sum to twice that number. -/
theorem getVerificationStats_counters (calls : List Call) :
    getVerificationStats (run [] calls) []
      = (Response.success (Payload.stats
          (((run [] calls).filter fun kv => !isTrackingKey kv.1).length : Int)
          (((medicationRecords (run [] calls)).countP
            fun m => decide (m.Status = "active")) : Nat)
          (((medicationRecords (run [] calls)).countP
            fun m => decide (m.Status = "recalled")) : Nat)), run [] calls) ∧
    ((((medicationRecords (run [] calls)).countP
        fun m => decide (m.Status = "active")) : Nat) : Int)
      + (((medicationRecords (run [] calls)).countP
        fun m => decide (m.Status = "recalled")) : Nat)
      = (((run [] calls).filter fun kv => !isTrackingKey kv.1).length : Int) ∧
    counterSum (getVerificationStats (run [] calls) []).1
      = some (2 * (((run [] calls).filter fun kv => !isTrackingKey kv.1).length : Int)) := by
  obtain ⟨hlen, hsum⟩ :=
    census_of_unitsClassified (run [] calls) (run_unitsClassified calls [] unitsClassified_empty)
  have hsum' : ((((medicationRecords (run [] calls)).countP
        fun m => decide (m.Status = "active")) : Nat) : Int)
      + (((medicationRecords (run [] calls)).countP
        fun m => decide (m.Status = "recalled")) : Nat)
      = (((run [] calls).filter fun kv => !isTrackingKey kv.1).length : Int) := by
    rw [← hlen]
    exact_mod_cast hsum
  refine ⟨?_, hsum', ?_⟩
  · rw [getVerificationStats_eq_census, hlen]
  · rw [getVerificationStats_eq_census, hlen]
    simp only [counterSum, Option.some.injEq]
    omega

/-- C22: for a non-empty manufacturer string, `getMedicationsByManufacturer`
returns the medication records of the store whose manufacturer field equals the
string, in the order of the scan and as often as they are scanned: a record is
returned exactly when it is a medication record of the store with that
manufacturer, and the answer is a sublist of the medication records. -/
theorem getMedicationsByManufacturer_exact (s : Store) (manufacturer : String)
    (hm : manufacturer ≠ "") :
    getMedicationsByManufacturer s [manufacturer]
      = (Response.success (Payload.medications
          ((medicationRecords s).filter fun u => decide (u.Manufacturer = manufacturer))), s) ∧
    (∀ u, u ∈ ((medicationRecords s).filter fun u => decide (u.Manufacturer = manufacturer))
      ↔ u ∈ medicationRecords s ∧ u.Manufacturer = manufacturer) ∧
    List.Sublist ((medicationRecords s).filter fun u => decide (u.Manufacturer = manufacturer))
      (medicationRecords s) := by
  refine ⟨?_, ?_, List.filter_sublist _⟩
  · simp only [getMedicationsByManufacturer, hm, if_false, scanMedications_eq_medicationRecords]
  · intro u
    simp only [List.mem_filter, decide_eq_true_eq]

/-- C22 (witness): the lookup of `PharmaCorp` in `demoStore` returns the one
unit of the store. -/
theorem getMedicationsByManufacturer_exact_witness :
    "PharmaCorp" ≠ "" ∧
    getMedicationsByManufacturer demoStore ["PharmaCorp"]
      = (Response.success (Payload.medications
          ((medicationRecords demoStore).filter
            fun u => decide (u.Manufacturer = "PharmaCorp"))), demoStore) ∧
    ((medicationRecords demoStore).filter fun u => decide (u.Manufacturer = "PharmaCorp"))
      = [demoUnit] :=
  ⟨by decide, (getMedicationsByManufacturer_exact demoStore "PharmaCorp" (by decide)).1,
    by set_option maxRecDepth 65536 in decide⟩

/-- C23: in every store reached from the empty store by a sequence of
invocations (of `commissionMedication`, `addTrackingEvent`,
`issueMedicationRecall` or any other function, with arbitrary arguments and
clock readings), every unit whose status is not `recalled` has an empty recall
reason. -/
theorem recallReason_only_on_recalled (calls : List Call) (id : String) (m : MedicationData)
    (hunit : unitAt (run [] calls) id = some m) (hstatus : m.Status ≠ "recalled") :
    m.RecallReason = "" :=
  run_keeps_reasonOnlyOnRecalled calls [] reasonOnlyOnRecalled_empty id m hunit hstatus

/-- C23 (witness): the unit `B001-S001` after its commission and a tracking
event with the tag `recall`. -/
theorem recallReason_only_on_recalled_witness :
    unitAt (run [] taggedRecallCalls) "B001-S001" = some { demoUnit with Location := "DC B" } ∧
    ({ demoUnit with Location := "DC B" } : MedicationData).Status ≠ "recalled" ∧
    ({ demoUnit with Location := "DC B" } : MedicationData).RecallReason = "" :=
  ⟨by decide, by decide,
    recallReason_only_on_recalled taggedRecallCalls "B001-S001"
      { demoUnit with Location := "DC B" } (by decide) (by decide)⟩

/-- C24: on a store with no value under the non-empty key `id`,
`issueMedicationRecall`, `verifyMedication` and `getMedication` each return the
error `Medication not found` and leave the store unchanged; when a value is
stored under `id`, `getMedication` returns exactly that value. -/
theorem point_operations_on_absent_id (s : Store) (id reason issuer : String) (now : Clock)
    (hid : id ≠ "") :
    (GetState s id = none →
      issueMedicationRecall s [id, reason, issuer] now
        = (Response.error ("Medication not found: " ++ id), s) ∧
      verifyMedication s [id] now = (Response.error ("Medication not found: " ++ id), s) ∧
      getMedication s [id] = (Response.error ("Medication not found: " ++ id), s)) ∧
    (∀ d, GetState s id = some d →
      getMedication s [id] = (Response.success (Payload.raw d), s)) :=
  ⟨fun habsent =>
    ⟨issueMedicationRecall_absent s id reason issuer now hid habsent,
      verifyMedication_absent s id now hid habsent, getMedication_absent s id hid habsent⟩,
    fun d hget => getMedication_present s id d hid hget⟩

/-- C24 (witness): the absent id `B002-S001` and the present id `B001-S001` in
`demoStore`. -/
theorem point_operations_on_absent_id_witness :
    "B002-S001" ≠ "" ∧ GetState demoStore "B002-S001" = none ∧
    issueMedicationRecall demoStore ["B002-S001", "contamination", "Regulator"]
        (clockFrom 1700000000000002000)
      = (Response.error ("Medication not found: " ++ "B002-S001"), demoStore) ∧
    verifyMedication demoStore ["B002-S001"] (clockFrom 1700000000000002000)
      = (Response.error ("Medication not found: " ++ "B002-S001"), demoStore) ∧
    getMedication demoStore ["B002-S001"]
      = (Response.error ("Medication not found: " ++ "B002-S001"), demoStore) ∧
    getMedication demoStore ["B001-S001"]
      = (Response.success (Payload.raw (marshalMedicationData demoUnit)), demoStore) :=
  have h := point_operations_on_absent_id demoStore "B002-S001" "contamination" "Regulator"
    (clockFrom 1700000000000002000) (by decide)
  have h1 := h.1 (by decide)
  ⟨by decide, by decide, h1.1, h1.2.1, h1.2.2,
    (point_operations_on_absent_id demoStore "B001-S001" "contamination" "Regulator"
      (clockFrom 1700000000000002000) (by decide)).2 (marshalMedicationData demoUnit)
      (by decide)⟩

/-- C25 (counterexample): batch `a-b` with serial `c` and batch `a` with serial
`b-c` are different pairs of non-empty strings with the same derived id, and
after the commission of the first the commission of the second is rejected as
already existing. -/
theorem medicationID_shared_by_two_pairs :
    (("a-b", "c") : String × String) ≠ ("a", "b-c") ∧
    ("a-b" : String) ++ "-" ++ "c" = "a" ++ "-" ++ "b-c" ∧
    responses [] dashCalls
      = [Response.success (Payload.text "a-b-c"),
         Response.error "Medication already exists with ID: a-b-c"] := by
  refine ⟨?_, ?_, ?_⟩
  · decide
  · decide
  · set_option maxRecDepth 65536 in decide

/-- C25 (amended): when neither batch holds the character `-`, different pairs
of batch and serial number have different derived ids; and a commission with
its required fields present is rejected as already existing exactly when a
value is stored under its own derived id. -/
theorem medicationID_injective (batch1 serial1 batch2 serial2 : String)
    (h1 : '-' ∉ batch1.data) (h2 : '-' ∉ batch2.data)
    (hne : (batch1, serial1) ≠ (batch2, serial2)) :
    batch1 ++ "-" ++ serial1 ≠ batch2 ++ "-" ++ serial2 ∧
    ∀ (s : Store) (gtin expiryDate manufacturer productName location : String) (now : Clock),
      gtin ≠ "" → batch2 ≠ "" → serial2 ≠ "" → manufacturer ≠ "" → productName ≠ "" →
      ((commissionMedication s
          [gtin, batch2, serial2, expiryDate, manufacturer, productName, location] now).1
        = Response.error ("Medication already exists with ID: " ++ (batch2 ++ "-" ++ serial2))
      ↔ GetState s (batch2 ++ "-" ++ serial2) ≠ none) := by
  refine ⟨fun h => ?_, ?_⟩
  · obtain ⟨hb, hs⟩ := medicationID_inj batch1 serial1 batch2 serial2 h1 h2 h
    exact hne (by rw [hb, hs])
  · intro s gtin expiryDate manufacturer productName location now hg hb hs hmf hp
    exact commissionMedication_alreadyExists_iff s gtin batch2 serial2 expiryDate manufacturer
      productName location now hg hb hs hmf hp

/-- C25 (witness): the units `B001-S001` and `B001-S002`; on `demoStore`, which
holds the first, the commission of the second is not rejected as already
existing. -/
theorem medicationID_injective_witness :
    '-' ∉ ("B001" : String).data ∧ (("B001", "S001") : String × String) ≠ ("B001", "S002") ∧
    ("B001" : String) ++ "-" ++ "S001" ≠ "B001" ++ "-" ++ "S002" ∧
    (commissionMedication demoStore
        ["7501001234567", "B001", "S002", "2025-12-31", "PharmaCorp", "Paracetamol 500mg",
          "Plant A"] (clockFrom 1700000000000002000)).1
      ≠ Response.error ("Medication already exists with ID: " ++ ("B001" ++ "-" ++ "S002")) :=
  have h := medicationID_injective "B001" "S001" "B001" "S002" (by decide) (by decide)
    (by decide)
  ⟨by decide, by decide, h.1,
    fun hrej => (h.2 demoStore "7501001234567" "2025-12-31" "PharmaCorp" "Paracetamol 500mg"
      "Plant A" (clockFrom 1700000000000002000) (by decide) (by decide) (by decide) (by decide)
      (by decide)).mp hrej (by set_option maxRecDepth 65536 in decide)⟩

/-- C26 (failing input): the commission of batch `tracking_A`, serial `S001` on
the empty store succeeds and stores an active unit under `tracking_A-S001`; that
key passes the tracking-key test, and `getVerificationStats` on the resulting
store counts no unit at all. -/
theorem unit_key_taken_for_event_key :
    responses [] [trackingBatchCall] = [Response.success (Payload.text "tracking_A-S001")] ∧
    statusAt (run [] [trackingBatchCall]) "tracking_A-S001" = some "active" ∧
    isTrackingKey "tracking_A-S001" = true ∧
    getVerificationStats (run [] [trackingBatchCall]) []
      = (Response.success (Payload.stats 0 0 0), run [] [trackingBatchCall]) := by
  refine ⟨?_, ?_, ?_, ?_⟩
  · set_option maxRecDepth 65536 in decide
  · set_option maxRecDepth 65536 in decide
  · decide
  · set_option maxRecDepth 65536 in decide

end MedChain
